import Mathlib

/-!
# ProSHADE task drivers and settings checks

A shallow embedding of `ProSHADE_tasks.cpp` (versions 0.7.2 and 0.7.6.1: the
four settings checks and the re-boxing, distances, symmetry, symmetry centre
and overlay tasks) and of the D-pair search, the group expansion and the
requested-symmetry report of `advancedAccess_symmetry.cpp`, with the
group-element generator taken from the specification.

Conventions of the embedding:

* a `proshade_single` / `proshade_double` is its IEEE-754 bit pattern; the
  comparisons the code performs are defined on the bit pattern;
* a pointer argument becomes explicit state: a function takes the value behind
  the pointer and returns the value that is behind it afterwards;
* a `throw` leaves the state as it is at the throw, so a function returns an
  `Outcome` together with the final state;
* calls into other translation units (reading, map processing, transforms,
  messages) are recorded in a log, in call order, and their results are
  parameters of the embedding (`Collaborators`).  They receive the settings
  read-only and are taken to return; exceptions that start inside them are
  outside the model;
* container sizes and loop counters are natural numbers (`proshade_unsign` is
  wider than any container that fits in memory).
-/

namespace ProSHADE

/-! ## Floating point values -/

/-- A `proshade_single` (C++ `float`): the 32 bits of an IEEE-754 binary32. -/
abbrev proshade_single := Fin (2 ^ 32)

/-- A `proshade_double` (C++ `double`): the 64 bits of an IEEE-754 binary64. -/
abbrev proshade_double := Fin (2 ^ 64)

namespace proshade_single

/-- Not-a-number: exponent bits all set and a non-zero fraction. -/
def isNaN (x : proshade_single) : Bool :=
  (x.val / 2 ^ 23) % 2 ^ 8 == 255 && x.val % 2 ^ 23 != 0

/-- The comparison `x == 0.0f`: true for both signed zeros, false otherwise. -/
def eqZero (x : proshade_single) : Bool := x.val % 2 ^ 31 == 0

/-- The constant `-1.0f`. -/
def minusOne : proshade_single := 0xBF800000

/-- The comparison `x == -1.0` (the float is promoted exactly). -/
def eqMinusOne (x : proshade_single) : Bool := x.val == 0xBF800000

/-- The comparison `x >= 0`: a number (not NaN) that is a zero or has a clear sign bit. -/
def geZero (x : proshade_single) : Bool :=
  !isNaN x && (x.val < 2 ^ 31 || x.val == 2 ^ 31)

/-- Sign-and-magnitude to biased representation, as used for ULP distances. -/
def signAndMagnitudeToBiased (x : proshade_single) : Nat :=
  if 2 ^ 31 ≤ x.val then (2 ^ 32 - x.val) % 2 ^ 32 else 2 ^ 31 + x.val

/-- Distance in units in the last place between two bit patterns. -/
def ulpDistance (x y : proshade_single) : Nat :=
  if signAndMagnitudeToBiased y ≤ signAndMagnitudeToBiased x then
    signAndMagnitudeToBiased x - signAndMagnitudeToBiased y
  else
    signAndMagnitudeToBiased y - signAndMagnitudeToBiased x

/-- The usual four-ULP comparison behind `FloatingPoint< proshade_single >::AlmostEquals`.
The class is declared outside the files under study, so the settings check takes
the comparison as a parameter; this definition is the instance used to show that
what is assumed of the parameter holds of the ULP comparison. -/
def almostEqualsUlp (x y : proshade_single) : Bool :=
  if isNaN x || isNaN y then false else decide (ulpDistance x y ≤ 4)

end proshade_single

namespace proshade_double

/-- Not-a-number: exponent bits all set and a non-zero fraction. -/
def isNaN (x : proshade_double) : Bool :=
  (x.val / 2 ^ 52) % 2 ^ 11 == 2047 && x.val % 2 ^ 52 != 0

/-- The comparison `x < 0.0`: a number with the sign bit set that is not the negative zero. -/
def ltZero (x : proshade_double) : Bool :=
  !isNaN x && decide (2 ^ 63 < x.val)

/-- The comparison `x == y` of two doubles: false when either is NaN, true for
two zeros of any sign, otherwise equality of the bit patterns. -/
def eq (x y : proshade_double) : Bool :=
  !isNaN x && !isNaN y && (x.val == y.val || (x.val % 2 ^ 63 == 0 && y.val % 2 ^ 63 == 0))

/-- Positive infinity, `std::numeric_limits< proshade_double >::infinity()`. -/
def infinity : proshade_double := 0x7FF0000000000000

end proshade_double

/-! ## Settings, exceptions, log -/

/-- The fields of `ProSHADE_settings` that the code under study reads or writes. -/
structure ProSHADE_settings where
  inputFiles : List String
  requestedResolution : proshade_single
  outName : String
  verbose : Int
  reBoxMap : Bool
  moveToCOM : Bool
  usePhase : Bool
  changeMapResolution : Bool
  findSymCentre : Bool
  addExtraSpace : proshade_single
  axisErrTolerance : proshade_double
  centrePosition : List proshade_double
  requestedSymmetryType : String
  requestedSymmetryFold : Nat
  computeEnergyLevelsDesc : Bool
  computeTraceSigmaDesc : Bool
  computeRotationFuncDesc : Bool
  allDetectedCAxes : List (List proshade_double)
  allDetectedDAxes : List (List Nat)
  deriving DecidableEq, Repr

/-- What a `throw` carries: a `ProSHADE_exception` with its message and error
code (the source location and the help text are not modelled), or the
`std::out_of_range` of a failed `at()`. -/
inductive CppException where
  | ProSHADE_exception (message : String) (errc : String)
  | out_of_range
  deriving DecidableEq, Repr

/-- How a function ends: it returns, it throws, or it ends the process with `exit`. -/
inductive Outcome where
  | returned
  | raised (e : CppException)
  | exited (status : Int)
  deriving DecidableEq, Repr

/-- The error code of an outcome, when it is a raised `ProSHADE_exception`. -/
def Outcome.errc : Outcome → Option String
  | .raised (.ProSHADE_exception _ c) => some c
  | _ => none

/-- The kinds of heap objects the tasks create. -/
inductive Resource where
  | data
  | settings
  | buffer
  | plan
  deriving DecidableEq, Repr

/-- The member functions of a data object that the tasks call. -/
inductive Method where
  | readInStructure (fName : String) (inputO : Nat)
  | processInternalMap
  | mapToSpheres
  | computeSphericalHarmonics
  | computeRotationFunction
  | getRotationFunction
  | detectSymmetryFromAngleAxisSpace
  | detectSymmetryInStructure
  | reportSymmetryResults
  | getReBoxBoundaries
  | createNewMapFromBounds (target : Nat)
  | writeMap (fName : String)
  | deepCopyMap
  | getAllGroupElements
  | prepareFSCFourierMemory
  | writeOutOverlayFiles
  | reportOverlayResults
  deriving DecidableEq, Repr

/-- The functions of other namespaces that the tasks call, with the ids of the
data objects or transform plans they are given. -/
inductive FreeFunction where
  | computeEnergyLevelsDescriptor (obj1 obj2 : Nat)
  | computeTraceSigmaDescriptor (obj1 obj2 : Nat)
  | computeRotationFunctionDescriptor (obj1 obj2 : Nat)
  | findReliableUnphasedSymmetries
  | optimiseDGroupAngleFromAxesHeights (obj : Nat)
  | allocateCentreOfMapFourierTransforms
  | releaseCentreOfMapFourierTransforms
  | fftw_execute (plan : Nat)
  | fftw_plan_dft_3d
  | fftw_destroy_plan (plan : Nat)
  | checkMemoryAllocation (buffer : Nat)
  | findCentreOfRotationAxis (obj : Nat)
  | getOptimalRotation (staticStructure movingStructure : Nat)
  | getOptimalTranslation (staticStructure movingStructure : Nat)
  deriving DecidableEq, Repr

/-- One observable step of a run, in the order the steps happen: a message, the
creation or deletion of a heap object, a call of a member function of the data
object `obj`, or a call of a function of another namespace.  A call carries the
value of the settings object it was given, when it was given one. -/
inductive Event where
  | warning (verbose : Int) (code : String)
  | progress (verbose : Int) (level : Int) (message : String)
  | stdout (message : String)
  | alloc (kind : Resource) (id : Nat)
  | release (id : Nat)
  | call (obj : Nat) (method : Method) (settings : Option ProSHADE_settings)
  | func (f : FreeFunction) (settings : Option ProSHADE_settings)
  deriving DecidableEq, Repr

/-- The part of the process state shared by all functions: the log of events so
far and the number of heap objects created so far (the next object id). -/
structure Machine where
  log : List Event
  nextId : Nat
  deriving DecidableEq, Repr

/-- Append one event to the log. -/
def Machine.emit (m : Machine) (e : Event) : Machine :=
  { m with log := m.log ++ [e] }

/-- Create a heap object: its id is the next free one. -/
def Machine.new (m : Machine) (kind : Resource) : Nat × Machine :=
  (m.nextId, { log := m.log ++ [Event.alloc kind m.nextId], nextId := m.nextId + 1 })

/-- Delete a heap object. -/
def Machine.delete (m : Machine) (id : Nat) : Machine :=
  m.emit (Event.release id)

/-- Record the call of a member function of the data object `obj`. -/
def Machine.call (m : Machine) (obj : Nat) (method : Method)
    (settings : Option ProSHADE_settings) : Machine :=
  m.emit (Event.call obj method settings)

/-- Record the call of a function of another namespace. -/
def Machine.func (m : Machine) (f : FreeFunction)
    (settings : Option ProSHADE_settings) : Machine :=
  m.emit (Event.func f settings)

/-! ## Settings checks -/

/-- The result of a settings check: how it ended, the settings object
afterwards, and the machine afterwards. -/
structure CheckResult where
  outcome : Outcome
  settings : ProSHADE_settings
  machine : Machine
  deriving DecidableEq, Repr

/-- `checkMapManipulationSettings` (identical in 0.7.2 and 0.7.6.1 up to the
source location given to the exception). -/
def checkMapManipulationSettings (isFilePDB : String → Bool)
    (settings : ProSHADE_settings) (m : Machine) : CheckResult :=
  if settings.inputFiles.length == 0 then
    ⟨.raised (.ProSHADE_exception "There is no input structure for map manipulation." "EB00002"),
      settings, m⟩
  else
    match settings.inputFiles.get? 0 with
    | none => ⟨.raised .out_of_range, settings, m⟩
    | some first =>
      if isFilePDB first then
        let m1 := m.emit (.warning settings.verbose "WB00004")
        if settings.requestedResolution.eqZero then
          ⟨.raised (.ProSHADE_exception "No resolution given for PDB file re-boxing." "EB00011"),
            settings, m1⟩
        else if settings.outName == "" then
          ⟨.raised (.ProSHADE_exception "No output file name." "EB00016"), settings, m1⟩
        else
          ⟨.returned, settings, m1⟩
      else if settings.outName == "" then
        ⟨.raised (.ProSHADE_exception "No output file name." "EB00016"), settings, m⟩
      else
        ⟨.returned, settings, m⟩

/-- `checkDistancesSettings`, version 0.7.6.1: the resolution is compared with
`-1.0f` by `FloatingPoint< proshade_single >::AlmostEquals`, a parameter here. -/
def checkDistancesSettings (almostEquals : proshade_single → proshade_single → Bool)
    (settings : ProSHADE_settings) (m : Machine) : CheckResult :=
  if settings.inputFiles.length < 2 then
    ⟨.raised (.ProSHADE_exception
      "There are not enough structures for distance computation." "ED00012"), settings, m⟩
  else if almostEquals settings.requestedResolution proshade_single.minusOne then
    ⟨.raised (.ProSHADE_exception "Resolution value not set." "ED00013"), settings, m⟩
  else
    ⟨.returned, settings, m⟩

/-- `checkDistancesSettings`, version 0.7.2: the resolution is compared with `-1.0` by `==`. -/
def checkDistancesSettings_v072 (settings : ProSHADE_settings) (m : Machine) : CheckResult :=
  if settings.inputFiles.length < 2 then
    ⟨.raised (.ProSHADE_exception
      "There are not enough structures for distance computation." "ED00012"), settings, m⟩
  else if settings.requestedResolution.eqMinusOne then
    ⟨.raised (.ProSHADE_exception "Resolution value not set." "ED00013"), settings, m⟩
  else
    ⟨.returned, settings, m⟩

/-- `checkSymmetrySettings`, version 0.7.6.1. -/
def checkSymmetrySettings (settings : ProSHADE_settings) (m : Machine) : CheckResult :=
  if settings.inputFiles.length < 1 then
    ⟨.raised (.ProSHADE_exception
      "There are not enough structures for symmetry detection." "ES00028"), settings, m⟩
  else if settings.axisErrTolerance.ltZero then
    ⟨.raised (.ProSHADE_exception
      "Symmetry axis detection tolerance set to negative value." "ES00053"), settings, m⟩
  else
    ⟨.returned, settings, m⟩

/-- `checkSymmetrySettings`, version 0.7.2: only the number of structures is checked. -/
def checkSymmetrySettings_v072 (settings : ProSHADE_settings) (m : Machine) : CheckResult :=
  if settings.inputFiles.length < 1 then
    ⟨.raised (.ProSHADE_exception
      "There are not enough structures for symmetry detection." "ES00028"), settings, m⟩
  else
    ⟨.returned, settings, m⟩

/-- `checkOverlaySettings`, version 0.7.6.1: with exactly two structures, map
centring is turned off (with a warning) when it was on. -/
def checkOverlaySettings (settings : ProSHADE_settings) (m : Machine) : CheckResult :=
  if settings.inputFiles.length != 2 then
    ⟨.raised (.ProSHADE_exception
      "There are not enough structures for map overlay\n                    : computation."
      "EO00033"), settings, m⟩
  else if settings.moveToCOM then
    ⟨.returned, { settings with moveToCOM := false },
      m.emit (.warning settings.verbose "WO00066")⟩
  else
    ⟨.returned, settings, m⟩

/-- `checkOverlaySettings`, version 0.7.2: only the number of structures is checked. -/
def checkOverlaySettings_v072 (settings : ProSHADE_settings) (m : Machine) : CheckResult :=
  if settings.inputFiles.length != 2 then
    ⟨.raised (.ProSHADE_exception
      "There are not enough structures for map overlay\n                    : computation."
      "EO00032"), settings, m⟩
  else
    ⟨.returned, settings, m⟩

/-! ## Collaborators -/

/-- The six boundary indices of a map, as read through `getXFromPtr` ... `getZToPtr`. -/
structure Bounds where
  xFrom : Int
  xTo : Int
  yFrom : Int
  yTo : Int
  zFrom : Int
  zTo : Int
  deriving DecidableEq, Repr

/-- A list of axes, each the numbers `[fold, x, y, z, angle, peak height, ...]`. -/
abbrev AxisList := List (List proshade_double)

/-- The services the tasks call, as parameters: the data class, the file type
test, the number formatting and the transform and descriptor routines are
declared outside the files under study.  `D` is the state of one data object;
every member function maps the state before the call to the state after it,
together with what it hands back to the task.  The services read the settings
object they are given and leave it as it is. -/
structure Collaborators (D : Type) where
  isFilePDB : String → Bool
  almostEquals : proshade_single → proshade_single → Bool
  showDouble : proshade_double → String
  timesFive : proshade_single → proshade_single
  construct : D
  construct_v072 : ProSHADE_settings → D
  readInStructure : String → Nat → ProSHADE_settings → D → D
  processInternalMap : ProSHADE_settings → D → D
  mapToSpheres : ProSHADE_settings → D → D
  computeSphericalHarmonics : ProSHADE_settings → D → D
  computeRotationFunction : ProSHADE_settings → D → D
  getRotationFunction : ProSHADE_settings → D → D
  detectSymmetryFromAngleAxisSpace :
    ProSHADE_settings → D → AxisList → AxisList → D × AxisList × AxisList
  detectSymmetryInStructure : ProSHADE_settings → D → AxisList → D × AxisList
  reportSymmetryResults : ProSHADE_settings → D → D
  bounds : D → Bounds
  getReBoxBoundaries : ProSHADE_settings → D → D × Bounds
  createNewMapFromBounds : ProSHADE_settings → D → D → Bounds → D × D
  writeMap : String → D → D
  deepCopyMap : Int → D → List proshade_double
  mapCOMProcessChangeX : D → proshade_double
  mapCOMProcessChangeY : D → proshade_double
  mapCOMProcessChangeZ : D → proshade_double
  computeEnergyLevelsDescriptor : D → D → ProSHADE_settings → proshade_double × D × D
  computeTraceSigmaDescriptor : D → D → ProSHADE_settings → proshade_double × D × D
  computeRotationFunctionDescriptor : D → D → ProSHADE_settings → proshade_double × D × D
  findReliableUnphasedSymmetries : AxisList → Int → proshade_double → List Nat
  optimiseDGroupAngleFromAxesHeights :
    AxisList → List Nat → D → ProSHADE_settings → AxisList × D
  getAllGroupElements : D → AxisList → List Nat → String → proshade_double → AxisList
  noBins : D → Nat
  rotationMatrixSimilarity : List proshade_double → List proshade_double → proshade_double → Bool
  findCentreOfRotationAxis : D → AxisList → Int → List proshade_double × D

/-- The loop `for ( iter = first; iter < first + count; iter++ ) body`: the
iterations run in order and the loop stops at the first one that does not run
to its end (a throw or an `exit`). -/
def forLoop {S : Type} (body : Nat → S → Outcome × S) : Nat → Nat → S → Outcome × S
  | _, 0, s => (.returned, s)
  | iter, count + 1, s =>
    match body iter s with
    | (.returned, s1) => forLoop body (iter + 1) count s1
    | (o, s1) => (o, s1)

/-! ## The re-boxing task -/

/-- What `MapManipulationTask` works on besides the settings: the three output
vectors and the machine. -/
structure MapManipulationState where
  originalBounds : List Bounds
  reboxedBounds : List Bounds
  manipulatedMaps : List (List proshade_double)
  machine : Machine
  deriving DecidableEq, Repr

/-- One iteration of the loop of `MapManipulationTask`, for input `iter`. -/
def MapManipulationTask.body {D : Type} (c : Collaborators D) (settings : ProSHADE_settings)
    (iter : Nat) (st : MapManipulationState) : Outcome × MapManipulationState :=
  -- Create a data object
  let (strToRebox, m1) := st.machine.new .data
  match settings.inputFiles.get? iter with
  | none => (.raised .out_of_range, { st with machine := m1 })
  | some fName =>
    -- Read in the file
    let m2 := m1.call strToRebox (.readInStructure fName iter) (some settings)
    let d1 := c.readInStructure fName iter settings c.construct
    -- Save the original boundaries
    let originalBounds := st.originalBounds ++ [c.bounds d1]
    -- Internal data processing
    let m3 := m2.call strToRebox .processInternalMap (some settings)
    let d2 := c.processInternalMap settings d1
    -- Create new structure for re-boxing
    let (reBoxStr, m4) := m3.new .data
    -- Re-box map, if need be
    let (d3, r1, m5) :=
      if settings.reBoxMap then
        let (nonZeroBounds, n1) := m4.new .buffer
        let n2 := n1.call strToRebox .getReBoxBoundaries (some settings)
        let (e1, nzb) := c.getReBoxBoundaries settings d2
        let n3 := n2.call strToRebox (.createNewMapFromBounds reBoxStr) (some settings)
        let (e2, r) := c.createNewMapFromBounds settings e1 c.construct nzb
        (e2, r, n3.delete nonZeroBounds)
      else (d2, c.construct, m4)
    -- Save the modified structure
    let ss := settings.outName ++ "_" ++ toString iter ++ ".map"
    let m6 := m5.emit (.progress settings.verbose 1 ("Saving the re-boxed map into " ++ ss))
    let (_d4, r2, m7) :=
      if settings.reBoxMap then
        (d3, c.writeMap ss r1, m6.call reBoxStr (.writeMap ss) none)
      else
        (c.writeMap ss d3, r1, m6.call strToRebox (.writeMap ss) none)
    let m8 := m7.emit (.progress settings.verbose 2 "Structure saved.")
    -- Save the re-boxed boundaries
    let reboxedBounds := st.reboxedBounds ++ [c.bounds r2]
    -- Save the map
    let m9 := m8.call reBoxStr .deepCopyMap none
    let manipulatedMaps := st.manipulatedMaps ++ [c.deepCopyMap settings.verbose r2]
    -- Release memory
    let m10 := (m9.delete strToRebox).delete reBoxStr
    (.returned, ⟨originalBounds, reboxedBounds, manipulatedMaps, m10⟩)

/-- `MapManipulationTask`: the settings check, then one iteration per input
file.  The result is how the task ended, the settings object afterwards and
the output vectors and machine afterwards. -/
def MapManipulationTask {D : Type} (c : Collaborators D) (settings : ProSHADE_settings)
    (st : MapManipulationState) : Outcome × ProSHADE_settings × MapManipulationState :=
  let chk := checkMapManipulationSettings c.isFilePDB settings st.machine
  match chk.outcome with
  | .returned =>
    let r := forLoop (MapManipulationTask.body c chk.settings) 0 chk.settings.inputFiles.length
      { st with machine := chk.machine }
    (r.1, chk.settings, r.2)
  | o => (o, chk.settings, { st with machine := chk.machine })

/-! ## The distances task -/

/-- What `DistancesComputationTask` works on besides the settings: the three
output vectors and the machine. -/
structure DistancesState where
  enLevs : List proshade_double
  trSigm : List proshade_double
  rotFun : List proshade_double
  machine : Machine
  deriving DecidableEq, Repr

/-- `ReportDistancesResults`: four progress messages at level 0. -/
def ReportDistancesResults {D : Type} (c : Collaborators D) (settings : ProSHADE_settings)
    (str1 str2 : String) (enLevDist trSigmDist rotFunDist : proshade_double)
    (m : Machine) : Machine :=
  let m1 := m.emit (.progress settings.verbose 0 ("Distances between " ++ str1 ++ " and " ++ str2))
  let m2 := m1.emit (.progress settings.verbose 0
    ("Energy levels distance    : " ++ c.showDouble enLevDist))
  let m3 := m2.emit (.progress settings.verbose 0
    ("Trace sigma distance      : " ++ c.showDouble trSigmDist))
  m3.emit (.progress settings.verbose 0 ("Rotation function distance: " ++ c.showDouble rotFunDist))

/-- The loop state of `DistancesComputationTask`: the reference structure
(its state changes when a descriptor is computed) and the outputs. -/
structure DistancesLoopState (D : Type) where
  compareAgainst : D
  out : DistancesState

/-- One iteration of the loop of `DistancesComputationTask`: input `iter` is
compared with the reference structure, the object with id `against`. -/
def DistancesComputationTask.body {D : Type} (c : Collaborators D) (settings : ProSHADE_settings)
    (against : Nat) (iter : Nat) (st : DistancesLoopState D) : Outcome × DistancesLoopState D :=
  -- Create a data object
  let (compareChanging, m1) := st.out.machine.new .data
  match settings.inputFiles.get? iter with
  | none => (.raised .out_of_range, { st with out := { st.out with machine := m1 } })
  | some fName =>
    let m2 := m1.call compareChanging (.readInStructure fName iter) (some settings)
    let d1 := c.readInStructure fName iter settings c.construct
    let m3 := m2.call compareChanging .processInternalMap (some settings)
    let d2 := c.processInternalMap settings d1
    let m4 := m3.call compareChanging .mapToSpheres (some settings)
    let d3 := c.mapToSpheres settings d2
    let m5 := m4.call compareChanging .computeSphericalHarmonics (some settings)
    let d4 := c.computeSphericalHarmonics settings d3
    -- Get distances
    let (enLevDist, a1, d5, m6) :=
      if settings.computeEnergyLevelsDesc then
        let r := c.computeEnergyLevelsDescriptor st.compareAgainst d4 settings
        (r.1, r.2.1, r.2.2,
          m5.func (.computeEnergyLevelsDescriptor against compareChanging) (some settings))
      else
        ((0 : proshade_double), st.compareAgainst, d4,
          m5.emit (.progress settings.verbose 1 "Energy levels distance computation not required."))
    let (trSigmDist, a2, d6, m7) :=
      if settings.computeTraceSigmaDesc then
        let r := c.computeTraceSigmaDescriptor a1 d5 settings
        (r.1, r.2.1, r.2.2,
          m6.func (.computeTraceSigmaDescriptor against compareChanging) (some settings))
      else
        ((0 : proshade_double), a1, d5,
          m6.emit (.progress settings.verbose 1 "Trace sigma distance computation not required."))
    let (rotFunDist, a3, _d7, m8) :=
      if settings.computeRotationFuncDesc then
        let r := c.computeRotationFunctionDescriptor a2 d6 settings
        (r.1, r.2.1, r.2.2,
          m7.func (.computeRotationFunctionDescriptor against compareChanging) (some settings))
      else
        ((0 : proshade_double), a2, d6,
          m7.emit (.progress settings.verbose 1
            "Rotation function distance computation not required."))
    -- Save results to the run object
    let enLevs := st.out.enLevs ++ [enLevDist]
    let trSigm := st.out.trSigm ++ [trSigmDist]
    let rotFun := st.out.rotFun ++ [rotFunDist]
    -- Report results
    match settings.inputFiles.get? 0 with
    | none => (.raised .out_of_range, ⟨a3, ⟨enLevs, trSigm, rotFun, m8⟩⟩)
    | some first =>
      let m9 := ReportDistancesResults c settings first fName enLevDist trSigmDist rotFunDist m8
      -- Release the memory
      (.returned, ⟨a3, ⟨enLevs, trSigm, rotFun, m9.delete compareChanging⟩⟩)

/-- `DistancesComputationTask` (the same statements in 0.7.2 and 0.7.6.1; the
settings check of 0.7.6.1 is used): the settings check, the reference structure
read from input 0, one iteration per further input, and the release of the
reference structure. -/
def DistancesComputationTask {D : Type} (c : Collaborators D) (settings : ProSHADE_settings)
    (st : DistancesState) : Outcome × ProSHADE_settings × DistancesState :=
  let chk := checkDistancesSettings c.almostEquals settings st.machine
  match chk.outcome with
  | .returned =>
    let settings := chk.settings
    -- Create a data object
    let (compareAgainst, m1) := chk.machine.new .data
    match settings.inputFiles.get? 0 with
    | none => (.raised .out_of_range, settings, { st with machine := m1 })
    | some first =>
      let m2 := m1.call compareAgainst (.readInStructure first 0) (some settings)
      let d1 := c.readInStructure first 0 settings c.construct
      let m3 := m2.call compareAgainst .processInternalMap (some settings)
      let d2 := c.processInternalMap settings d1
      let m4 := m3.call compareAgainst .mapToSpheres (some settings)
      let d3 := c.mapToSpheres settings d2
      let m5 := m4.call compareAgainst .computeSphericalHarmonics (some settings)
      let d4 := c.computeSphericalHarmonics settings d3
      -- Now, for each other structure
      let r := forLoop (DistancesComputationTask.body c settings compareAgainst) 1
        (settings.inputFiles.length - 1) ⟨d4, { st with machine := m5 }⟩
      match r.1 with
      | .returned =>
        (.returned, settings, { r.2.out with machine := r.2.out.machine.delete compareAgainst })
      | o => (o, settings, r.2.out)
  | o => (o, chk.settings, { st with machine := chk.machine })

/-! ## The symmetry detection task -/

/-- What `SymmetryDetectionTask` works on besides the settings: the output
vectors and the machine. -/
structure SymmetryState where
  axes : AxisList
  allCs : AxisList
  mapCOMShift : List proshade_double
  machine : Machine
  deriving DecidableEq, Repr

/-- One iteration of the loop of `SymmetryDetectionTask`, version 0.7.2. -/
def SymmetryDetectionTask_v072.body {D : Type} (c : Collaborators D)
    (settings : ProSHADE_settings) (iter : Nat) (st : SymmetryState) : Outcome × SymmetryState :=
  -- Create a data object
  let (symmetryStructure, m1) := st.machine.new .data
  match settings.inputFiles.get? iter with
  | none => (.raised .out_of_range, { st with machine := m1 })
  | some fName =>
    let m2 := m1.call symmetryStructure (.readInStructure fName iter) (some settings)
    let d1 := c.readInStructure fName iter settings (c.construct_v072 settings)
    let m3 := m2.call symmetryStructure .processInternalMap (some settings)
    let d2 := c.processInternalMap settings d1
    let m4 := m3.call symmetryStructure .mapToSpheres (some settings)
    let d3 := c.mapToSpheres settings d2
    let m5 := m4.call symmetryStructure .computeSphericalHarmonics (some settings)
    let d4 := c.computeSphericalHarmonics settings d3
    let m6 := m5.call symmetryStructure .getRotationFunction (some settings)
    let d5 := c.getRotationFunction settings d4
    let m7 := m6.call symmetryStructure .detectSymmetryInStructure (some settings)
    let r := c.detectSymmetryInStructure settings d5 st.axes
    let m8 := m7.call symmetryStructure .reportSymmetryResults (some settings)
    let _d7 := c.reportSymmetryResults settings r.1
    -- Release memory
    (.returned, { st with axes := r.2, machine := m8.delete symmetryStructure })

/-- `SymmetryDetectionTask`, version 0.7.2 (it has the `axes` output only; the
other two vectors of the state are carried along unchanged). -/
def SymmetryDetectionTask_v072 {D : Type} (c : Collaborators D) (settings : ProSHADE_settings)
    (st : SymmetryState) : Outcome × ProSHADE_settings × SymmetryState :=
  let chk := checkSymmetrySettings_v072 settings st.machine
  match chk.outcome with
  | .returned =>
    let r := forLoop (SymmetryDetectionTask_v072.body c chk.settings) 0
      chk.settings.inputFiles.length { st with machine := chk.machine }
    (r.1, chk.settings, r.2)
  | o => (o, chk.settings, { st with machine := chk.machine })

/-! ### Symmetry centre detection (0.7.6.1) -/

/-- The double `1.0`. -/
def one : proshade_double := 0x3FF0000000000000

/-- The double `0.01`. -/
def oneHundredth : proshade_double := 0x3F847AE147AE147B

/-- The vector `identityMat`: nine zeros with `1.0` at positions 0, 4 and 8. -/
def identityMat : List proshade_double := [one, 0, 0, 0, one, 0, 0, 0, one]

/-- Create several heap objects of one kind, one after the other; the ids are
returned in creation order. -/
def Machine.newMany (m : Machine) (kind : Resource) : Nat → List Nat × Machine
  | 0 => ([], m)
  | n + 1 =>
    let (id, m1) := m.new kind
    let (ids, m2) := Machine.newMany m1 kind n
    (id :: ids, m2)

/-- Delete several heap objects, in the order given. -/
def Machine.deleteMany (m : Machine) (ids : List Nat) : Machine :=
  ids.foldl Machine.delete m

/-- The three assignments `settings->centrePosition.at(i) = infinity`, i = 0, 1, 2. -/
def SymmetryCentreDetectionTask.setCentreToInfinity (settings : ProSHADE_settings) :
    Outcome × ProSHADE_settings :=
  if 0 < settings.centrePosition.length then
    let s1 := { settings with
      centrePosition := settings.centrePosition.set 0 proshade_double.infinity }
    if 1 < s1.centrePosition.length then
      let s2 := { s1 with centrePosition := s1.centrePosition.set 1 proshade_double.infinity }
      if 2 < s2.centrePosition.length then
        (.returned, { s2 with
          centrePosition := s2.centrePosition.set 2 proshade_double.infinity })
      else (.raised .out_of_range, s2)
    else (.raised .out_of_range, s1)
  else (.raised .out_of_range, settings)

/-- The state of the two loops over pairs: the re-read structure, the points
found so far and the machine. -/
structure LinesState (D : Type) where
  symStr : D
  pointsOnLines : AxisList
  machine : Machine

/-- The inner loop body over `gEl2` for a fixed `gEl1`. -/
def SymmetryCentreDetectionTask.pairBody {D : Type} (c : Collaborators D)
    (settings : ProSHADE_settings) (symStr : Nat) (symElems : AxisList) (gEl1 gEl2 : Nat)
    (st : LinesState D) : Outcome × LinesState D :=
  -- Unique combinations only
  if gEl2 ≤ gEl1 then (.returned, st) else
  match symElems.get? gEl2 with
  | none => (.raised .out_of_range, st)
  | some e2 =>
    -- Ignore identity element
    if c.rotationMatrixSimilarity e2 identityMat oneHundredth then (.returned, st) else
    match symElems.get? gEl1 with
    | none => (.raised .out_of_range, st)
    | some e1 =>
      -- Create new elements list containing this pair only
      if e1.length < 9 then (.raised .out_of_range, st) else
      if e2.length < 9 then (.raised .out_of_range, st) else
      let symElemPair := [e1.take 9, e2.take 9]
      -- Find the rotation axis between these two elements
      let r := c.findCentreOfRotationAxis st.symStr symElemPair settings.verbose
      (.returned, ⟨r.2, st.pointsOnLines ++ [r.1],
        st.machine.func (.findCentreOfRotationAxis symStr) none⟩)

/-- The outer loop body over `gEl1`. -/
def SymmetryCentreDetectionTask.elementBody {D : Type} (c : Collaborators D)
    (settings : ProSHADE_settings) (symStr : Nat) (symElems : AxisList) (gEl1 : Nat)
    (st : LinesState D) : Outcome × LinesState D :=
  match symElems.get? gEl1 with
  | none => (.raised .out_of_range, st)
  | some e1 =>
    -- Ignore identity element
    if c.rotationMatrixSimilarity e1 identityMat oneHundredth then (.returned, st) else
    forLoop (SymmetryCentreDetectionTask.pairBody c settings symStr symElems gEl1) 0
      symElems.length st

/-- The inner loop body over `lIt2` for a fixed `lIt1`: three arrays are
created, the slopes are read from the two lines, and the arrays are deleted. -/
def SymmetryCentreDetectionTask.slopeBody {D : Type} (lIt1 lIt2 : Nat)
    (st : LinesState D) : Outcome × LinesState D :=
  -- Unique combinations only
  if lIt1 ≤ lIt2 then (.returned, st) else
  let (slope1, m1) := st.machine.new .buffer
  let (slope2, m2) := m1.new .buffer
  match st.pointsOnLines.get? lIt1, st.pointsOnLines.get? lIt2 with
  | some l1, some l2 =>
    if l1.length < 6 then (.raised .out_of_range, { st with machine := m2 }) else
    if l2.length < 6 then (.raised .out_of_range, { st with machine := m2 }) else
    let (slopeProd, m3) := m2.new .buffer
    (.returned, { st with machine := ((m3.delete slope1).delete slope2).delete slopeProd })
  | _, _ => (.raised .out_of_range, { st with machine := m2 })

/-- The outer loop body over `lIt1`. -/
def SymmetryCentreDetectionTask.lineBody {D : Type} (lIt1 : Nat)
    (st : LinesState D) : Outcome × LinesState D :=
  forLoop (SymmetryCentreDetectionTask.slopeBody lIt1) 0 st.pointsOnLines.length st

/-- The result of `SymmetryCentreDetectionTask`: how it ended, the settings
object it was given (afterwards), the two vectors it was given (afterwards)
and the machine. -/
structure CentreDetectionResult where
  outcome : Outcome
  settings : ProSHADE_settings
  allCs : AxisList
  axes : AxisList
  machine : Machine
  deriving DecidableEq, Repr

/-- The second half of `SymmetryCentreDetectionTask`, from the phased re-reading
of the structure to the final release of the transform memory. -/
def SymmetryCentreDetectionTask.phased {D : Type} (c : Collaborators D)
    (settings : ProSHADE_settings) (allCs axes : AxisList) (strIndex : Nat)
    (symElems : AxisList) (m : Machine) : CentreDetectionResult :=
  -- Re-read the map, this time with phases
  let (symStr, m1) := m.new .data
  match settings.inputFiles.get? strIndex with
  | none => ⟨.raised .out_of_range, settings, allCs, axes, m1⟩
  | some fName =>
    let m2 := m1.call symStr (.readInStructure fName strIndex) (some settings)
    let d1 := c.readInStructure fName strIndex settings c.construct
    let m3 := m2.call symStr .processInternalMap (some settings)
    let d2 := c.processInternalMap settings d1
    -- Allocate the Fourier transforms related memory
    let m4 := m3.func .allocateCentreOfMapFourierTransforms none
    let (fourierBuffers, m5) := m4.newMany .buffer 6
    let (fourierPlans, m6) := m5.newMany .plan 3
    -- Compute Fourier for the original map
    let m7 := m6.func (.fftw_execute (fourierPlans.getD 0 0)) none
    -- Allocate Fourier coefficients array for the translation optimisation
    let (trsOptMap, m8) := m7.new .buffer
    let (trsOptCoeffs, m9) := m8.new .buffer
    let m10 := (m9.func (.checkMemoryAllocation trsOptMap) none).func
      (.checkMemoryAllocation trsOptCoeffs) none
    let (planForwardOptimisation, m11) := (m10.func .fftw_plan_dft_3d none).new .plan
    -- Prepare FSC computation memory and variables
    let m12 := m11.call symStr .prepareFSCFourierMemory none
    let (fscBuffers, m13) := m12.newMany .buffer 4
    let (binRows, m14) := m13.newMany .buffer (c.noBins d2)
    let (binDataFSC, m15) := m14.new .buffer
    let (binCounts, m16) := m15.new .buffer
    let (fscPlan, m17) := m16.new .plan
    let (fscByBin, m18) := m17.new .buffer
    -- The pairs of group elements
    let r1 := forLoop (SymmetryCentreDetectionTask.elementBody c settings symStr symElems) 0
      symElems.length ⟨d2, [], m18⟩
    match r1.1 with
    | .returned =>
      -- The pairs of lines
      let r2 := forLoop SymmetryCentreDetectionTask.lineBody 0 r1.2.pointsOnLines.length r1.2
      match r2.1 with
      | .returned =>
        -- Release optimisation memory
        let n1 := (r2.2.machine.delete trsOptMap).delete trsOptCoeffs
        let n2 := (n1.func (.fftw_destroy_plan planForwardOptimisation) none).delete
          planForwardOptimisation
        -- Release the Fourier transforms related memory
        let n3 := n2.func .releaseCentreOfMapFourierTransforms none
        let n4 := (n3.deleteMany fourierBuffers).deleteMany fourierPlans
        -- Release memory after FSC computation
        let n5 := n4.deleteMany (fscBuffers.take 3)
        let n6 := (n5.func (.fftw_destroy_plan fscPlan) none).delete fscPlan
        let n7 := n6.deleteMany (fscBuffers.drop 3)
        let n8 := n7.deleteMany binRows
        let n9 := ((n8.delete binDataFSC).delete binCounts).delete fscByBin
        ⟨.returned, settings, allCs, axes, n9⟩
      | o => ⟨o, settings, allCs, axes, r2.2.machine⟩
    | o => ⟨o, settings, allCs, axes, r1.2.machine⟩

/-- `SymmetryCentreDetectionTask` (0.7.6.1): phase-less symmetry detection on a
copy of the settings, then either the early return with the centre set to
infinity or the phased second half.  The copy constructor of the settings is
taken to copy every field. -/
def SymmetryCentreDetectionTask {D : Type} (c : Collaborators D)
    (settings : ProSHADE_settings) (allCs axes : AxisList) (strIndex : Nat)
    (m : Machine) : CentreDetectionResult :=
  -- Keep original settings for the phased reading
  let (_tmpSettingsId, m1) := m.new .settings
  let tmp0 := settings
  -- Enforce the necessary settings
  let tmpSettings : ProSHADE_settings :=
    { tmp0 with
      usePhase := false
      requestedSymmetryType := "onlyC"
      moveToCOM := false
      addExtraSpace := c.timesFive tmp0.addExtraSpace }
  let settings : ProSHADE_settings := { settings with moveToCOM := false }
  -- Read in the structure and find all symmetries without using phase information
  let (symStr, m2) := m1.new .data
  match tmpSettings.inputFiles.get? strIndex with
  | none => ⟨.raised .out_of_range, settings, allCs, axes, m2⟩
  | some fName =>
    let m3 := m2.call symStr (.readInStructure fName strIndex) (some tmpSettings)
    let d1 := c.readInStructure fName strIndex tmpSettings c.construct
    let m4 := m3.call symStr .processInternalMap (some tmpSettings)
    let d2 := c.processInternalMap tmpSettings d1
    let m5 := m4.call symStr .mapToSpheres (some tmpSettings)
    let d3 := c.mapToSpheres tmpSettings d2
    let m6 := m5.call symStr .computeSphericalHarmonics (some tmpSettings)
    let d4 := c.computeSphericalHarmonics tmpSettings d3
    let m7 := m6.call symStr .computeRotationFunction (some tmpSettings)
    let d5 := c.computeRotationFunction tmpSettings d4
    let m8 := m7.call symStr .detectSymmetryFromAngleAxisSpace (some tmpSettings)
    let det := c.detectSymmetryFromAngleAxisSpace tmpSettings d5 axes allCs
    let d6 := det.1
    let axes := det.2.1
    let allCs := det.2.2
    -- Find reliable symmetries in the Patterson map
    let m9 := m8.func .findReliableUnphasedSymmetries none
    let relSym := c.findReliableUnphasedSymmetries allCs tmpSettings.verbose
      tmpSettings.axisErrTolerance
    -- If no symmetries are found, inform the user
    if relSym.length == 0 then
      let m10 := m9.emit (.warning tmpSettings.verbose "WS00071")
      let r := SymmetryCentreDetectionTask.setCentreToInfinity settings
      ⟨r.1, r.2, allCs, axes, m10⟩
    else
      -- Found something! Do we have two perpendicular axes?
      if relSym.length == 2 then
        -- Optimise the orthogonal pair
        let m10 := m9.func (.optimiseDGroupAngleFromAxesHeights symStr) (some tmpSettings)
        let opt := c.optimiseDGroupAngleFromAxesHeights allCs relSym d6 tmpSettings
        -- Generate the symmetry elements for the detected axes
        let m11 := m10.call symStr .getAllGroupElements none
        let symElems := c.getAllGroupElements opt.2 opt.1 relSym "D" tmpSettings.axisErrTolerance
        SymmetryCentreDetectionTask.phased c settings opt.1 axes strIndex symElems
          (m11.delete symStr)
      else
        match relSym.get? 0 with
        | none => ⟨.raised .out_of_range, settings, allCs, axes, m9⟩
        | some first =>
          match allCs.get? first with
          | none => ⟨.raised .out_of_range, settings, allCs, axes, m9⟩
          | some ax =>
            let m10 := m9.emit (.stdout ("Decided that the reliable axes is: "
              ++ c.showDouble (ax.getD 0 0) ++ " | " ++ c.showDouble (ax.getD 1 0) ++ " x "
              ++ c.showDouble (ax.getD 2 0) ++ " x " ++ c.showDouble (ax.getD 3 0) ++ " || "
              ++ c.showDouble (ax.getD 5 0) ++ " || " ++ c.showDouble (ax.getD 6 0)))
            SymmetryCentreDetectionTask.phased c settings allCs axes strIndex []
              (m10.delete symStr)

/-- One iteration of the loop of `SymmetryDetectionTask`, version 0.7.6.1.  With
`findSymCentre` set the iteration runs the centre detection on a copy of the
settings and then ends the process. -/
def SymmetryDetectionTask.body {D : Type} (c : Collaborators D) (settings : ProSHADE_settings)
    (iter : Nat) (st : SymmetryState) : Outcome × SymmetryState :=
  -- Create a data object
  let (symmetryStructure, m1) := st.machine.new .data
  match settings.inputFiles.get? iter with
  | none => (.raised .out_of_range, { st with machine := m1 })
  | some fName =>
    -- Read in the compared structure
    let m2 := m1.call symmetryStructure (.readInStructure fName iter) (some settings)
    let d1 := c.readInStructure fName iter settings c.construct
    if settings.findSymCentre then
      let m3 := m2.emit
        (.stdout "@@@ Attempting to find the symmetry centre using phase-less detection.")
      -- Make local copy of settings
      let (_rotCenSettings, m4) := m3.new .settings
      -- Run the detection
      let r := SymmetryCentreDetectionTask c settings st.allCs st.axes iter m4
      match r.outcome with
      | .returned =>
        (.exited 0, { st with axes := r.axes, allCs := r.allCs, machine := r.machine })
      | o => (o, { st with axes := r.axes, allCs := r.allCs, machine := r.machine })
    else
      -- Internal data processing
      let m3 := m2.call symmetryStructure .processInternalMap (some settings)
      let d2 := c.processInternalMap settings d1
      -- Map to sphere
      let m4 := m3.call symmetryStructure .mapToSpheres (some settings)
      let d3 := c.mapToSpheres settings d2
      -- Get spherical harmonics
      let m5 := m4.call symmetryStructure .computeSphericalHarmonics (some settings)
      let d4 := c.computeSphericalHarmonics settings d3
      -- Compute auto-rotation map
      let m6 := m5.call symmetryStructure .computeRotationFunction (some settings)
      let d5 := c.computeRotationFunction settings d4
      -- Detect point groups in the angle-axis space
      let m7 := m6.call symmetryStructure .detectSymmetryFromAngleAxisSpace (some settings)
      let det := c.detectSymmetryFromAngleAxisSpace settings d5 st.axes st.allCs
      -- Report results
      let m8 := m7.call symmetryStructure .reportSymmetryResults (some settings)
      let d7 := c.reportSymmetryResults settings det.1
      -- Save internal map shift to run object
      let mapCOMShift := st.mapCOMShift ++ [c.mapCOMProcessChangeX d7,
        c.mapCOMProcessChangeY d7, c.mapCOMProcessChangeZ d7]
      -- Release memory
      (.returned, ⟨det.2.1, det.2.2, mapCOMShift, m8.delete symmetryStructure⟩)

/-- `SymmetryDetectionTask`, version 0.7.6.1: the settings check, then one
iteration per input file. -/
def SymmetryDetectionTask {D : Type} (c : Collaborators D) (settings : ProSHADE_settings)
    (st : SymmetryState) : Outcome × ProSHADE_settings × SymmetryState :=
  let chk := checkSymmetrySettings settings st.machine
  match chk.outcome with
  | .returned =>
    let r := forLoop (SymmetryDetectionTask.body c chk.settings) 0
      chk.settings.inputFiles.length { st with machine := chk.machine }
    (r.1, chk.settings, r.2)
  | o => (o, chk.settings, { st with machine := chk.machine })

/-! ## The D-pair search of `advancedAccess_symmetry.cpp` -/

/-- The condition of the two inner loops: the components x, y and z (positions
1, 2 and 3) of a cyclic axis are compared with those of a recommended axis by
`==`. -/
def sameXYZ (cAxis recomAxis : List proshade_double) : Bool :=
  (cAxis.getD 1 0).eq (recomAxis.getD 1 0) &&
  (cAxis.getD 2 0).eq (recomAxis.getD 2 0) &&
  (cAxis.getD 3 0).eq (recomAxis.getD 3 0)

/-- One inner loop over the recommended axes still to visit, for entry `which`
(0 or 1) of a stored D combination: the flag becomes true at every recommended
axis that has the x, y, z of the cyclic axis.  Each visit evaluates
`allCs.at( combination.at( which ) )`; `none` stands for the
`std::out_of_range` of a failed `at()`. -/
def matchLoop (allCs : AxisList) (combination : List Nat) (which : Nat) :
    AxisList → Bool → Option Bool
  | [], flag => some flag
  | recomAxis :: rest, flag =>
    match combination.get? which with
    | none => none
    | some index =>
      match allCs.get? index with
      | none => none
      | some cAxis =>
        if sameXYZ cAxis recomAxis then matchLoop allCs combination which rest true
        else matchLoop allCs combination which rest flag

/-- The outer loop over the stored D combinations still to visit; `best` is
`bestDAxesList` so far.  The `int` counter `dIt` is taken not to overflow. -/
def bestDAxesLoop (allCs recomSymAxes : AxisList) : List (List Nat) → List Nat → Outcome × List Nat
  | [], best => (.returned, best)
  | combination :: rest, best =>
    match matchLoop allCs combination 0 recomSymAxes false with
    | none => (.raised .out_of_range, best)
    | some firstMatch =>
      match matchLoop allCs combination 1 recomSymAxes false with
      | none => (.raised .out_of_range, best)
      | some secondMatch =>
        if firstMatch && secondMatch then
          match combination.get? 0, combination.get? 1 with
          | some i0, some i1 => bestDAxesLoop allCs recomSymAxes rest (best ++ [i0, i1])
          | _, _ => (.raised .out_of_range, best)
        else bestDAxesLoop allCs recomSymAxes rest best

/-- The search for the D axes combination reported as best: how the search ends
and `bestDAxesList` at that point. -/
def bestDAxesList (allDetectedDAxes : List (List Nat)) (allCs recomSymAxes : AxisList) :
    Outcome × List Nat :=
  bestDAxesLoop allCs recomSymAxes allDetectedDAxes []

/-- All indices in range: every stored D combination has two entries, both
positions of the master C-axis list, and every axis has the four numbers
fold, x, y, z. -/
def IndicesInRange (allDetectedDAxes : List (List Nat)) (allCs recomSymAxes : AxisList) : Prop :=
  (∀ d ∈ allDetectedDAxes, ∃ i0 i1, d.get? 0 = some i0 ∧ d.get? 1 = some i1 ∧
      i0 < allCs.length ∧ i1 < allCs.length) ∧
  (∀ a ∈ allCs, 4 ≤ a.length) ∧ (∀ r ∈ recomSymAxes, 4 ≤ r.length)

/-- A data object that records the names of the member functions applied to it. -/
abbrev Trace := List String

/-- Collaborators on `Trace`, for evaluating the tasks on concrete inputs: a
file is a PDB file when its name ends in `.pdb`, every member function appends
its name to the trace, and every numeric result is a fixed value. -/
def traceCollaborators : Collaborators Trace where
  isFilePDB := fun f => f.data.drop (f.data.length - 4) == ".pdb".data
  almostEquals := proshade_single.almostEqualsUlp
  showDouble := fun x => toString x.val
  timesFive := fun x => x
  construct := []
  construct_v072 := fun _ => []
  readInStructure := fun f _ _ d => d ++ ["readInStructure " ++ f]
  processInternalMap := fun _ d => d ++ ["processInternalMap"]
  mapToSpheres := fun _ d => d ++ ["mapToSpheres"]
  computeSphericalHarmonics := fun _ d => d ++ ["computeSphericalHarmonics"]
  computeRotationFunction := fun _ d => d ++ ["computeRotationFunction"]
  getRotationFunction := fun _ d => d ++ ["getRotationFunction"]
  detectSymmetryFromAngleAxisSpace := fun _ d axes allCs =>
    (d ++ ["detectSymmetryFromAngleAxisSpace"], axes, allCs)
  detectSymmetryInStructure := fun _ d axes => (d ++ ["detectSymmetryInStructure"], axes)
  reportSymmetryResults := fun _ d => d ++ ["reportSymmetryResults"]
  bounds := fun d => ⟨0, d.length, 0, d.length, 0, d.length⟩
  getReBoxBoundaries := fun _ d => (d ++ ["getReBoxBoundaries"], ⟨0, 1, 0, 1, 0, 1⟩)
  createNewMapFromBounds := fun _ d n _ => (d ++ ["createNewMapFromBounds"], n ++ ["created"])
  writeMap := fun _ d => d ++ ["writeMap"]
  deepCopyMap := fun _ d => d.map (fun _ => 0)
  mapCOMProcessChangeX := fun _ => 0
  mapCOMProcessChangeY := fun _ => 0
  mapCOMProcessChangeZ := fun _ => 0
  computeEnergyLevelsDescriptor := fun a b _ => (0, a, b)
  computeTraceSigmaDescriptor := fun a b _ => (0, a, b)
  computeRotationFunctionDescriptor := fun a b _ => (0, a, b)
  findReliableUnphasedSymmetries := fun _ _ _ => []
  optimiseDGroupAngleFromAxesHeights := fun allCs _ d _ => (allCs, d)
  getAllGroupElements := fun _ _ _ _ _ => [identityMat]
  noBins := fun _ => 2
  rotationMatrixSimilarity := fun a b _ => a == b
  findCentreOfRotationAxis := fun d _ _ => ([0, 0, 0, 0, 0, 0], d)

/-- Settings with no input file and every other field at a neutral value;
the concrete inputs below are variations of it. -/
def emptySettings : ProSHADE_settings where
  inputFiles := []
  requestedResolution := 0
  outName := ""
  verbose := 0
  reBoxMap := false
  moveToCOM := false
  usePhase := true
  changeMapResolution := false
  findSymCentre := false
  addExtraSpace := 0
  axisErrTolerance := 0
  centrePosition := [0, 0, 0]
  requestedSymmetryType := ""
  requestedSymmetryFold := 0
  computeEnergyLevelsDesc := true
  computeTraceSigmaDesc := true
  computeRotationFuncDesc := true
  allDetectedCAxes := []
  allDetectedDAxes := []

/-- A machine with an empty log and no heap object. -/
def Machine.start : Machine := ⟨[], 0⟩

/-- Two map files, everything else as in `emptySettings`. -/
def twoMaps : ProSHADE_settings :=
  { emptySettings with inputFiles := ["first.map", "second.map"] }

/-- A single PDB file with no resolution given. -/
def onePdb : ProSHADE_settings :=
  { emptySettings with inputFiles := ["model.pdb"], outName := "reBoxed" }

/-- A map file first and a PDB file second, no resolution, an output name. -/
def mapThenPdb : ProSHADE_settings :=
  { emptySettings with inputFiles := ["first.map", "second.pdb"], outName := "reBoxed" }

/-- One map file and the axis tolerance `-1.0`. -/
def negativeTolerance : ProSHADE_settings :=
  { emptySettings with inputFiles := ["first.map"], axisErrTolerance := 0xBFF0000000000000 }

/-- Two map files and the resolution left at the unset marker `-1.0f`. -/
def unsetResolution : ProSHADE_settings :=
  { emptySettings with inputFiles := ["first.map", "second.map"], requestedResolution := 0xBF800000 }

/-- Two map files with map centring requested. -/
def twoMapsCentred : ProSHADE_settings :=
  { emptySettings with inputFiles := ["static.map", "moving.map"], moveToCOM := true }

/-- A twelve-fold axis along z: fold 12, axis (0, 0, 1), angle 2π/12, peak height 0.956675. -/
def axisC12z : List proshade_double :=
  [0x4028000000000000, 0, 0, 0x3FF0000000000000, 0x3FE0C152382D7365, 0x3FEE9D14E3BCD35B]

/-- A two-fold axis along x: fold 2, axis (1, 0, 0), angle π, peak height 0.471463. -/
def axisC2x : List proshade_double :=
  [0x4000000000000000, 0x3FF0000000000000, 0, 0, 0x400921FB54442D18, 0x3FDE2C7325918A01]

/-- A six-fold axis along z: fold 6, axis (0, 0, 1), angle 2π/6, peak height 0.9. -/
def axisC6z : List proshade_double :=
  [0x4018000000000000, 0, 0, 0x3FF0000000000000, 0x3FF0C152382D7365, 0x3FECCCCCCCCCCCCD]

/-! ## Notions used in the statements -/

/-- The first input file is a PDB file. -/
def firstIsPDB (isFilePDB : String → Bool) (settings : ProSHADE_settings) : Bool :=
  match settings.inputFiles with
  | [] => false
  | first :: _ => isFilePDB first

/-- No computation between two machine states: no heap object was created and
the log grew by warnings only. -/
def OnlyWarningsAdded (before after : Machine) : Prop :=
  after.nextId = before.nextId ∧
  ∃ added, after.log = before.log ++ added ∧
    ∀ ev ∈ added, ∃ verbose code, ev = Event.warning verbose code

/-- The events of one iteration of the finished symmetry pipeline (0.7.6.1) for
input `iter` with name `fName`, on the data object `obj`. -/
def symmetryEvents (settings : ProSHADE_settings) (obj iter : Nat) (fName : String) :
    List Event :=
  [ .alloc .data obj,
    .call obj (.readInStructure fName iter) (some settings),
    .call obj .processInternalMap (some settings),
    .call obj .mapToSpheres (some settings),
    .call obj .computeSphericalHarmonics (some settings),
    .call obj .computeRotationFunction (some settings),
    .call obj .detectSymmetryFromAngleAxisSpace (some settings),
    .call obj .reportSymmetryResults (some settings),
    .release obj ]

/-- The events of the finished symmetry pipeline over the inputs `files`, the
first of which is input `iter` and gets the object `obj`; every further input
gets the next index and the next object. -/
def symmetryLog (settings : ProSHADE_settings) : Nat → Nat → List String → List Event
  | _, _, [] => []
  | iter, obj, fName :: rest =>
    symmetryEvents settings obj iter fName ++ symmetryLog settings (iter + 1) (obj + 1) rest

/-- The events of one iteration of the symmetry pipeline of 0.7.2, where the
rotation function and the detection go by their earlier names. -/
def symmetryEvents_v072 (settings : ProSHADE_settings) (obj iter : Nat) (fName : String) :
    List Event :=
  [ .alloc .data obj,
    .call obj (.readInStructure fName iter) (some settings),
    .call obj .processInternalMap (some settings),
    .call obj .mapToSpheres (some settings),
    .call obj .computeSphericalHarmonics (some settings),
    .call obj .getRotationFunction (some settings),
    .call obj .detectSymmetryInStructure (some settings),
    .call obj .reportSymmetryResults (some settings),
    .release obj ]

/-- The events of the symmetry pipeline of 0.7.2 over the inputs `files`. -/
def symmetryLog_v072 (settings : ProSHADE_settings) : Nat → Nat → List String → List Event
  | _, _, [] => []
  | iter, obj, fName :: rest =>
    symmetryEvents_v072 settings obj iter fName ++
      symmetryLog_v072 settings (iter + 1) (obj + 1) rest

/-! ## The rest of `main` of `advancedAccess_symmetry.cpp` -/

/-- The nine `groupElements.at(1).at(k)`, k = 0 .. 8, formatted; `none` stands
for the `std::out_of_range` of a failed `at()`. -/
def firstNonIdentityElement (showFixed : proshade_double → String) (groupElements : AxisList) :
    Option (List String) :=
  match groupElements.get? 1 with
  | none => none
  | some element =>
    if element.length < 9 then none else some ((element.take 9).map showFixed)

/-- Lines 184-191: the group elements of the best D point group are asked for
and printed.  `getAllGroupElements` is declared outside the files under study;
here it may return a list of elements or raise.  A statement whose operands
raise logs nothing. -/
def printBestDGroup
    (getAllGroupElements : List Nat → String → Except CppException AxisList)
    (showDouble showFixed : proshade_double → String)
    (simpleSym : Nat) (settings : ProSHADE_settings) (allCs : AxisList)
    (bestDAxesList : List Nat) (m : Machine) : Outcome × Machine :=
  -- Get point group elements for the best D point group
  let m1 := m.call simpleSym .getAllGroupElements (some settings)
  match getAllGroupElements bestDAxesList "D" with
  | .error e => (.raised e, m1)
  | .ok groupElements =>
    -- Print results
    match bestDAxesList.get? 0 with
    | none => (.raised .out_of_range, m1)
    | some i0 =>
      match allCs.get? i0 with
      | none => (.raised .out_of_range, m1)
      | some axis0 =>
        match bestDAxesList.get? 1 with
        | none => (.raised .out_of_range, m1)
        | some i1 =>
          match allCs.get? i1 with
          | none => (.raised .out_of_range, m1)
          | some axis1 =>
            let m2 := m1.emit (.stdout ("Point group D" ++ showDouble (axis0.getD 0 0) ++ "-"
              ++ showDouble (axis1.getD 0 0) ++ " has been found to have "
              ++ toString groupElements.length
              ++ " group elements, with the first element (excluding the identity one) having rotation matrix:"))
            match firstNonIdentityElement showFixed groupElements with
            | none => (.raised .out_of_range, m2)
            | some e =>
              let m3 := m2.emit (.stdout (e.getD 0 "" ++ " | " ++ e.getD 1 "" ++ " | " ++ e.getD 2 ""))
              let m4 := m3.emit (.stdout (e.getD 3 "" ++ " | " ++ e.getD 4 "" ++ " | " ++ e.getD 5 ""))
              let m5 := m4.emit (.stdout (e.getD 6 "" ++ " | " ++ e.getD 7 "" ++ " | " ++ e.getD 8 ""))
              (.returned, m5)

/-- Lines 149-191: the D-pair search followed by the expansion and printing of
the group it selected. -/
def bestDGroupSection
    (getAllGroupElements : List Nat → String → Except CppException AxisList)
    (showDouble showFixed : proshade_double → String)
    (simpleSym : Nat) (settings : ProSHADE_settings) (allCs recomSymAxes : AxisList)
    (m : Machine) : Outcome × Machine :=
  match bestDAxesList settings.allDetectedDAxes allCs recomSymAxes with
  | (.returned, best) =>
    printBestDGroup getAllGroupElements showDouble showFixed simpleSym settings allCs best m
  | (o, _) => (o, m)

/-- The line printed for axis `axIt` of the requested symmetry. -/
def requestedAxisLine (showFixed : proshade_double → String) (axIt : Nat)
    (axis : List proshade_double) : String :=
  "Symmetry axis number " ++ toString axIt ++ ": Fold " ++ showFixed (axis.getD 0 0)
    ++ " XYZ: " ++ showFixed (axis.getD 1 0) ++ " ; " ++ showFixed (axis.getD 2 0) ++ " ; "
    ++ showFixed (axis.getD 3 0) ++ " Angle (radians): " ++ showFixed (axis.getD 4 0)
    ++ " and axis peak: " ++ showFixed (axis.getD 5 0)

/-- One iteration of the loop over the axes of the requested symmetry. -/
def reportRequestedSymmetry.body (showFixed : proshade_double → String)
    (reqSymAxes : AxisList) (axIt : Nat) (m : Machine) : Outcome × Machine :=
  match reqSymAxes.get? axIt with
  | none => (.raised .out_of_range, m)
  | some axis => (.returned, m.emit (.stdout (requestedAxisLine showFixed axIt axis)))

/-- A four-fold axis along z: fold 4, axis (0, 0, 1), angle 2π/4, peak height 0.9. -/
def axisC4z : List proshade_double :=
  [0x4010000000000000, 0, 0, 0x3FF0000000000000, 0x3FF921FB54442D18, 0x3FECCCCCCCCCCCCD]
/-! ## What the task loops compute, input by input -/

/-- The name of the file written for input `iter` by `MapManipulationTask`. -/
def reBoxedFileName (settings : ProSHADE_settings) (iter : Nat) : String :=
  settings.outName ++ "_" ++ toString iter ++ ".map"

/-- The structure of input `iter` as read, before any processing. -/
def structureAsRead {D : Type} (c : Collaborators D) (settings : ProSHADE_settings)
    (iter : Nat) (fName : String) : D :=
  c.readInStructure fName iter settings c.construct

/-- The re-box target object of input `iter` at the time its bounds and map are
saved: with `reBoxMap` the new map created from the non-zero bounds of the
processed structure and then written; without it a freshly constructed object. -/
def reBoxTarget {D : Type} (c : Collaborators D) (settings : ProSHADE_settings)
    (iter : Nat) (fName : String) : D :=
  if settings.reBoxMap then
    c.writeMap (reBoxedFileName settings iter)
      (c.createNewMapFromBounds settings
        (c.getReBoxBoundaries settings
          (c.processInternalMap settings (structureAsRead c settings iter fName))).1
        c.construct
        (c.getReBoxBoundaries settings
          (c.processInternalMap settings (structureAsRead c settings iter fName))).2).2
  else c.construct

/-- The events of one iteration of `MapManipulationTask` for input `iter`, whose
first new heap object gets the id `obj`. -/
def mapManipulationEvents (settings : ProSHADE_settings) (obj iter : Nat) (fName : String) :
    List Event :=
  if settings.reBoxMap then
    [ .alloc .data obj,
      .call obj (.readInStructure fName iter) (some settings),
      .call obj .processInternalMap (some settings),
      .alloc .data (obj + 1),
      .alloc .buffer (obj + 2),
      .call obj .getReBoxBoundaries (some settings),
      .call obj (.createNewMapFromBounds (obj + 1)) (some settings),
      .release (obj + 2),
      .progress settings.verbose 1
        ("Saving the re-boxed map into " ++ reBoxedFileName settings iter),
      .call (obj + 1) (.writeMap (reBoxedFileName settings iter)) none,
      .progress settings.verbose 2 "Structure saved.",
      .call (obj + 1) .deepCopyMap none,
      .release obj,
      .release (obj + 1) ]
  else
    [ .alloc .data obj,
      .call obj (.readInStructure fName iter) (some settings),
      .call obj .processInternalMap (some settings),
      .alloc .data (obj + 1),
      .progress settings.verbose 1
        ("Saving the re-boxed map into " ++ reBoxedFileName settings iter),
      .call obj (.writeMap (reBoxedFileName settings iter)) none,
      .progress settings.verbose 2 "Structure saved.",
      .call (obj + 1) .deepCopyMap none,
      .release obj,
      .release (obj + 1) ]

/-- The number of heap objects one iteration of `MapManipulationTask` creates. -/
def mapManipulationObjects (settings : ProSHADE_settings) : Nat :=
  if settings.reBoxMap then 3 else 2

/-- The events of the loop of `MapManipulationTask` over the inputs `files`,
the first of which is input `iter`. -/
def mapManipulationLog (settings : ProSHADE_settings) : Nat → Nat → List String → List Event
  | _, _, [] => []
  | iter, obj, fName :: rest =>
    mapManipulationEvents settings obj iter fName ++
      mapManipulationLog settings (iter + 1) (obj + mapManipulationObjects settings) rest
/-- The structure of input `iter` after `readInStructure`, `processInternalMap`,
`mapToSpheres` and `computeSphericalHarmonics`. -/
def preparedStructure {D : Type} (c : Collaborators D) (settings : ProSHADE_settings)
    (iter : Nat) (fName : String) : D :=
  c.computeSphericalHarmonics settings
    (c.mapToSpheres settings
      (c.processInternalMap settings (c.readInStructure fName iter settings c.construct)))

/-- The outcome of comparing the reference structure with one other structure:
the three values saved and the reference structure afterwards. -/
structure Comparison (D : Type) where
  enLevDist : proshade_double
  trSigmDist : proshade_double
  rotFunDist : proshade_double
  against : D

/-- The three values saved for one pair of structures: each is the descriptor
of the pair when the settings ask for it and `0.0` when they do not. -/
def compareStructures {D : Type} (c : Collaborators D) (settings : ProSHADE_settings)
    (against changing : D) : Comparison D :=
  let e := if settings.computeEnergyLevelsDesc then
      c.computeEnergyLevelsDescriptor against changing settings
    else ((0 : proshade_double), against, changing)
  let t := if settings.computeTraceSigmaDesc then
      c.computeTraceSigmaDescriptor e.2.1 e.2.2 settings
    else ((0 : proshade_double), e.2.1, e.2.2)
  let r := if settings.computeRotationFuncDesc then
      c.computeRotationFunctionDescriptor t.2.1 t.2.2 settings
    else ((0 : proshade_double), t.2.1, t.2.2)
  ⟨e.1, t.1, r.1, r.2.1⟩

/-- The comparisons of the reference structure `against` with the inputs
`files`, the first of which is input `iter`, in input order. -/
def comparisons {D : Type} (c : Collaborators D) (settings : ProSHADE_settings) :
    D → Nat → List String → List (Comparison D)
  | _, _, [] => []
  | against, iter, fName :: rest =>
    compareStructures c settings against (preparedStructure c settings iter fName) ::
      comparisons c settings
        (compareStructures c settings against (preparedStructure c settings iter fName)).against
        (iter + 1) rest

/-- The events of one iteration of `DistancesComputationTask`: input `iter`, on
the new object `obj`, is compared with the reference object `against` read from
the file `first`. -/
def distancesEvents {D : Type} (c : Collaborators D) (settings : ProSHADE_settings)
    (against obj iter : Nat) (first fName : String) (r : Comparison D) : List Event :=
  [ .alloc .data obj,
    .call obj (.readInStructure fName iter) (some settings),
    .call obj .processInternalMap (some settings),
    .call obj .mapToSpheres (some settings),
    .call obj .computeSphericalHarmonics (some settings),
    (if settings.computeEnergyLevelsDesc then
      .func (.computeEnergyLevelsDescriptor against obj) (some settings)
    else .progress settings.verbose 1 "Energy levels distance computation not required."),
    (if settings.computeTraceSigmaDesc then
      .func (.computeTraceSigmaDescriptor against obj) (some settings)
    else .progress settings.verbose 1 "Trace sigma distance computation not required."),
    (if settings.computeRotationFuncDesc then
      .func (.computeRotationFunctionDescriptor against obj) (some settings)
    else .progress settings.verbose 1 "Rotation function distance computation not required."),
    .progress settings.verbose 0 ("Distances between " ++ first ++ " and " ++ fName),
    .progress settings.verbose 0 ("Energy levels distance    : " ++ c.showDouble r.enLevDist),
    .progress settings.verbose 0 ("Trace sigma distance      : " ++ c.showDouble r.trSigmDist),
    .progress settings.verbose 0 ("Rotation function distance: " ++ c.showDouble r.rotFunDist),
    .release obj ]

/-- The events of the loop of `DistancesComputationTask` over the inputs
`files`, the first of which is input `iter` and gets the object `obj`. -/
def distancesLog {D : Type} (c : Collaborators D) (settings : ProSHADE_settings)
    (ref : Nat) (first : String) : D → Nat → Nat → List String → List Event
  | _, _, _, [] => []
  | against, iter, obj, fName :: rest =>
    distancesEvents c settings ref obj iter first fName
        (compareStructures c settings against (preparedStructure c settings iter fName)) ++
      distancesLog c settings ref first
        (compareStructures c settings against (preparedStructure c settings iter fName)).against
        (iter + 1) (obj + 1) rest

/-- The events of `DistancesComputationTask` before its loop: the reference
object `ref` is created and input 0 is read and prepared on it. -/
def referenceEvents (settings : ProSHADE_settings) (ref : Nat) (first : String) : List Event :=
  [ .alloc .data ref,
    .call ref (.readInStructure first 0) (some settings),
    .call ref .processInternalMap (some settings),
    .call ref .mapToSpheres (some settings),
    .call ref .computeSphericalHarmonics (some settings) ]
/-- The event is a `readInStructure` of input `i`, on whatever object. -/
def Event.readsInput (i : Nat) : Event → Bool
  | .call _ (.readInStructure _ j) _ => j == i
  | _ => false

/-- The event is a `processInternalMap` on the object `obj`. -/
def Event.processes (obj : Nat) : Event → Bool
  | .call o .processInternalMap _ => o == obj
  | _ => false

/-- The data objects alive after one event, given those alive before it. -/
def stepData (live : List Nat) : Event → List Nat
  | .alloc .data id => live ++ [id]
  | .release id => live.erase id
  | _ => live

/-- The data objects alive after the events, given those alive before them. -/
def liveData (live : List Nat) (events : List Event) : List Nat :=
  events.foldl stepData live

/-- The largest number of data objects alive at any point of the events,
the point before the first event included. -/
def peakData : List Nat → List Event → Nat
  | live, [] => live.length
  | live, ev :: rest => max live.length (peakData (stepData live ev) rest)
/-- The outcome of the finished symmetry pipeline for one input: the structure
after `reportSymmetryResults` and the two vectors after the detection. -/
structure Detection (D : Type) where
  reported : D
  axes : AxisList
  allCs : AxisList

/-- The finished symmetry pipeline (0.7.6.1) for input `iter`, given the two
vectors as the previous inputs left them. -/
def detectStructure {D : Type} (c : Collaborators D) (settings : ProSHADE_settings)
    (axes allCs : AxisList) (iter : Nat) (fName : String) : Detection D :=
  let det := c.detectSymmetryFromAngleAxisSpace settings
    (c.computeRotationFunction settings (preparedStructure c settings iter fName)) axes allCs
  ⟨c.reportSymmetryResults settings det.1, det.2.1, det.2.2⟩

/-- The detections of the inputs `files`, the first of which is input `iter`,
in input order. -/
def detections {D : Type} (c : Collaborators D) (settings : ProSHADE_settings) :
    AxisList → AxisList → Nat → List String → List (Detection D)
  | _, _, _, [] => []
  | axes, allCs, iter, fName :: rest =>
    detectStructure c settings axes allCs iter fName ::
      detections c settings (detectStructure c settings axes allCs iter fName).axes
        (detectStructure c settings axes allCs iter fName).allCs (iter + 1) rest

/-- The three values saved to `mapCOMShift` for one structure. -/
def comShift {D : Type} (c : Collaborators D) (d : D) : List proshade_double :=
  [c.mapCOMProcessChangeX d, c.mapCOMProcessChangeY d, c.mapCOMProcessChangeZ d]
/-- The copy of the settings on which `SymmetryCentreDetectionTask` runs the
phase-less detection, with the four enforced values. -/
def enforcedSettings {D : Type} (c : Collaborators D) (settings : ProSHADE_settings) :
    ProSHADE_settings :=
  { settings with
    usePhase := false
    requestedSymmetryType := "onlyC"
    moveToCOM := false
    addExtraSpace := c.timesFive settings.addExtraSpace }

/-- The phase-less detection of `SymmetryCentreDetectionTask` on input
`strIndex`: the structure and the two vectors after
`detectSymmetryFromAngleAxisSpace`. -/
def phaselessDetection {D : Type} (c : Collaborators D) (settings : ProSHADE_settings)
    (allCs axes : AxisList) (strIndex : Nat) (fName : String) : D × AxisList × AxisList :=
  c.detectSymmetryFromAngleAxisSpace (enforcedSettings c settings)
    (c.computeRotationFunction (enforcedSettings c settings)
      (preparedStructure c (enforcedSettings c settings) strIndex fName)) axes allCs

/-- The reliable symmetries found in the phase-less detection. -/
def reliableSymmetries {D : Type} (c : Collaborators D) (settings : ProSHADE_settings)
    (allCs axes : AxisList) (strIndex : Nat) (fName : String) : List Nat :=
  c.findReliableUnphasedSymmetries (phaselessDetection c settings allCs axes strIndex fName).2.2
    (enforcedSettings c settings).verbose (enforcedSettings c settings).axisErrTolerance

/-- The events of `SymmetryCentreDetectionTask` up to its early return: the
settings copy `obj`, the data object `obj + 1`, the phase-less pipeline on the
enforced settings, the search for reliable symmetries and the warning. -/
def noSymmetryEvents {D : Type} (c : Collaborators D) (settings : ProSHADE_settings)
    (obj strIndex : Nat) (fName : String) : List Event :=
  [ .alloc .settings obj,
    .alloc .data (obj + 1),
    .call (obj + 1) (.readInStructure fName strIndex) (some (enforcedSettings c settings)),
    .call (obj + 1) .processInternalMap (some (enforcedSettings c settings)),
    .call (obj + 1) .mapToSpheres (some (enforcedSettings c settings)),
    .call (obj + 1) .computeSphericalHarmonics (some (enforcedSettings c settings)),
    .call (obj + 1) .computeRotationFunction (some (enforcedSettings c settings)),
    .call (obj + 1) .detectSymmetryFromAngleAxisSpace (some (enforcedSettings c settings)),
    .func .findReliableUnphasedSymmetries none,
    .warning (enforcedSettings c settings).verbose "WS00071" ]

/-- The event belongs to the Fourier-transform part of
`SymmetryCentreDetectionTask`: a transform plan or buffer is created, a
transform is planned, run or destroyed, or the transform memory is prepared or
released. -/
def Event.isFourierStep : Event → Bool
  | .alloc .plan _ => true
  | .alloc .buffer _ => true
  | .func .allocateCentreOfMapFourierTransforms _ => true
  | .func .releaseCentreOfMapFourierTransforms _ => true
  | .func (.fftw_execute _) _ => true
  | .func .fftw_plan_dft_3d _ => true
  | .func (.fftw_destroy_plan _) _ => true
  | .func (.checkMemoryAllocation _) _ => true
  | .func (.findCentreOfRotationAxis _) _ => true
  | .call _ .prepareFSCFourierMemory _ => true
  | _ => false

/-- The heap objects alive after one event, given those alive before it; each
is listed with its kind and its id, in creation order. -/
def stepLive (live : List (Resource × Nat)) : Event → List (Resource × Nat)
  | .alloc kind id => live ++ [(kind, id)]
  | .release id => live.filter (fun p => p.2 != id)
  | _ => live

/-- The heap objects alive after the events, given those alive before them. -/
def liveObjects (live : List (Resource × Nat)) (events : List Event) : List (Resource × Nat) :=
  events.foldl stepLive live

/-- Collaborators as `traceCollaborators`, except that the search for reliable
symmetries finds the single axis at position 0. -/
def oneAxisCollaborators : Collaborators Trace :=
  { traceCollaborators with findReliableUnphasedSymmetries := fun _ _ _ => [0] }
/-! ## The group-element generator, from the specification -/

/-- A 3×3 matrix given by its 9 values, row by row. -/
@[ext]
structure Mat3 (R : Type) where
  m00 : R
  m01 : R
  m02 : R
  m10 : R
  m11 : R
  m12 : R
  m20 : R
  m21 : R
  m22 : R
  deriving DecidableEq, Repr

namespace Mat3

/-- The identity matrix. -/
def identity {R : Type} [Zero R] [One R] : Mat3 R := ⟨1, 0, 0, 0, 1, 0, 0, 0, 1⟩

/-- The matrix product. -/
def compose {R : Type} [Add R] [Mul R] (a b : Mat3 R) : Mat3 R :=
  ⟨a.m00 * b.m00 + a.m01 * b.m10 + a.m02 * b.m20,
   a.m00 * b.m01 + a.m01 * b.m11 + a.m02 * b.m21,
   a.m00 * b.m02 + a.m01 * b.m12 + a.m02 * b.m22,
   a.m10 * b.m00 + a.m11 * b.m10 + a.m12 * b.m20,
   a.m10 * b.m01 + a.m11 * b.m11 + a.m12 * b.m21,
   a.m10 * b.m02 + a.m11 * b.m12 + a.m12 * b.m22,
   a.m20 * b.m00 + a.m21 * b.m10 + a.m22 * b.m20,
   a.m20 * b.m01 + a.m21 * b.m11 + a.m22 * b.m21,
   a.m20 * b.m02 + a.m21 * b.m12 + a.m22 * b.m22⟩

/-- The 9 values of a matrix, row-major, as they are handed to the caller. -/
def toList {R : Type} (a : Mat3 R) : List R :=
  [a.m00, a.m01, a.m02, a.m10, a.m11, a.m12, a.m20, a.m21, a.m22]

/-- Matrices over a commutative ring form a monoid under the matrix product. -/
instance {R : Type} [CommRing R] : Monoid (Mat3 R) where
  mul := compose
  one := identity
  mul_assoc a b c := by
    show compose (compose a b) c = compose a (compose b c)
    ext <;> simp only [compose] <;> ring
  one_mul a := by
    show compose identity a = a
    ext <;> simp [compose, identity]
  mul_one a := by
    show compose a identity = a
    ext <;> simp [compose, identity]

end Mat3

/-- Add to `elements`, at the end and in order, every candidate that is not
among the elements already. -/
def addNew {G : Type} [DecidableEq G] : List G → List G → List G
  | elements, [] => elements
  | elements, c :: cs =>
    if c ∈ elements then addNew elements cs else addNew (elements ++ [c]) cs

/-- All products of two elements of the list. -/
def products {G : Type} [Mul G] (elements : List G) : List G :=
  elements.flatMap (fun a => elements.map (fun b => a * b))

/-- Repeated composition until closure: while a round of products yields an
element that is not in the list, the new elements are added; at most `cap`
rounds are made. -/
def closeUnderComposition {G : Type} [Mul G] [DecidableEq G] : Nat → List G → List G
  | 0, elements => elements
  | cap + 1, elements =>
    if (addNew elements (products elements)).length = elements.length then elements
    else closeUnderComposition cap (addNew elements (products elements))

/-- Modelled from the spec: `getAllGroupElements` is declared outside the files
under study.  The specification has it compute the element set of the group by
repeated composition of the generators and their products until no new matrix
is produced, with the identity first, within an iteration cap, and hand back 9
values per element, row-major.  Here the generators are the rotation matrices
of the chosen axes in exact arithmetic over a commutative ring, so that two
matrices are the same element exactly when they are equal. -/
def getAllGroupElements {R : Type} [CommRing R] [DecidableEq R] (generators : List (Mat3 R))
    (cap : Nat) : List (List R) :=
  (closeUnderComposition cap (addNew [1] generators)).map Mat3.toList

/-- The quarter turn about the z axis, over the integers. -/
def quarterTurnZ : Mat3 Int := ⟨0, -1, 0, 1, 0, 0, 0, 0, 1⟩

/-- The half turn about the x axis, over the integers. -/
def halfTurnX : Mat3 Int := ⟨1, 0, 0, 0, -1, 0, 0, 0, -1⟩
/-- The four settings checks. -/
inductive SettingsCheck where
  | mapManipulation
  | distances
  | symmetry
  | overlay
  deriving DecidableEq, Repr

/-- Run one of the four settings checks of 0.7.6.1. -/
def SettingsCheck.run (isFilePDB : String → Bool)
    (almostEquals : proshade_single → proshade_single → Bool) :
    SettingsCheck → ProSHADE_settings → Machine → CheckResult
  | .mapManipulation => checkMapManipulationSettings isFilePDB
  | .distances => checkDistancesSettings almostEquals
  | .symmetry => checkSymmetrySettings
  | .overlay => checkOverlaySettings

/-- The eight failure conditions of the four settings checks. -/
inductive ConfigurationFailure where
  | noStructureToManipulate
  | noResolutionForPDB
  | noOutputName
  | tooFewStructuresForDistances
  | resolutionNotSet
  | noStructureForSymmetry
  | negativeAxisTolerance
  | notTwoStructuresForOverlay
  deriving DecidableEq, Repr

/-- The error code with which a failure condition is reported. -/
def ConfigurationFailure.errc : ConfigurationFailure → String
  | .noStructureToManipulate => "EB00002"
  | .noResolutionForPDB => "EB00011"
  | .noOutputName => "EB00016"
  | .tooFewStructuresForDistances => "ED00012"
  | .resolutionNotSet => "ED00013"
  | .noStructureForSymmetry => "ES00028"
  | .negativeAxisTolerance => "ES00053"
  | .notTwoStructuresForOverlay => "EO00033"

/-- The check that tests a failure condition. -/
def ConfigurationFailure.check : ConfigurationFailure → SettingsCheck
  | .noStructureToManipulate => .mapManipulation
  | .noResolutionForPDB => .mapManipulation
  | .noOutputName => .mapManipulation
  | .tooFewStructuresForDistances => .distances
  | .resolutionNotSet => .distances
  | .noStructureForSymmetry => .symmetry
  | .negativeAxisTolerance => .symmetry
  | .notTwoStructuresForOverlay => .overlay

/-- What a failure condition says of the settings. -/
def ConfigurationFailure.holds (isFilePDB : String → Bool)
    (almostEquals : proshade_single → proshade_single → Bool) (settings : ProSHADE_settings) :
    ConfigurationFailure → Prop
  | .noStructureToManipulate => settings.inputFiles = []
  | .noResolutionForPDB =>
    firstIsPDB isFilePDB settings = true ∧ settings.requestedResolution.eqZero = true
  | .noOutputName => settings.outName = ""
  | .tooFewStructuresForDistances => settings.inputFiles.length < 2
  | .resolutionNotSet =>
    almostEquals settings.requestedResolution proshade_single.minusOne = true
  | .noStructureForSymmetry => settings.inputFiles = []
  | .negativeAxisTolerance => settings.axisErrTolerance.ltZero = true
  | .notTwoStructuresForOverlay => settings.inputFiles.length ≠ 2
/-- Collaborators as `traceCollaborators`, except that every descriptor of a
pair of structures is `1.0`. -/
def oneDescriptorCollaborators : Collaborators Trace :=
  { traceCollaborators with
    computeEnergyLevelsDescriptor := fun a b _ => (one, a, b)
    computeTraceSigmaDescriptor := fun a b _ => (one, a, b)
    computeRotationFunctionDescriptor := fun a b _ => (one, a, b) }

/-- Two map files with the energy levels descriptor switched off. -/
def twoMapsNoEnergyLevels : ProSHADE_settings :=
  { emptySettings with
    inputFiles := ["first.map", "second.map"], computeEnergyLevelsDesc := false }

/-- One iteration of the loop of `MapManipulationTask`, version 0.7.2: the two
data objects are constructed from the settings. -/
def MapManipulationTask_v072.body {D : Type} (c : Collaborators D)
    (settings : ProSHADE_settings) (iter : Nat) (st : MapManipulationState) :
    Outcome × MapManipulationState :=
  -- Create a data object
  let (strToRebox, m1) := st.machine.new .data
  match settings.inputFiles.get? iter with
  | none => (.raised .out_of_range, { st with machine := m1 })
  | some fName =>
    -- Read in the file
    let m2 := m1.call strToRebox (.readInStructure fName iter) (some settings)
    let d1 := c.readInStructure fName iter settings (c.construct_v072 settings)
    -- Save the original boundaries
    let originalBounds := st.originalBounds ++ [c.bounds d1]
    -- Internal data processing
    let m3 := m2.call strToRebox .processInternalMap (some settings)
    let d2 := c.processInternalMap settings d1
    -- Create new structure for re-boxing
    let (reBoxStr, m4) := m3.new .data
    -- Re-box map, if need be
    let (d3, r1, m5) :=
      if settings.reBoxMap then
        let (nonZeroBounds, n1) := m4.new .buffer
        let n2 := n1.call strToRebox .getReBoxBoundaries (some settings)
        let (e1, nzb) := c.getReBoxBoundaries settings d2
        let n3 := n2.call strToRebox (.createNewMapFromBounds reBoxStr) (some settings)
        let (e2, r) := c.createNewMapFromBounds settings e1 (c.construct_v072 settings) nzb
        (e2, r, n3.delete nonZeroBounds)
      else (d2, c.construct_v072 settings, m4)
    -- Save the modified structure
    let ss := settings.outName ++ "_" ++ toString iter ++ ".map"
    let m6 := m5.emit (.progress settings.verbose 1 ("Saving the re-boxed map into " ++ ss))
    let (_d4, r2, m7) :=
      if settings.reBoxMap then
        (d3, c.writeMap ss r1, m6.call reBoxStr (.writeMap ss) none)
      else
        (c.writeMap ss d3, r1, m6.call strToRebox (.writeMap ss) none)
    let m8 := m7.emit (.progress settings.verbose 2 "Structure saved.")
    -- Save the re-boxed boundaries
    let reboxedBounds := st.reboxedBounds ++ [c.bounds r2]
    -- Save the map
    let m9 := m8.call reBoxStr .deepCopyMap none
    let manipulatedMaps := st.manipulatedMaps ++ [c.deepCopyMap settings.verbose r2]
    -- Release memory
    let m10 := (m9.delete strToRebox).delete reBoxStr
    (.returned, ⟨originalBounds, reboxedBounds, manipulatedMaps, m10⟩)

/-- `MapManipulationTask`, version 0.7.2. -/
def MapManipulationTask_v072 {D : Type} (c : Collaborators D) (settings : ProSHADE_settings)
    (st : MapManipulationState) : Outcome × ProSHADE_settings × MapManipulationState :=
  let chk := checkMapManipulationSettings c.isFilePDB settings st.machine
  match chk.outcome with
  | .returned =>
    let r := forLoop (MapManipulationTask_v072.body c chk.settings) 0
      chk.settings.inputFiles.length { st with machine := chk.machine }
    (r.1, chk.settings, r.2)
  | o => (o, chk.settings, { st with machine := chk.machine })

/-- The collaborators as 0.7.2 sees them: a data object is constructed from the
settings. -/
def Collaborators.v072 {D : Type} (c : Collaborators D) (settings : ProSHADE_settings) :
    Collaborators D :=
  { c with construct := c.construct_v072 settings }

/-! ## The overlay task -/

/-- The three Euler angles `eulA`, `eulB`, `eulG`. -/
structure EulerAngles where
  eulA : proshade_double
  eulB : proshade_double
  eulG : proshade_double
  deriving DecidableEq, Repr

/-- The three translations `trsX`, `trsY`, `trsZ`. -/
structure Translation where
  trsX : proshade_double
  trsY : proshade_double
  trsZ : proshade_double
  deriving DecidableEq, Repr

/-- The services `MapOverlayTask` calls besides the constructors of the data
class: the two searches of `ProSHADE_internal_overlay` and the members of the
data class that write and report the overlay.  They read the settings object
they are given and leave it as it is. -/
structure OverlayCollaborators (D : Type) where
  getOptimalRotation : ProSHADE_settings → D → D → EulerAngles × D × D
  getOptimalTranslation : ProSHADE_settings → D → D → EulerAngles → Translation × D × D
  originalPdbRotCenX : D → proshade_double
  originalPdbRotCenY : D → proshade_double
  originalPdbRotCenZ : D → proshade_double
  originalPdbTransX : D → proshade_double
  originalPdbTransY : D → proshade_double
  originalPdbTransZ : D → proshade_double
  writeOutOverlayFiles :
    ProSHADE_settings → EulerAngles → List proshade_double → List proshade_double → D → D
  reportOverlayResults :
    ProSHADE_settings → List proshade_double → List proshade_double → List proshade_double →
      D → D

/-- What `MapOverlayTask` (0.7.6.1) works on besides the settings: the three
output vectors and the machine. -/
structure OverlayState where
  rotationCentre : List proshade_double
  eulerAngles : List proshade_double
  finalTranslation : List proshade_double
  machine : Machine
  deriving DecidableEq, Repr

/-- `MapOverlayTask`, version 0.7.6.1: the settings check, the rotation search on
two new objects with the phase off, the translation search on two further
objects with the phase and the resolution change on, and the saving, writing
and reporting of the results. -/
def MapOverlayTask {D : Type} (c : Collaborators D) (oc : OverlayCollaborators D)
    (settings : ProSHADE_settings) (st : OverlayState) :
    Outcome × ProSHADE_settings × OverlayState :=
  -- Check the settings are complete and meaningful
  let chk := checkOverlaySettings settings st.machine
  match chk.outcome with
  | .returned =>
    let settings := chk.settings
    -- Create the data objects initially (this time without phase)
    let (staticStructure, m1) := chk.machine.new .data
    let (movingStructure, m2) := m1.new .data
    -- First, run without phase and find best rotation angles
    let settings := { settings with usePhase := false }
    let m3 := m2.func (.getOptimalRotation staticStructure movingStructure) (some settings)
    let rot := oc.getOptimalRotation settings c.construct c.construct
    -- Release memory
    let m4 := (m3.delete staticStructure).delete movingStructure
    -- Create the data objects again (this time with phase)
    let (staticStructure, m5) := m4.new .data
    let (movingStructure, m6) := m5.new .data
    -- Now, run with phase and find optimal translation
    let settings := { settings with usePhase := true, changeMapResolution := true }
    let m7 := m6.func (.getOptimalTranslation staticStructure movingStructure) (some settings)
    let trs := oc.getOptimalTranslation settings c.construct c.construct rot.1
    let moving := trs.2.2
    -- Compute the proper translations using the translation function output
    let rotationCentre := st.rotationCentre ++ [oc.originalPdbRotCenX moving,
      oc.originalPdbRotCenY moving, oc.originalPdbRotCenZ moving]
    let finalTranslation := st.finalTranslation ++ [oc.originalPdbTransX moving,
      oc.originalPdbTransY moving, oc.originalPdbTransZ moving]
    -- Write out everything
    let m8 := m7.call movingStructure .writeOutOverlayFiles (some settings)
    let moving := oc.writeOutOverlayFiles settings rot.1 rotationCentre finalTranslation moving
    -- Save the rotation and rest of translations
    let eulerAngles := st.eulerAngles ++ [rot.1.eulA, rot.1.eulB, rot.1.eulG]
    -- Report results to user
    let m9 := m8.call movingStructure .reportOverlayResults (some settings)
    let _moving := oc.reportOverlayResults settings rotationCentre eulerAngles finalTranslation
      moving
    -- Release memory
    let m10 := (m9.delete staticStructure).delete movingStructure
    (.returned, settings, ⟨rotationCentre, eulerAngles, finalTranslation, m10⟩)
  | o => (o, chk.settings, { st with machine := chk.machine })

/-- What `MapOverlayTask` (0.7.2) works on besides the settings: the two output
vectors and the machine. -/
structure OverlayState_v072 where
  eulerAngles : List proshade_double
  translation : List proshade_double
  machine : Machine
  deriving DecidableEq, Repr

/-- `MapOverlayTask`, version 0.7.2: the data objects are constructed from the
settings as they are at that point, and the angles and the translation of the
two searches are saved. -/
def MapOverlayTask_v072 {D : Type} (c : Collaborators D) (oc : OverlayCollaborators D)
    (settings : ProSHADE_settings) (st : OverlayState_v072) :
    Outcome × ProSHADE_settings × OverlayState_v072 :=
  -- Check the settings are complete and meaningful
  let chk := checkOverlaySettings_v072 settings st.machine
  match chk.outcome with
  | .returned =>
    let settings := chk.settings
    -- Create the data objects initially (this time without phase)
    let (staticStructure, m1) := chk.machine.new .data
    let (movingStructure, m2) := m1.new .data
    let static0 := c.construct_v072 settings
    let moving0 := c.construct_v072 settings
    -- First, run without phase and find best rotation angles
    let settings := { settings with usePhase := false }
    let m3 := m2.func (.getOptimalRotation staticStructure movingStructure) (some settings)
    let rot := oc.getOptimalRotation settings static0 moving0
    -- Release memory
    let m4 := (m3.delete staticStructure).delete movingStructure
    -- Create the data objects again (this time with phase)
    let (staticStructure, m5) := m4.new .data
    let (movingStructure, m6) := m5.new .data
    let static1 := c.construct_v072 settings
    let moving1 := c.construct_v072 settings
    -- Now, run with phase and find optimal translation
    let settings := { settings with usePhase := true, changeMapResolution := true }
    let m7 := m6.func (.getOptimalTranslation staticStructure movingStructure) (some settings)
    let trs := oc.getOptimalTranslation settings static1 moving1 rot.1
    -- Release memory
    let m8 := (m7.delete staticStructure).delete movingStructure
    -- Save the rotation and translation
    let eulerAngles := st.eulerAngles ++ [rot.1.eulA, rot.1.eulB, rot.1.eulG]
    let translation := st.translation ++ [trs.1.trsX, trs.1.trsY, trs.1.trsZ]
    (.returned, settings, ⟨eulerAngles, translation, m8⟩)
  | o => (o, chk.settings, { st with machine := chk.machine })

/-- The events of `MapOverlayTask` (0.7.6.1) after the settings check, on the
settings as the check left them; the first new heap object gets the id `obj`. -/
def overlayEvents (settings : ProSHADE_settings) (obj : Nat) : List Event :=
  [ .alloc .data obj,
    .alloc .data (obj + 1),
    .func (.getOptimalRotation obj (obj + 1)) (some { settings with usePhase := false }),
    .release obj,
    .release (obj + 1),
    .alloc .data (obj + 2),
    .alloc .data (obj + 3),
    .func (.getOptimalTranslation (obj + 2) (obj + 3))
      (some { settings with usePhase := true, changeMapResolution := true }),
    .call (obj + 3) .writeOutOverlayFiles
      (some { settings with usePhase := true, changeMapResolution := true }),
    .call (obj + 3) .reportOverlayResults
      (some { settings with usePhase := true, changeMapResolution := true }),
    .release (obj + 2),
    .release (obj + 3) ]

/-- The events of `MapOverlayTask` (0.7.2) after the settings check. -/
def overlayEvents_v072 (settings : ProSHADE_settings) (obj : Nat) : List Event :=
  [ .alloc .data obj,
    .alloc .data (obj + 1),
    .func (.getOptimalRotation obj (obj + 1)) (some { settings with usePhase := false }),
    .release obj,
    .release (obj + 1),
    .alloc .data (obj + 2),
    .alloc .data (obj + 3),
    .func (.getOptimalTranslation (obj + 2) (obj + 3))
      (some { settings with usePhase := true, changeMapResolution := true }),
    .release (obj + 2),
    .release (obj + 3) ]

/-- The settings with which the rotation search was run, when the event is
the call of `getOptimalRotation`. -/
def Event.rotationSearchSettings : Event → Option ProSHADE_settings
  | .func (.getOptimalRotation _ _) s => s
  | _ => none

/-- The settings with which the translation search was run, when the event is
the call of `getOptimalTranslation`. -/
def Event.translationSearchSettings : Event → Option ProSHADE_settings
  | .func (.getOptimalTranslation _ _) s => s
  | _ => none

/-- Overlay collaborators on `Trace`, for evaluating the task on concrete
inputs: the searches and the members append their names to the traces and
every number is zero. -/
def traceOverlayCollaborators : OverlayCollaborators Trace where
  getOptimalRotation := fun _ s m =>
    (⟨0, 0, 0⟩, s ++ ["getOptimalRotation"], m ++ ["getOptimalRotation"])
  getOptimalTranslation := fun _ s m _ =>
    (⟨0, 0, 0⟩, s ++ ["getOptimalTranslation"], m ++ ["getOptimalTranslation"])
  originalPdbRotCenX := fun _ => 0
  originalPdbRotCenY := fun _ => 0
  originalPdbRotCenZ := fun _ => 0
  originalPdbTransX := fun _ => 0
  originalPdbTransY := fun _ => 0
  originalPdbTransZ := fun _ => 0
  writeOutOverlayFiles := fun _ _ _ _ d => d ++ ["writeOutOverlayFiles"]
  reportOverlayResults := fun _ _ _ _ d => d ++ ["reportOverlayResults"]

/-- Two map files with the phase switched off and the resolution change off. -/
def twoMapsNoPhase : ProSHADE_settings :=
  { emptySettings with inputFiles := ["static.map", "moving.map"], usePhase := false }

/-! ## The calls of the symmetry centre detection -/

/-- The event is a call of a member function of a data object. -/
def Event.isCall : Event → Bool
  | .call _ _ _ => true
  | _ => false

/-- The member-function calls of the phased second half of
`SymmetryCentreDetectionTask` on the re-read structure `obj`. -/
def phasedCalls (settings : ProSHADE_settings) (obj strIndex : Nat) (fName : String) :
    List Event :=
  [ .call obj (.readInStructure fName strIndex) (some { settings with moveToCOM := false }),
    .call obj .processInternalMap (some { settings with moveToCOM := false }),
    .call obj .prepareFSCFourierMemory none ]

/-- The member-function calls of the phase-less first half of
`SymmetryCentreDetectionTask` on the structure `obj`. -/
def phaselessCalls {D : Type} (c : Collaborators D) (settings : ProSHADE_settings)
    (obj strIndex : Nat) (fName : String) : List Event :=
  [ .call obj (.readInStructure fName strIndex) (some (enforcedSettings c settings)),
    .call obj .processInternalMap (some (enforcedSettings c settings)),
    .call obj .mapToSpheres (some (enforcedSettings c settings)),
    .call obj .computeSphericalHarmonics (some (enforcedSettings c settings)),
    .call obj .computeRotationFunction (some (enforcedSettings c settings)),
    .call obj .detectSymmetryFromAngleAxisSpace (some (enforcedSettings c settings)) ]

/-- The phased second half of `SymmetryCentreDetectionTask` is reached: some
reliable symmetry was found and, when there are not exactly two, the first one
is a position of the list of cyclic axes. -/
def reachesPhased {D : Type} (c : Collaborators D) (settings : ProSHADE_settings)
    (allCs axes : AxisList) (strIndex : Nat) (fName : String) : Bool :=
  let relSym := reliableSymmetries c settings allCs axes strIndex fName
  if relSym.length == 0 then false
  else if relSym.length == 2 then true
  else
    match relSym.get? 0 with
    | none => false
    | some first =>
      ((phaselessDetection c settings allCs axes strIndex fName).2.2.get? first).isSome

/-- The member-function calls of a run of `SymmetryCentreDetectionTask` on
input `strIndex`, whose first new heap object gets the id `obj`: the settings
copy is `obj`, the phase-less structure `obj + 1`, the re-read structure
`obj + 2`. -/
def centreDetectionCalls {D : Type} (c : Collaborators D) (settings : ProSHADE_settings)
    (allCs axes : AxisList) (obj strIndex : Nat) : List Event :=
  match settings.inputFiles.get? strIndex with
  | none => []
  | some fName =>
    phaselessCalls c settings (obj + 1) strIndex fName ++
      (if reachesPhased c settings allCs axes strIndex fName then
        (if (reliableSymmetries c settings allCs axes strIndex fName).length == 2 then
          [Event.call (obj + 1) .getAllGroupElements none]
        else []) ++ phasedCalls settings (obj + 2) strIndex fName
      else [])

/-- The events of the first iteration of `SymmetryDetectionTask` with
`findSymCentre` set, before the centre detection starts: the structure `obj`
is created and read, the message is printed and the settings are copied. -/
def centreSearchPrelude (settings : ProSHADE_settings) (obj : Nat) (first : String) :
    List Event :=
  [ .alloc .data obj,
    .call obj (.readInStructure first 0) (some settings),
    .stdout "@@@ Attempting to find the symmetry centre using phase-less detection.",
    .alloc .settings (obj + 1) ]

/-- Two map files with the search for the symmetry centre switched on. -/
def twoMapsFindCentre : ProSHADE_settings :=
  { emptySettings with inputFiles := ["first.map", "second.map"], findSymCentre := true }

/-- What a run of the re-boxing task with the collaborators `k` saves, given the
state `st` on entry and the `result` of the run: the task returned; the entries
appended to `reboxedBounds` and `manipulatedMaps` are the bounds and the map of
the re-box target of each input; the log grew by the warning of the settings
check, if any, and the events of the iterations; and with `reBoxMap` unset
every appended entry is that of an object as it is constructed. -/
def SavesReBoxTarget {D : Type} (k : Collaborators D) (settings : ProSHADE_settings)
    (st : MapManipulationState)
    (result : Outcome × ProSHADE_settings × MapManipulationState) : Prop :=
  result.1 = .returned ∧
  result.2.2.reboxedBounds =
    st.reboxedBounds ++
      settings.inputFiles.enum.map (fun p => k.bounds (reBoxTarget k settings p.1 p.2)) ∧
  result.2.2.manipulatedMaps =
    st.manipulatedMaps ++
      settings.inputFiles.enum.map
        (fun p => k.deepCopyMap settings.verbose (reBoxTarget k settings p.1 p.2)) ∧
  (∃ w, result.2.2.machine.log =
    st.machine.log ++
      (w ++ mapManipulationLog settings 0 st.machine.nextId settings.inputFiles)) ∧
  (settings.reBoxMap = false →
    result.2.2.reboxedBounds =
      st.reboxedBounds ++ List.replicate settings.inputFiles.length (k.bounds k.construct) ∧
    result.2.2.manipulatedMaps =
      st.manipulatedMaps ++
        List.replicate settings.inputFiles.length (k.deepCopyMap settings.verbose k.construct))

/-! ## Lemmas -/

theorem forLoop_zero {S : Type} (body : Nat → S → Outcome × S) (iter : Nat) (s : S) :
    forLoop body iter 0 s = (.returned, s) := rfl

theorem forLoop_succ_of_returned {S : Type} (body : Nat → S → Outcome × S) (iter n : Nat)
    (s : S) (h : (body iter s).1 = .returned) :
    forLoop body iter (n + 1) s = forLoop body (iter + 1) n (body iter s).2 := by
  rw [forLoop]
  rcases hb : body iter s with ⟨o, s1⟩
  rw [hb] at h
  simp only at h
  subst h
  rfl

theorem drop_cons_get {α : Type} (xs : List α) (k : Nat) (y : α) (ys : List α)
    (h : xs.drop k = y :: ys) : xs.get? k = some y ∧ xs.drop (k + 1) = ys := by
  induction xs generalizing k with
  | nil => simp at h
  | cons x xs ih =>
    cases k with
    | zero => simp at h; simp [h]
    | succ k => simp at h; simpa using ih k h

theorem checkSymmetrySettings_frame (settings : ProSHADE_settings) (m : Machine) :
    (checkSymmetrySettings settings m).settings = settings ∧
    (checkSymmetrySettings settings m).machine = m := by
  unfold checkSymmetrySettings
  split_ifs <;> simp

theorem checkDistancesSettings_frame (almostEquals : proshade_single → proshade_single → Bool)
    (settings : ProSHADE_settings) (m : Machine) :
    (checkDistancesSettings almostEquals settings m).settings = settings ∧
    (checkDistancesSettings almostEquals settings m).machine = m := by
  unfold checkDistancesSettings
  split_ifs <;> simp

theorem checkMapManipulationSettings_frame (isFilePDB : String → Bool)
    (settings : ProSHADE_settings) (m : Machine) :
    (checkMapManipulationSettings isFilePDB settings m).settings = settings ∧
    ((checkMapManipulationSettings isFilePDB settings m).machine = m ∨
      (checkMapManipulationSettings isFilePDB settings m).machine =
        m.emit (.warning settings.verbose "WB00004")) := by
  unfold checkMapManipulationSettings
  cases hf : settings.inputFiles with
  | nil => simp
  | cons f fs =>
    simp
    split_ifs <;> simp

/-- The four-ULP comparison tells every non-negative number from `-1.0f`. -/
theorem almostEqualsUlp_separates (r : proshade_single) (h : r.geZero = true) :
    proshade_single.almostEqualsUlp r proshade_single.minusOne = false := by
  have hm : (proshade_single.minusOne).val = 3212836864 := by decide
  unfold proshade_single.geZero at h
  unfold proshade_single.almostEqualsUlp proshade_single.ulpDistance
    proshade_single.signAndMagnitudeToBiased
  rw [hm]
  have hr := r.isLt
  simp at h
  obtain ⟨_, h2⟩ := h
  by_cases hn : (r.isNaN || proshade_single.minusOne.isNaN) = true
  · simp [hn]
  · simp only [hn]
    simp
    rcases h2 with h2 | h2
    · split_ifs <;> omega
    · split_ifs <;> omega

/-- With `findSymCentre` off, the loop of `SymmetryDetectionTask` over the inputs
from index `k` on runs to its end and logs the pipeline events of each input. -/
theorem symmetry_loop {D : Type} (c : Collaborators D) (settings : ProSHADE_settings)
    (hoff : settings.findSymCentre = false) :
    ∀ (files : List String) (k : Nat) (st : SymmetryState),
      settings.inputFiles.drop k = files →
      (forLoop (SymmetryDetectionTask.body c settings) k files.length st).1 = .returned ∧
      (forLoop (SymmetryDetectionTask.body c settings) k files.length st).2.machine =
        ⟨st.machine.log ++ symmetryLog settings k st.machine.nextId files,
          st.machine.nextId + files.length⟩ := by
  intro files
  induction files with
  | nil => intro k st _; simp [forLoop, symmetryLog]
  | cons f fs ih =>
    intro k st h
    obtain ⟨hget0, hdrop⟩ := drop_cons_get _ _ _ _ h
    have hget : settings.inputFiles[k]? = some f := by simpa using hget0
    have hb : (SymmetryDetectionTask.body c settings k st).1 = .returned := by
      simp [SymmetryDetectionTask.body, hget, hoff, Machine.new]
    have hm : (SymmetryDetectionTask.body c settings k st).2.machine =
        ⟨st.machine.log ++ symmetryEvents settings st.machine.nextId k f,
          st.machine.nextId + 1⟩ := by
      simp [SymmetryDetectionTask.body, hget, hoff, Machine.new, Machine.call, Machine.delete,
        Machine.emit, symmetryEvents]
    have := ih (k + 1) (SymmetryDetectionTask.body c settings k st).2 hdrop
    rw [List.length_cons, forLoop_succ_of_returned _ _ _ _ hb, this.1, this.2, hm]
    simp [symmetryLog]
    omega

/-- The loop of `SymmetryDetectionTask` of 0.7.2 over the inputs from index `k`
on runs to its end and logs the pipeline events of each input. -/
theorem symmetry_loop_v072 {D : Type} (c : Collaborators D) (settings : ProSHADE_settings) :
    ∀ (files : List String) (k : Nat) (st : SymmetryState),
      settings.inputFiles.drop k = files →
      (forLoop (SymmetryDetectionTask_v072.body c settings) k files.length st).1 = .returned ∧
      (forLoop (SymmetryDetectionTask_v072.body c settings) k files.length st).2.machine =
        ⟨st.machine.log ++ symmetryLog_v072 settings k st.machine.nextId files,
          st.machine.nextId + files.length⟩ := by
  intro files
  induction files with
  | nil => intro k st _; simp [forLoop, symmetryLog_v072]
  | cons f fs ih =>
    intro k st h
    obtain ⟨hget0, hdrop⟩ := drop_cons_get _ _ _ _ h
    have hget : settings.inputFiles[k]? = some f := by simpa using hget0
    have hb : (SymmetryDetectionTask_v072.body c settings k st).1 = .returned := by
      simp [SymmetryDetectionTask_v072.body, hget, Machine.new]
    have hm : (SymmetryDetectionTask_v072.body c settings k st).2.machine =
        ⟨st.machine.log ++ symmetryEvents_v072 settings st.machine.nextId k f,
          st.machine.nextId + 1⟩ := by
      simp [SymmetryDetectionTask_v072.body, hget, Machine.new, Machine.call, Machine.delete,
        Machine.emit, symmetryEvents_v072]
    have := ih (k + 1) (SymmetryDetectionTask_v072.body c settings k st).2 hdrop
    rw [List.length_cons, forLoop_succ_of_returned _ _ _ _ hb, this.1, this.2, hm]
    simp [symmetryLog_v072]
    omega

/-- In 0.7.2, for settings with at least one input file, `SymmetryDetectionTask`
returns and logs the pipeline of each input in input order, each on a data
object of its own. -/
theorem SymmetryDetectionTask_v072_call_sequence {D : Type} (c : Collaborators D)
    (settings : ProSHADE_settings) (st : SymmetryState)
    (hpass : (checkSymmetrySettings_v072 settings st.machine).outcome = .returned) :
    (SymmetryDetectionTask_v072 c settings st).1 = .returned ∧
    (SymmetryDetectionTask_v072 c settings st).2.1 = settings ∧
    (SymmetryDetectionTask_v072 c settings st).2.2.machine.log =
      st.machine.log ++ symmetryLog_v072 settings 0 st.machine.nextId settings.inputFiles := by
  have hs : (checkSymmetrySettings_v072 settings st.machine).settings = settings ∧
      (checkSymmetrySettings_v072 settings st.machine).machine = st.machine := by
    unfold checkSymmetrySettings_v072
    split_ifs <;> simp
  have hl := symmetry_loop_v072 c settings settings.inputFiles 0
    { st with machine := st.machine } (by simp)
  unfold SymmetryDetectionTask_v072
  simp only [hpass, hs.1, hs.2]
  refine ⟨hl.1, trivial, ?_⟩
  rw [hl.2]

/-- Claim C1. `checkSymmetrySettings` (0.7.6.1) raises exactly when the input-file
list is empty or `axisErrTolerance < 0.0` holds: with an empty list the code is
ES00028 whatever the tolerance, with a non-empty list and a negative tolerance
the code is ES00053, and in every other case the check returns. -/
theorem checkSymmetrySettings_raises_iff (settings : ProSHADE_settings) (m : Machine) :
    ((∃ e, (checkSymmetrySettings settings m).outcome = .raised e) ↔
      (settings.inputFiles = [] ∨ settings.axisErrTolerance.ltZero = true)) ∧
    (settings.inputFiles = [] →
      (checkSymmetrySettings settings m).outcome.errc = some "ES00028") ∧
    (settings.inputFiles ≠ [] → settings.axisErrTolerance.ltZero = true →
      (checkSymmetrySettings settings m).outcome.errc = some "ES00053") ∧
    (settings.inputFiles ≠ [] → settings.axisErrTolerance.ltZero = false →
      (checkSymmetrySettings settings m).outcome = .returned) := by
  unfold checkSymmetrySettings
  cases hf : settings.inputFiles with
  | nil => simp [Outcome.errc]
  | cons f fs =>
    cases ht : settings.axisErrTolerance.ltZero <;> simp [Outcome.errc]

/-- Claim C1 at one map file with tolerance `-1.0`: the code is ES00053. -/
theorem checkSymmetrySettings_raises_iff_witness :
    (checkSymmetrySettings negativeTolerance Machine.start).outcome.errc = some "ES00053" :=
  (checkSymmetrySettings_raises_iff negativeTolerance Machine.start).2.2.1
    (by decide) (by decide)

/-- Claim C2. In each of `MapManipulationTask`, `DistancesComputationTask` and
`SymmetryDetectionTask`, when the settings check of the task raises `e`, the
task raises the same `e`, the settings and every output vector are as supplied,
no heap object was created and nothing but warnings was logged: no structure
was read or processed. -/
theorem configuration_error_before_any_computation {D : Type} (c : Collaborators D)
    (settings : ProSHADE_settings) (e : CppException) :
    (∀ st : MapManipulationState,
      (checkMapManipulationSettings c.isFilePDB settings st.machine).outcome = .raised e →
      ∃ m, MapManipulationTask c settings st = (.raised e, settings, { st with machine := m }) ∧
        OnlyWarningsAdded st.machine m) ∧
    (∀ st : DistancesState,
      (checkDistancesSettings c.almostEquals settings st.machine).outcome = .raised e →
      ∃ m, DistancesComputationTask c settings st =
          (.raised e, settings, { st with machine := m }) ∧
        OnlyWarningsAdded st.machine m) ∧
    (∀ st : SymmetryState,
      (checkSymmetrySettings settings st.machine).outcome = .raised e →
      ∃ m, SymmetryDetectionTask c settings st = (.raised e, settings, { st with machine := m }) ∧
        OnlyWarningsAdded st.machine m) := by
  refine ⟨?_, ?_, ?_⟩
  · intro st h
    obtain ⟨hs, hm⟩ := checkMapManipulationSettings_frame c.isFilePDB settings st.machine
    refine ⟨(checkMapManipulationSettings c.isFilePDB settings st.machine).machine, ?_, ?_⟩
    · unfold MapManipulationTask
      simp only [h, hs]
    · rcases hm with hm | hm
      · rw [hm]; exact ⟨rfl, [], by simp, by simp⟩
      · rw [hm]; exact ⟨rfl, [.warning settings.verbose "WB00004"], rfl, by simp⟩
  · intro st h
    obtain ⟨hs, hm⟩ := checkDistancesSettings_frame c.almostEquals settings st.machine
    refine ⟨st.machine, ?_, rfl, [], by simp, by simp⟩
    unfold DistancesComputationTask
    simp only [h, hs, hm]
  · intro st h
    obtain ⟨hs, hm⟩ := checkSymmetrySettings_frame settings st.machine
    refine ⟨st.machine, ?_, rfl, [], by simp, by simp⟩
    unfold SymmetryDetectionTask
    simp only [h, hs, hm]

/-- Claim C2 at a single PDB file without resolution: the re-boxing task raises
EB00011 with its outputs untouched. -/
theorem configuration_error_before_any_computation_witness :
    ∃ m, MapManipulationTask traceCollaborators onePdb ⟨[], [], [], Machine.start⟩ =
        (.raised (.ProSHADE_exception "No resolution given for PDB file re-boxing." "EB00011"),
          onePdb, ⟨[], [], [], m⟩) ∧
      OnlyWarningsAdded Machine.start m :=
  (configuration_error_before_any_computation traceCollaborators onePdb
    (.ProSHADE_exception "No resolution given for PDB file re-boxing." "EB00011")).1
    ⟨[], [], [], Machine.start⟩ (by decide)

/-- Claim C3. `checkMapManipulationSettings` raises EB00002 exactly when there is
no input file; otherwise it raises EB00011 exactly when the first input file is
a PDB file and `requestedResolution == 0.0f`; otherwise it raises EB00016
exactly when `outName` is empty; otherwise it returns.  It raises nothing else. -/
theorem checkMapManipulationSettings_cases (isFilePDB : String → Bool)
    (settings : ProSHADE_settings) (m : Machine) :
    ((checkMapManipulationSettings isFilePDB settings m).outcome.errc = some "EB00002" ↔
      settings.inputFiles = []) ∧
    (settings.inputFiles ≠ [] →
      ((checkMapManipulationSettings isFilePDB settings m).outcome.errc = some "EB00011" ↔
        (firstIsPDB isFilePDB settings = true ∧ settings.requestedResolution.eqZero = true))) ∧
    (settings.inputFiles ≠ [] →
      ¬ (firstIsPDB isFilePDB settings = true ∧ settings.requestedResolution.eqZero = true) →
      ((checkMapManipulationSettings isFilePDB settings m).outcome.errc = some "EB00016" ↔
        settings.outName = "")) ∧
    (settings.inputFiles ≠ [] →
      ¬ (firstIsPDB isFilePDB settings = true ∧ settings.requestedResolution.eqZero = true) →
      settings.outName ≠ "" →
      (checkMapManipulationSettings isFilePDB settings m).outcome = .returned) ∧
    (∀ e, (checkMapManipulationSettings isFilePDB settings m).outcome = .raised e →
      e = .ProSHADE_exception "There is no input structure for map manipulation." "EB00002" ∨
      e = .ProSHADE_exception "No resolution given for PDB file re-boxing." "EB00011" ∨
      e = .ProSHADE_exception "No output file name." "EB00016") := by
  unfold checkMapManipulationSettings firstIsPDB
  cases hf : settings.inputFiles with
  | nil => simp [Outcome.errc]
  | cons f fs =>
    cases hp : isFilePDB f <;> cases hz : settings.requestedResolution.eqZero <;>
      by_cases ho : settings.outName = "" <;> simp [Outcome.errc, hp, hz, ho]

/-- Claim C3 at a single PDB file without resolution: the code is EB00011,
although the output name is set. -/
theorem checkMapManipulationSettings_cases_witness :
    (checkMapManipulationSettings traceCollaborators.isFilePDB onePdb
      Machine.start).outcome.errc = some "EB00011" :=
  ((checkMapManipulationSettings_cases traceCollaborators.isFilePDB onePdb Machine.start).2.1
    (by decide)).mpr ⟨by decide, by decide⟩

/-- Claim C4, the code at the failing input: with a map file first and a PDB
file second and `requestedResolution == 0.0f`, the check returns instead of
raising EB00011, and `MapManipulationTask` goes on to read the PDB file as
input 1 with that resolution. -/
theorem checkMapManipulationSettings_misses_later_pdb :
    mapThenPdb.inputFiles ≠ [] ∧
    traceCollaborators.isFilePDB "second.pdb" = true ∧
    "second.pdb" ∈ mapThenPdb.inputFiles ∧
    mapThenPdb.requestedResolution.eqZero = true ∧
    (checkMapManipulationSettings traceCollaborators.isFilePDB mapThenPdb Machine.start).outcome =
      .returned ∧
    (MapManipulationTask traceCollaborators mapThenPdb ⟨[], [], [], Machine.start⟩).1 =
      .returned ∧
    Event.call 2 (.readInStructure "second.pdb" 1) (some mapThenPdb) ∈
      (MapManipulationTask traceCollaborators mapThenPdb
        ⟨[], [], [], Machine.start⟩).2.2.machine.log := by
  decide

/-- Claim C5. `checkDistancesSettings` raises ED00012 exactly when there are
fewer than two input files; with at least two it raises ED00013 when the
resolution is the unset marker `-1.0f` and returns for every resolution `>= 0`.
In 0.7.6.1 the resolution is compared by `AlmostEquals`, of which two facts are
used: `-1.0f` almost equals itself, and no number `>= 0` almost equals `-1.0f`.
In 0.7.2 the comparison is `==`. -/
theorem checkDistancesSettings_cases
    (almostEquals : proshade_single → proshade_single → Bool)
    (hrefl : almostEquals proshade_single.minusOne proshade_single.minusOne = true)
    (hsep : ∀ r : proshade_single, r.geZero = true →
      almostEquals r proshade_single.minusOne = false)
    (settings : ProSHADE_settings) (m : Machine) :
    ((checkDistancesSettings almostEquals settings m).outcome.errc = some "ED00012" ↔
      settings.inputFiles.length < 2) ∧
    (2 ≤ settings.inputFiles.length → settings.requestedResolution = proshade_single.minusOne →
      (checkDistancesSettings almostEquals settings m).outcome.errc = some "ED00013") ∧
    (2 ≤ settings.inputFiles.length → settings.requestedResolution.geZero = true →
      (checkDistancesSettings almostEquals settings m).outcome = .returned) ∧
    ((checkDistancesSettings_v072 settings m).outcome.errc = some "ED00012" ↔
      settings.inputFiles.length < 2) ∧
    (2 ≤ settings.inputFiles.length → settings.requestedResolution = proshade_single.minusOne →
      (checkDistancesSettings_v072 settings m).outcome.errc = some "ED00013") ∧
    (2 ≤ settings.inputFiles.length → settings.requestedResolution.geZero = true →
      (checkDistancesSettings_v072 settings m).outcome = .returned) := by
  have hge : ∀ r : proshade_single, r.geZero = true → r.eqMinusOne = false := by
    intro r h
    unfold proshade_single.geZero at h
    unfold proshade_single.eqMinusOne
    simp at h
    simp
    omega
  have hm1 : proshade_single.minusOne.eqMinusOne = true := by decide
  unfold checkDistancesSettings checkDistancesSettings_v072
  by_cases hl : settings.inputFiles.length < 2
  · simp [hl, Outcome.errc]
  · have hl2 : 2 ≤ settings.inputFiles.length := by omega
    refine ⟨?_, ?_, ?_, ?_, ?_, ?_⟩
    · simp only [hl, if_false]
      split_ifs <;> simp [Outcome.errc, hl]
    · intro _ hres
      simp [hl, hres, hrefl, Outcome.errc]
    · intro _ hres
      simp [hl, hsep _ hres]
    · simp only [hl, if_false]
      split_ifs <;> simp [Outcome.errc, hl]
    · intro _ hres
      simp [hl, hres, hm1, Outcome.errc]
    · intro _ hres
      simp [hl, hge _ hres]

/-- Claim C5 with the four-ULP comparison, at two map files and the resolution
left at `-1.0f`: the code is ED00013. -/
theorem checkDistancesSettings_cases_witness :
    (checkDistancesSettings proshade_single.almostEqualsUlp unsetResolution
      Machine.start).outcome.errc = some "ED00013" :=
  (checkDistancesSettings_cases proshade_single.almostEqualsUlp (by decide)
    almostEqualsUlp_separates unsetResolution Machine.start).2.1 (by decide) (by decide)

/-- Claim C6. `checkOverlaySettings` raises exactly when the number of input
files differs from 2, in 0.7.6.1 and in 0.7.2; with exactly two it returns. -/
theorem checkOverlaySettings_raises_iff (settings : ProSHADE_settings) (m : Machine) :
    ((∃ e, (checkOverlaySettings settings m).outcome = .raised e) ↔
      settings.inputFiles.length ≠ 2) ∧
    (settings.inputFiles.length = 2 → (checkOverlaySettings settings m).outcome = .returned) ∧
    ((∃ e, (checkOverlaySettings_v072 settings m).outcome = .raised e) ↔
      settings.inputFiles.length ≠ 2) ∧
    (settings.inputFiles.length = 2 →
      (checkOverlaySettings_v072 settings m).outcome = .returned) := by
  unfold checkOverlaySettings checkOverlaySettings_v072
  by_cases h : settings.inputFiles.length = 2
  · cases hm : settings.moveToCOM <;> simp [h, hm]
  · simp [h]

/-- Claim C6 at two map files: the check returns. -/
theorem checkOverlaySettings_raises_iff_witness :
    (checkOverlaySettings twoMaps Machine.start).outcome = .returned :=
  (checkOverlaySettings_raises_iff twoMaps Machine.start).2.1 (by decide)

/-- Claim C7 as stated fails: with two input files and map centring requested,
`checkOverlaySettings` (0.7.6.1) returns with `moveToCOM` changed from true to false. -/
theorem checkOverlaySettings_changes_settings :
    (checkOverlaySettings twoMapsCentred Machine.start).outcome = .returned ∧
    twoMapsCentred.moveToCOM = true ∧
    (checkOverlaySettings twoMapsCentred Machine.start).settings.moveToCOM = false ∧
    (checkOverlaySettings twoMapsCentred Machine.start).settings ≠ twoMapsCentred := by
  decide

/-- Claim C7, amended. `checkMapManipulationSettings`, `checkDistancesSettings`
and `checkSymmetrySettings` leave the settings object as it was, whether they
return or raise.  `checkOverlaySettings` (0.7.6.1) leaves it as it was when it
raises; when it returns (exactly two input files) every field other than
`moveToCOM` is as it was and `moveToCOM` is false. -/
theorem settings_checks_frame (isFilePDB : String → Bool)
    (almostEquals : proshade_single → proshade_single → Bool)
    (settings : ProSHADE_settings) (m : Machine) :
    (checkMapManipulationSettings isFilePDB settings m).settings = settings ∧
    (checkDistancesSettings almostEquals settings m).settings = settings ∧
    (checkDistancesSettings_v072 settings m).settings = settings ∧
    (checkSymmetrySettings settings m).settings = settings ∧
    (checkSymmetrySettings_v072 settings m).settings = settings ∧
    (checkOverlaySettings_v072 settings m).settings = settings ∧
    (checkOverlaySettings settings m).settings =
      (if settings.inputFiles.length = 2 then { settings with moveToCOM := false }
        else settings) := by
  refine ⟨(checkMapManipulationSettings_frame isFilePDB settings m).1,
    (checkDistancesSettings_frame almostEquals settings m).1, ?_,
    (checkSymmetrySettings_frame settings m).1, ?_, ?_, ?_⟩
  · unfold checkDistancesSettings_v072
    split_ifs <;> rfl
  · unfold checkSymmetrySettings_v072
    split_ifs <;> rfl
  · unfold checkOverlaySettings_v072
    split_ifs <;> rfl
  · unfold checkOverlaySettings
    by_cases h : settings.inputFiles.length = 2
    · cases hm : settings.moveToCOM
      · simp [h, hm]
        cases settings
        simp_all
      · simp [h, hm]
    · simp [h]

/-- Claim C8. For settings that pass `checkSymmetrySettings` with `findSymCentre`
off, `SymmetryDetectionTask` returns, leaves the settings as they were, and
logs, for each input in input order, on a data object created for that input
alone: `readInStructure`, `processInternalMap`, `mapToSpheres`,
`computeSphericalHarmonics`, `computeRotationFunction`,
`detectSymmetryFromAngleAxisSpace`, `reportSymmetryResults`, and then the
deletion of the object; nothing else is logged. -/
theorem SymmetryDetectionTask_call_sequence {D : Type} (c : Collaborators D)
    (settings : ProSHADE_settings) (st : SymmetryState)
    (hpass : (checkSymmetrySettings settings st.machine).outcome = .returned)
    (hoff : settings.findSymCentre = false) :
    (SymmetryDetectionTask c settings st).1 = .returned ∧
    (SymmetryDetectionTask c settings st).2.1 = settings ∧
    (SymmetryDetectionTask c settings st).2.2.machine.log =
      st.machine.log ++ symmetryLog settings 0 st.machine.nextId settings.inputFiles ∧
    (SymmetryDetectionTask c settings st).2.2.machine.nextId =
      st.machine.nextId + settings.inputFiles.length := by
  obtain ⟨hs, hm⟩ := checkSymmetrySettings_frame settings st.machine
  have hl := symmetry_loop c settings hoff settings.inputFiles 0
    { st with machine := st.machine } (by simp)
  unfold SymmetryDetectionTask
  simp only [hpass, hs, hm]
  refine ⟨hl.1, trivial, ?_, ?_⟩
  · rw [hl.2]
  · rw [hl.2]

/-- Claim C8 at two map files: the log is the pipeline of `first.map` on object
0 followed by the pipeline of `second.map` on object 1. -/
theorem SymmetryDetectionTask_call_sequence_witness :
    (SymmetryDetectionTask traceCollaborators twoMaps ⟨[], [], [], Machine.start⟩).1 =
      .returned ∧
    (SymmetryDetectionTask traceCollaborators twoMaps
        ⟨[], [], [], Machine.start⟩).2.2.machine.log =
      symmetryEvents twoMaps 0 0 "first.map" ++ symmetryEvents twoMaps 1 1 "second.map" :=
  ⟨(SymmetryDetectionTask_call_sequence traceCollaborators twoMaps
      ⟨[], [], [], Machine.start⟩ (by decide) (by decide)).1,
    (SymmetryDetectionTask_call_sequence traceCollaborators twoMaps
      ⟨[], [], [], Machine.start⟩ (by decide) (by decide)).2.2.1.trans (by decide)⟩

/-- Claim C10, the code at the failing input: the recommended axes are entries 0
and 1 of the master list and `[0, 1]` is a stored D combination, yet the search
also takes the stored combination `[2, 1]`, whose six-fold axis has the x, y, z
of the recommended twelve-fold axis, and `bestDAxesList` ends with four entries. -/
theorem bestDAxesList_takes_every_matching_pair :
    IndicesInRange [[0, 1], [2, 1]] [axisC12z, axisC2x, axisC6z] [axisC12z, axisC2x] ∧
    [axisC12z, axisC2x, axisC6z].get? 0 = some axisC12z ∧
    [axisC12z, axisC2x, axisC6z].get? 1 = some axisC2x ∧
    [0, 1] ∈ [[0, 1], [2, 1]] ∧
    bestDAxesList [[0, 1], [2, 1]] [axisC12z, axisC2x, axisC6z] [axisC12z, axisC2x] =
      (.returned, [0, 1, 2, 1]) := by
  refine ⟨⟨by simp, by simp [axisC12z, axisC2x, axisC6z], by simp [axisC12z, axisC2x]⟩,
    rfl, rfl, by simp, by decide⟩

/-! ## Lemmas, continued -/

theorem printBestDGroup_empty
    (getAllGroupElements : List Nat → String → Except CppException AxisList)
    (showDouble showFixed : proshade_double → String)
    (simpleSym : Nat) (settings : ProSHADE_settings) (allCs : AxisList) (m : Machine) :
    ∃ e, (printBestDGroup getAllGroupElements showDouble showFixed simpleSym settings allCs []
      m).1 = .raised e := by
  unfold printBestDGroup
  cases h : getAllGroupElements [] "D" with
  | error e => exact ⟨e, by simp⟩
  | ok g => exact ⟨.out_of_range, by simp⟩

theorem mapManipulation_body {D : Type} (c : Collaborators D) (settings : ProSHADE_settings)
    (k : Nat) (f : String) (st : MapManipulationState)
    (hget : settings.inputFiles[k]? = some f) :
    MapManipulationTask.body c settings k st =
      (.returned,
        ⟨st.originalBounds ++ [c.bounds (structureAsRead c settings k f)],
          st.reboxedBounds ++ [c.bounds (reBoxTarget c settings k f)],
          st.manipulatedMaps ++ [c.deepCopyMap settings.verbose (reBoxTarget c settings k f)],
          ⟨st.machine.log ++ mapManipulationEvents settings st.machine.nextId k f,
            st.machine.nextId + mapManipulationObjects settings⟩⟩) := by
  cases hr : settings.reBoxMap <;>
    simp [MapManipulationTask.body, hget, hr, Machine.new, Machine.call, Machine.delete,
      Machine.emit, mapManipulationEvents, mapManipulationObjects, reBoxTarget,
      structureAsRead, reBoxedFileName]

theorem mapManipulation_loop {D : Type} (c : Collaborators D) (settings : ProSHADE_settings) :
    ∀ (files : List String) (k : Nat) (st : MapManipulationState),
      settings.inputFiles.drop k = files →
      forLoop (MapManipulationTask.body c settings) k files.length st =
        (.returned,
          ⟨st.originalBounds ++
              (files.enumFrom k).map (fun p => c.bounds (structureAsRead c settings p.1 p.2)),
            st.reboxedBounds ++
              (files.enumFrom k).map (fun p => c.bounds (reBoxTarget c settings p.1 p.2)),
            st.manipulatedMaps ++
              (files.enumFrom k).map
                (fun p => c.deepCopyMap settings.verbose (reBoxTarget c settings p.1 p.2)),
            ⟨st.machine.log ++ mapManipulationLog settings k st.machine.nextId files,
              st.machine.nextId + mapManipulationObjects settings * files.length⟩⟩) := by
  intro files
  induction files with
  | nil => intro k st _; simp [forLoop, mapManipulationLog]
  | cons f fs ih =>
    intro k st h
    obtain ⟨hget0, hdrop⟩ := drop_cons_get _ _ _ _ h
    have hget : settings.inputFiles[k]? = some f := by simpa using hget0
    have hb := mapManipulation_body c settings k f st hget
    have hb1 : (MapManipulationTask.body c settings k st).1 = .returned := by rw [hb]
    rw [List.length_cons, forLoop_succ_of_returned _ _ _ _ hb1, hb, ih (k + 1) _ hdrop]
    simp [mapManipulationLog, List.enumFrom_cons]
    ring

/-- A passing `MapManipulationTask` in full: the outputs and the log. -/
theorem MapManipulationTask_run {D : Type} (c : Collaborators D)
    (settings : ProSHADE_settings) (st : MapManipulationState)
    (hpass : (checkMapManipulationSettings c.isFilePDB settings st.machine).outcome = .returned) :
    ∃ w, (w = [] ∨ w = [Event.warning settings.verbose "WB00004"]) ∧
      MapManipulationTask c settings st =
        (.returned, settings,
          ⟨st.originalBounds ++
              settings.inputFiles.enum.map
                (fun p => c.bounds (structureAsRead c settings p.1 p.2)),
            st.reboxedBounds ++
              settings.inputFiles.enum.map (fun p => c.bounds (reBoxTarget c settings p.1 p.2)),
            st.manipulatedMaps ++
              settings.inputFiles.enum.map
                (fun p => c.deepCopyMap settings.verbose (reBoxTarget c settings p.1 p.2)),
            ⟨st.machine.log ++
                (w ++ mapManipulationLog settings 0 st.machine.nextId settings.inputFiles),
              st.machine.nextId + mapManipulationObjects settings * settings.inputFiles.length⟩⟩)
      := by
  obtain ⟨hs, hm⟩ := checkMapManipulationSettings_frame c.isFilePDB settings st.machine
  rcases hm with hm | hm
  · refine ⟨[], Or.inl rfl, ?_⟩
    unfold MapManipulationTask
    simp only [hpass, hs, hm]
    rw [mapManipulation_loop c settings settings.inputFiles 0 _ (by simp)]
    simp [List.enum]
  · refine ⟨[.warning settings.verbose "WB00004"], Or.inr rfl, ?_⟩
    unfold MapManipulationTask
    simp only [hpass, hs, hm]
    rw [mapManipulation_loop c settings settings.inputFiles 0 _ (by simp)]
    simp [List.enum, Machine.emit]

theorem distances_body {D : Type} (c : Collaborators D) (settings : ProSHADE_settings)
    (ref k : Nat) (first f : String) (st : DistancesLoopState D)
    (hfirst : settings.inputFiles[0]? = some first)
    (hget : settings.inputFiles[k]? = some f) :
    DistancesComputationTask.body c settings ref k st =
      (.returned,
        ⟨(compareStructures c settings st.compareAgainst
            (preparedStructure c settings k f)).against,
          ⟨st.out.enLevs ++ [(compareStructures c settings st.compareAgainst
              (preparedStructure c settings k f)).enLevDist],
            st.out.trSigm ++ [(compareStructures c settings st.compareAgainst
              (preparedStructure c settings k f)).trSigmDist],
            st.out.rotFun ++ [(compareStructures c settings st.compareAgainst
              (preparedStructure c settings k f)).rotFunDist],
            ⟨st.out.machine.log ++ distancesEvents c settings ref st.out.machine.nextId k first f
                (compareStructures c settings st.compareAgainst
                  (preparedStructure c settings k f)),
              st.out.machine.nextId + 1⟩⟩⟩) := by
  cases h1 : settings.computeEnergyLevelsDesc <;> cases h2 : settings.computeTraceSigmaDesc <;>
    cases h3 : settings.computeRotationFuncDesc <;>
    simp [DistancesComputationTask.body, hget, hfirst, h1, h2, h3, Machine.new, Machine.call,
      Machine.delete, Machine.emit, Machine.func, ReportDistancesResults, distancesEvents,
      compareStructures, preparedStructure]

theorem distances_loop {D : Type} (c : Collaborators D) (settings : ProSHADE_settings)
    (ref : Nat) (first : String) (hfirst : settings.inputFiles[0]? = some first) :
    ∀ (files : List String) (k : Nat) (st : DistancesLoopState D),
      settings.inputFiles.drop k = files →
      ∃ a, forLoop (DistancesComputationTask.body c settings ref) k files.length st =
        (.returned,
          ⟨a,
            ⟨st.out.enLevs ++
                (comparisons c settings st.compareAgainst k files).map (fun r => r.enLevDist),
              st.out.trSigm ++
                (comparisons c settings st.compareAgainst k files).map (fun r => r.trSigmDist),
              st.out.rotFun ++
                (comparisons c settings st.compareAgainst k files).map (fun r => r.rotFunDist),
              ⟨st.out.machine.log ++
                  distancesLog c settings ref first st.compareAgainst k st.out.machine.nextId files,
                st.out.machine.nextId + files.length⟩⟩⟩) := by
  intro files
  induction files with
  | nil => intro k st _; exact ⟨st.compareAgainst, by simp [forLoop, comparisons, distancesLog]⟩
  | cons f fs ih =>
    intro k st h
    obtain ⟨hget0, hdrop⟩ := drop_cons_get _ _ _ _ h
    have hget : settings.inputFiles[k]? = some f := by simpa using hget0
    have hb := distances_body c settings ref k first f st hfirst hget
    have hb1 : (DistancesComputationTask.body c settings ref k st).1 = .returned := by rw [hb]
    obtain ⟨a, ha⟩ := ih (k + 1) (DistancesComputationTask.body c settings ref k st).2 hdrop
    refine ⟨a, ?_⟩
    rw [List.length_cons, forLoop_succ_of_returned _ _ _ _ hb1, ha, hb]
    simp [comparisons, distancesLog]
    omega

theorem comparisons_length {D : Type} (c : Collaborators D) (settings : ProSHADE_settings) :
    ∀ (files : List String) (against : D) (k : Nat),
      (comparisons c settings against k files).length = files.length := by
  intro files
  induction files with
  | nil => intro _ _; rfl
  | cons f fs ih => intro a k; simp [comparisons, ih]

theorem distancesLog_counts {D : Type} (c : Collaborators D) (settings : ProSHADE_settings)
    (ref : Nat) (first : String) :
    ∀ (files : List String) (against : D) (iter obj : Nat), 1 ≤ iter → ref < obj →
      (distancesLog c settings ref first against iter obj files).countP (Event.readsInput 0) = 0 ∧
      (distancesLog c settings ref first against iter obj files).countP (Event.processes ref)
        = 0 := by
  intro files
  induction files with
  | nil => intro _ _ _ _ _; simp [distancesLog]
  | cons f fs ih =>
    intro against iter obj hi ho
    have hi0 : iter ≠ 0 := by omega
    have ho0 : obj ≠ ref := by omega
    have h := ih (compareStructures c settings against
      (preparedStructure c settings iter f)).against (iter + 1) (obj + 1) (by omega) (by omega)
    rw [distancesLog, List.countP_append, List.countP_append, h.1, h.2]
    cases h1 : settings.computeEnergyLevelsDesc <;> cases h2 : settings.computeTraceSigmaDesc <;>
      cases h3 : settings.computeRotationFuncDesc <;>
      simp [distancesEvents, h1, h2, h3, List.countP_cons, Event.readsInput, Event.processes,
        hi0, ho0]

theorem DistancesComputationTask_run {D : Type} (c : Collaborators D)
    (settings : ProSHADE_settings) (st : DistancesState)
    (hpass : (checkDistancesSettings c.almostEquals settings st.machine).outcome = .returned) :
    ∃ first rest, settings.inputFiles = first :: rest ∧
      DistancesComputationTask c settings st =
        (.returned, settings,
          ⟨st.enLevs ++ (comparisons c settings (preparedStructure c settings 0 first) 1 rest).map
              (fun r => r.enLevDist),
            st.trSigm ++ (comparisons c settings (preparedStructure c settings 0 first) 1 rest).map
              (fun r => r.trSigmDist),
            st.rotFun ++ (comparisons c settings (preparedStructure c settings 0 first) 1 rest).map
              (fun r => r.rotFunDist),
            ⟨st.machine.log ++ (referenceEvents settings st.machine.nextId first ++
                distancesLog c settings st.machine.nextId first
                  (preparedStructure c settings 0 first) 1 (st.machine.nextId + 1) rest ++
                [.release st.machine.nextId]),
              st.machine.nextId + 1 + rest.length⟩⟩) := by
  obtain ⟨hs, hm⟩ := checkDistancesSettings_frame c.almostEquals settings st.machine
  have hlen : 2 ≤ settings.inputFiles.length := by
    by_contra hlt
    have : settings.inputFiles.length < 2 := by omega
    simp [checkDistancesSettings, this] at hpass
  cases hfiles : settings.inputFiles with
  | nil => rw [hfiles] at hlen; simp at hlen
  | cons first rest =>
    refine ⟨first, rest, rfl, ?_⟩
    have hfirst : settings.inputFiles[0]? = some first := by rw [hfiles]; simp
    have hdrop : settings.inputFiles.drop 1 = rest := by rw [hfiles]; simp
    obtain ⟨a, ha⟩ := distances_loop c settings st.machine.nextId first hfirst rest 1
      ⟨preparedStructure c settings 0 first,
        { st with machine := ⟨st.machine.log ++ referenceEvents settings st.machine.nextId first,
            st.machine.nextId + 1⟩ }⟩ hdrop
    have hl : settings.inputFiles.length - 1 = rest.length := by rw [hfiles]; simp
    unfold DistancesComputationTask
    simp only [hpass, hs, hm]
    simp only [List.get?_eq_getElem?, hfirst, hl, Machine.new, Machine.call, Machine.emit]
    simp only [preparedStructure, referenceEvents, List.append_assoc, List.singleton_append,
      List.cons_append, List.nil_append] at ha ⊢
    rw [ha]
    simp [Machine.delete, Machine.emit]

theorem symmetry_body {D : Type} (c : Collaborators D) (settings : ProSHADE_settings)
    (hoff : settings.findSymCentre = false) (k : Nat) (f : String) (st : SymmetryState)
    (hget : settings.inputFiles[k]? = some f) :
    SymmetryDetectionTask.body c settings k st =
      (.returned,
        ⟨(detectStructure c settings st.axes st.allCs k f).axes,
          (detectStructure c settings st.axes st.allCs k f).allCs,
          st.mapCOMShift ++ comShift c (detectStructure c settings st.axes st.allCs k f).reported,
          ⟨st.machine.log ++ symmetryEvents settings st.machine.nextId k f,
            st.machine.nextId + 1⟩⟩) := by
  simp [SymmetryDetectionTask.body, hget, hoff, Machine.new, Machine.call, Machine.delete,
    Machine.emit, symmetryEvents, detectStructure, preparedStructure, comShift]

theorem symmetry_loop_outputs {D : Type} (c : Collaborators D) (settings : ProSHADE_settings)
    (hoff : settings.findSymCentre = false) :
    ∀ (files : List String) (k : Nat) (st : SymmetryState),
      settings.inputFiles.drop k = files →
      ∃ axes allCs, forLoop (SymmetryDetectionTask.body c settings) k files.length st =
        (.returned,
          ⟨axes, allCs,
            st.mapCOMShift ++
              (detections c settings st.axes st.allCs k files).flatMap
                (fun r => comShift c r.reported),
            ⟨st.machine.log ++ symmetryLog settings k st.machine.nextId files,
              st.machine.nextId + files.length⟩⟩) := by
  intro files
  induction files with
  | nil => intro k st _; exact ⟨st.axes, st.allCs, by simp [forLoop, detections, symmetryLog]⟩
  | cons f fs ih =>
    intro k st h
    obtain ⟨hget0, hdrop⟩ := drop_cons_get _ _ _ _ h
    have hget : settings.inputFiles[k]? = some f := by simpa using hget0
    have hb := symmetry_body c settings hoff k f st hget
    have hb1 : (SymmetryDetectionTask.body c settings k st).1 = .returned := by rw [hb]
    obtain ⟨axes, allCs, ha⟩ := ih (k + 1) (SymmetryDetectionTask.body c settings k st).2 hdrop
    refine ⟨axes, allCs, ?_⟩
    rw [List.length_cons, forLoop_succ_of_returned _ _ _ _ hb1, ha, hb]
    simp [detections, symmetryLog, List.flatMap_cons]
    omega

theorem detections_length {D : Type} (c : Collaborators D) (settings : ProSHADE_settings) :
    ∀ (files : List String) (axes allCs : AxisList) (k : Nat),
      (detections c settings axes allCs k files).length = files.length := by
  intro files
  induction files with
  | nil => intro _ _ _; rfl
  | cons f fs ih => intro a b k; simp [detections, ih]

theorem flatMap_comShift_length {D : Type} (c : Collaborators D) :
    ∀ (rows : List (Detection D)),
      (rows.flatMap (fun r => comShift c r.reported)).length = 3 * rows.length := by
  intro rows
  induction rows with
  | nil => rfl
  | cons r rs ih =>
    rw [List.flatMap_cons, List.length_append, ih]
    simp [comShift]
    omega

theorem liveData_append (live : List Nat) (a b : List Event) :
    liveData live (a ++ b) = liveData (liveData live a) b := by
  simp [liveData, List.foldl_append]

theorem peakData_append (a b : List Event) :
    ∀ live : List Nat,
      peakData live (a ++ b) = max (peakData live a) (peakData (liveData live a) b) := by
  induction a with
  | nil =>
    intro live
    cases b with
    | nil => simp [peakData, liveData]
    | cons e es => simp [peakData, liveData]
  | cons e es ih =>
    intro live
    rw [List.cons_append, peakData, peakData, ih]
    simp [liveData, max_assoc]

theorem peakData_ge_length (events : List Event) :
    ∀ live : List Nat, live.length ≤ peakData live events := by
  cases events with
  | nil => intro live; simp [peakData]
  | cons e es => intro live; simp [peakData]

theorem mapManipulationEvents_data (settings : ProSHADE_settings) (obj iter : Nat)
    (fName : String) :
    liveData [] (mapManipulationEvents settings obj iter fName) = [] ∧
    peakData [] (mapManipulationEvents settings obj iter fName) = 2 := by
  cases h : settings.reBoxMap <;>
    simp [mapManipulationEvents, h, liveData, peakData, stepData]

theorem symmetryEvents_data (settings : ProSHADE_settings) (obj iter : Nat) (fName : String) :
    liveData [] (symmetryEvents settings obj iter fName) = [] ∧
    peakData [] (symmetryEvents settings obj iter fName) = 1 := by
  simp [symmetryEvents, liveData, peakData, stepData]

theorem distancesEvents_data {D : Type} (c : Collaborators D) (settings : ProSHADE_settings)
    (ref obj iter : Nat) (first fName : String) (r : Comparison D) (h : obj ≠ ref) :
    liveData [ref] (distancesEvents c settings ref obj iter first fName r) = [ref] ∧
    peakData [ref] (distancesEvents c settings ref obj iter first fName r) = 2 := by
  have h' : ¬ ref = obj := fun e => h e.symm
  cases h1 : settings.computeEnergyLevelsDesc <;> cases h2 : settings.computeTraceSigmaDesc <;>
    cases h3 : settings.computeRotationFuncDesc <;>
    simp [distancesEvents, h1, h2, h3, liveData, peakData, stepData, h, h', List.erase_cons]

theorem mapManipulationLog_data (settings : ProSHADE_settings) :
    ∀ (files : List String) (iter obj : Nat),
      liveData [] (mapManipulationLog settings iter obj files) = [] ∧
      peakData [] (mapManipulationLog settings iter obj files) ≤ 2 := by
  intro files
  induction files with
  | nil => intro _ _; simp [mapManipulationLog, liveData, peakData]
  | cons f fs ih =>
    intro iter obj
    have h := mapManipulationEvents_data settings obj iter f
    have h2 := ih (iter + 1) (obj + mapManipulationObjects settings)
    rw [mapManipulationLog, liveData_append, peakData_append, h.1, h.2, h2.1]
    exact ⟨rfl, max_le (le_refl 2) h2.2⟩

theorem symmetryLog_data (settings : ProSHADE_settings) :
    ∀ (files : List String) (iter obj : Nat),
      liveData [] (symmetryLog settings iter obj files) = [] ∧
      peakData [] (symmetryLog settings iter obj files) ≤ 1 := by
  intro files
  induction files with
  | nil => intro _ _; simp [symmetryLog, liveData, peakData]
  | cons f fs ih =>
    intro iter obj
    have h := symmetryEvents_data settings obj iter f
    have h2 := ih (iter + 1) (obj + 1)
    rw [symmetryLog, liveData_append, peakData_append, h.1, h.2, h2.1]
    exact ⟨rfl, max_le (le_refl 1) h2.2⟩

theorem distancesLog_data {D : Type} (c : Collaborators D) (settings : ProSHADE_settings)
    (ref : Nat) (first : String) :
    ∀ (files : List String) (against : D) (iter obj : Nat), ref < obj →
      liveData [ref] (distancesLog c settings ref first against iter obj files) = [ref] ∧
      peakData [ref] (distancesLog c settings ref first against iter obj files) ≤ 2 := by
  intro files
  induction files with
  | nil => intro _ _ _ _; simp [distancesLog, liveData, peakData]
  | cons f fs ih =>
    intro against iter obj ho
    have h := distancesEvents_data c settings ref obj iter first f
      (compareStructures c settings against (preparedStructure c settings iter f))
      (by omega)
    have h2 := ih (compareStructures c settings against
      (preparedStructure c settings iter f)).against (iter + 1) (obj + 1) (by omega)
    rw [distancesLog, liveData_append, peakData_append, h.1, h.2, h2.1]
    exact ⟨rfl, max_le (le_refl 2) h2.2⟩

theorem setCentreToInfinity_three (settings : ProSHADE_settings)
    (h : settings.centrePosition.length = 3) :
    SymmetryCentreDetectionTask.setCentreToInfinity settings =
      (.returned, { settings with
        centrePosition :=
          [proshade_double.infinity, proshade_double.infinity, proshade_double.infinity] }) := by
  obtain ⟨a, b, d, hc⟩ : ∃ a b d, settings.centrePosition = [a, b, d] := by
    match hcp : settings.centrePosition, h with
    | [a, b, d], _ => exact ⟨a, b, d, rfl⟩
  simp [SymmetryCentreDetectionTask.setCentreToInfinity, hc]

/-- The early return of `SymmetryCentreDetectionTask`, in full. -/
theorem SymmetryCentreDetectionTask_no_symmetry {D : Type} (c : Collaborators D)
    (settings : ProSHADE_settings) (allCs axes : AxisList) (strIndex : Nat) (fName : String)
    (m : Machine) (hfile : settings.inputFiles[strIndex]? = some fName)
    (hnone : reliableSymmetries c settings allCs axes strIndex fName = []) :
    SymmetryCentreDetectionTask c settings allCs axes strIndex m =
      ⟨(SymmetryCentreDetectionTask.setCentreToInfinity { settings with moveToCOM := false }).1,
        (SymmetryCentreDetectionTask.setCentreToInfinity { settings with moveToCOM := false }).2,
        (phaselessDetection c settings allCs axes strIndex fName).2.2,
        (phaselessDetection c settings allCs axes strIndex fName).2.1,
        ⟨m.log ++ noSymmetryEvents c settings m.nextId strIndex fName, m.nextId + 2⟩⟩ := by
  simp only [reliableSymmetries, phaselessDetection, preparedStructure, enforcedSettings]
    at hnone
  simp [SymmetryCentreDetectionTask, hfile, hnone, Machine.new, Machine.call, Machine.func,
    Machine.emit, noSymmetryEvents, enforcedSettings, phaselessDetection, preparedStructure]

theorem addNew_eq_append {G : Type} [DecidableEq G] : ∀ (cs elements : List G),
    ∃ extra, addNew elements cs = elements ++ extra ∧ (∀ x ∈ extra, x ∈ cs) ∧
      (elements.Nodup → (elements ++ extra).Nodup) := by
  intro cs
  induction cs with
  | nil => intro elements; exact ⟨[], by simp [addNew], by simp, by simp⟩
  | cons c cs ih =>
    intro elements
    by_cases hc : c ∈ elements
    · obtain ⟨extra, h1, h2, h3⟩ := ih elements
      refine ⟨extra, by simp [addNew, hc, h1], ?_, h3⟩
      intro x hx
      exact List.mem_cons_of_mem _ (h2 x hx)
    · obtain ⟨extra, h1, h2, h3⟩ := ih (elements ++ [c])
      refine ⟨c :: extra, by simp [addNew, hc, h1], ?_, ?_⟩
      · intro x hx
        rcases List.mem_cons.mp hx with hx | hx
        · subst hx; exact List.mem_cons_self _ _
        · exact List.mem_cons_of_mem _ (h2 x hx)
      · intro hnd
        have : (elements ++ [c]).Nodup := by
          rw [List.nodup_append]
          refine ⟨hnd, List.nodup_singleton c, ?_⟩
          intro x hx hx'
          rw [List.mem_singleton] at hx'
          subst hx'
          exact hc hx
        have := h3 this
        simpa using this

theorem check_raises_failure (isFilePDB : String → Bool)
    (almostEquals : proshade_single → proshade_single → Bool)
    (check : SettingsCheck) (settings : ProSHADE_settings) (m : Machine) (e : CppException)
    (h : (check.run isFilePDB almostEquals settings m).outcome = .raised e) :
    ∃ f : ConfigurationFailure, f.check = check ∧
      (∃ message, e = .ProSHADE_exception message f.errc) ∧
      f.holds isFilePDB almostEquals settings := by
  cases check with
  | mapManipulation =>
    simp only [SettingsCheck.run, checkMapManipulationSettings] at h
    cases hf : settings.inputFiles with
    | nil =>
      simp [hf] at h
      exact ⟨.noStructureToManipulate, rfl, ⟨_, h.symm⟩, hf⟩
    | cons f fs =>
      simp [hf] at h
      by_cases hp : isFilePDB f = true
      · by_cases hz : settings.requestedResolution.eqZero = true
        · simp [hp, hz] at h
          exact ⟨.noResolutionForPDB, rfl, ⟨_, h.symm⟩, by simp [firstIsPDB, hf, hp], hz⟩
        · by_cases ho : settings.outName = ""
          · simp [hp, hz, ho] at h
            exact ⟨.noOutputName, rfl, ⟨_, h.symm⟩, ho⟩
          · simp [hp, hz, ho] at h
      · by_cases ho : settings.outName = ""
        · simp [hp, ho] at h
          exact ⟨.noOutputName, rfl, ⟨_, h.symm⟩, ho⟩
        · simp [hp, ho] at h
  | distances =>
    simp only [SettingsCheck.run, checkDistancesSettings] at h
    by_cases hl : settings.inputFiles.length < 2
    · simp [hl] at h
      exact ⟨.tooFewStructuresForDistances, rfl, ⟨_, h.symm⟩, hl⟩
    · by_cases hr : almostEquals settings.requestedResolution proshade_single.minusOne = true
      · simp [hl, hr] at h
        exact ⟨.resolutionNotSet, rfl, ⟨_, h.symm⟩, hr⟩
      · simp [hl, hr] at h
  | symmetry =>
    simp only [SettingsCheck.run, checkSymmetrySettings] at h
    cases hf : settings.inputFiles with
    | nil =>
      simp [hf] at h
      exact ⟨.noStructureForSymmetry, rfl, ⟨_, h.symm⟩, hf⟩
    | cons f fs =>
      by_cases ht : settings.axisErrTolerance.ltZero = true
      · simp [hf, ht] at h
        exact ⟨.negativeAxisTolerance, rfl, ⟨_, h.symm⟩, ht⟩
      · simp [hf, ht] at h
  | overlay =>
    simp only [SettingsCheck.run, checkOverlaySettings] at h
    by_cases hl : settings.inputFiles.length = 2
    · cases hm : settings.moveToCOM <;> simp [hl, hm] at h
    · simp [hl] at h
      exact ⟨.notTwoStructuresForOverlay, rfl, ⟨_, h.symm⟩, hl⟩

/-! ## Claims, continued -/

/-- Claim C11, the code at the failing input: for a structure with a single
four-fold axis and no stored D combination the search ends with an empty
`bestDAxesList`, and the expansion and printing that follow do not complete:
whatever `getAllGroupElements` does, an exception is raised, and when it
returns a list of elements the exception is the `std::out_of_range` of
`bestDAxesList.at(0)`.  The same holds whenever the search ends with an empty list. -/
theorem bestDGroupSection_raises_without_match :
    (∀ (getAllGroupElements : List Nat → String → Except CppException AxisList)
      (showDouble showFixed : proshade_double → String) (simpleSym : Nat)
      (settings : ProSHADE_settings) (allCs recomSymAxes : AxisList) (m : Machine),
      bestDAxesList settings.allDetectedDAxes allCs recomSymAxes = (.returned, []) →
      ∃ e, (bestDGroupSection getAllGroupElements showDouble showFixed simpleSym settings
        allCs recomSymAxes m).1 = .raised e) ∧
    bestDAxesList emptySettings.allDetectedDAxes [axisC4z] [axisC4z] = (.returned, []) ∧
    (bestDGroupSection (fun _ _ => .ok [identityMat, identityMat])
      (fun x => toString x.val) (fun x => toString x.val) 0
      emptySettings [axisC4z] [axisC4z] Machine.start).1 = .raised .out_of_range := by
  refine ⟨?_, by decide, by decide⟩
  intro g s1 s2 sym settings allCs rec m h
  unfold bestDGroupSection
  rw [h]
  exact printBestDGroup_empty g s1 s2 sym settings allCs m

/-- Claim C13 as stated fails: with the energy levels descriptor switched off in
the settings, the value appended to `enLevs` for the pair of inputs 0 and 1 is
`0.0`, while the energy levels descriptor of every pair is `1.0`. -/
theorem DistancesComputationTask_saves_zero_when_not_required :
    (checkDistancesSettings oneDescriptorCollaborators.almostEquals twoMapsNoEnergyLevels
      Machine.start).outcome = .returned ∧
    (∀ a b : Trace, (oneDescriptorCollaborators.computeEnergyLevelsDescriptor a b
      twoMapsNoEnergyLevels).1 = one) ∧
    (DistancesComputationTask oneDescriptorCollaborators twoMapsNoEnergyLevels
      ⟨[], [], [], Machine.start⟩).2.2.enLevs = [0] ∧
    (0 : proshade_double) ≠ one := by
  refine ⟨by decide, fun _ _ => rfl, by decide, by decide⟩

/-- Claim C13, amended. For settings that pass `checkDistancesSettings` with n
input files, `DistancesComputationTask` returns and appends exactly n-1 values
to each of `enLevs`, `trSigm` and `rotFun`, after their previous contents; the
k-th values are those of the comparison of the reference structure, read from
input 0, with input k: each is the descriptor of the pair when the settings ask
for that descriptor and `0.0` when they do not.  Input 0 is read once and its
object is processed once. -/
theorem DistancesComputationTask_appends {D : Type} (c : Collaborators D)
    (settings : ProSHADE_settings) (st : DistancesState)
    (hpass : (checkDistancesSettings c.almostEquals settings st.machine).outcome = .returned) :
    ∃ first rest added, settings.inputFiles = first :: rest ∧
      (DistancesComputationTask c settings st).1 = .returned ∧
      (DistancesComputationTask c settings st).2.2.enLevs =
        st.enLevs ++ (comparisons c settings (preparedStructure c settings 0 first) 1 rest).map
          (fun r => r.enLevDist) ∧
      (DistancesComputationTask c settings st).2.2.trSigm =
        st.trSigm ++ (comparisons c settings (preparedStructure c settings 0 first) 1 rest).map
          (fun r => r.trSigmDist) ∧
      (DistancesComputationTask c settings st).2.2.rotFun =
        st.rotFun ++ (comparisons c settings (preparedStructure c settings 0 first) 1 rest).map
          (fun r => r.rotFunDist) ∧
      (comparisons c settings (preparedStructure c settings 0 first) 1 rest).length =
        settings.inputFiles.length - 1 ∧
      (∀ against changing : D,
        (compareStructures c settings against changing).enLevDist =
          if settings.computeEnergyLevelsDesc then
            (c.computeEnergyLevelsDescriptor against changing settings).1
          else 0) ∧
      (settings.computeTraceSigmaDesc = false → ∀ against changing : D,
        (compareStructures c settings against changing).trSigmDist = 0) ∧
      (settings.computeRotationFuncDesc = false → ∀ against changing : D,
        (compareStructures c settings against changing).rotFunDist = 0) ∧
      (DistancesComputationTask c settings st).2.2.machine.log = st.machine.log ++ added ∧
      added.countP (Event.readsInput 0) = 1 ∧
      added.countP (Event.processes st.machine.nextId) = 1 := by
  obtain ⟨first, rest, hfiles, h⟩ := DistancesComputationTask_run c settings st hpass
  have hcount := distancesLog_counts c settings st.machine.nextId first rest
    (preparedStructure c settings 0 first) 1 (st.machine.nextId + 1) (le_refl 1) (by omega)
  refine ⟨first, rest, _, hfiles, by rw [h], by rw [h], by rw [h], by rw [h], ?_, ?_, ?_, ?_,
    by rw [h], ?_, ?_⟩
  · rw [comparisons_length, hfiles]; simp
  · intro against changing
    cases h1 : settings.computeEnergyLevelsDesc <;> simp [compareStructures, h1]
  · intro h2 against changing
    simp [compareStructures, h2]
  · intro h3 against changing
    simp [compareStructures, h3]
  · rw [List.countP_append, List.countP_append, hcount.1]
    simp [referenceEvents, List.countP_cons, Event.readsInput]
  · rw [List.countP_append, List.countP_append, hcount.2]
    simp [referenceEvents, List.countP_cons, Event.processes]

/-- Claim C13, amended, at two map files with every descriptor asked for: one
value is appended to `enLevs`. -/
theorem DistancesComputationTask_appends_witness :
    ∃ first rest added, twoMaps.inputFiles = first :: rest ∧
      (DistancesComputationTask traceCollaborators twoMaps ⟨[], [], [], Machine.start⟩).1 =
        .returned ∧
      (DistancesComputationTask traceCollaborators twoMaps
          ⟨[], [], [], Machine.start⟩).2.2.enLevs =
        [] ++ (comparisons traceCollaborators twoMaps
          (preparedStructure traceCollaborators twoMaps 0 first) 1 rest).map
            (fun r => r.enLevDist) ∧
      (DistancesComputationTask traceCollaborators twoMaps
          ⟨[], [], [], Machine.start⟩).2.2.machine.log = [] ++ added ∧
      added.countP (Event.readsInput 0) = 1 := by
  obtain ⟨first, rest, added, h1, h2, h3, _, _, _, _, _, _, h4, h5, _⟩ :=
    DistancesComputationTask_appends traceCollaborators twoMaps ⟨[], [], [], Machine.start⟩
      (by decide)
  exact ⟨first, rest, added, h1, h2, h3, h4, h5⟩

/-- Claim C14. For settings that pass `checkMapManipulationSettings` with n input
files, `MapManipulationTask` returns and appends to each of `originalBounds`,
`reboxedBounds` and `manipulatedMaps` exactly one entry per input, in input
order, after the previous contents; the entry of `originalBounds` for input i
is the bounds of structure i as read, before any processing. -/
theorem MapManipulationTask_appends {D : Type} (c : Collaborators D)
    (settings : ProSHADE_settings) (st : MapManipulationState)
    (hpass : (checkMapManipulationSettings c.isFilePDB settings st.machine).outcome = .returned) :
    (MapManipulationTask c settings st).1 = .returned ∧
    (MapManipulationTask c settings st).2.2.originalBounds =
      st.originalBounds ++
        settings.inputFiles.enum.map (fun p => c.bounds (structureAsRead c settings p.1 p.2)) ∧
    (MapManipulationTask c settings st).2.2.reboxedBounds =
      st.reboxedBounds ++
        settings.inputFiles.enum.map (fun p => c.bounds (reBoxTarget c settings p.1 p.2)) ∧
    (MapManipulationTask c settings st).2.2.manipulatedMaps =
      st.manipulatedMaps ++
        settings.inputFiles.enum.map
          (fun p => c.deepCopyMap settings.verbose (reBoxTarget c settings p.1 p.2)) ∧
    (MapManipulationTask c settings st).2.2.originalBounds.length =
      st.originalBounds.length + settings.inputFiles.length ∧
    (MapManipulationTask c settings st).2.2.reboxedBounds.length =
      st.reboxedBounds.length + settings.inputFiles.length ∧
    (MapManipulationTask c settings st).2.2.manipulatedMaps.length =
      st.manipulatedMaps.length + settings.inputFiles.length := by
  obtain ⟨w, _, h⟩ := MapManipulationTask_run c settings st hpass
  rw [h]
  simp

/-- Claim C14 at a map file followed by a PDB file: two entries are appended to
`originalBounds`. -/
theorem MapManipulationTask_appends_witness :
    (MapManipulationTask traceCollaborators mapThenPdb ⟨[], [], [], Machine.start⟩).1 =
      .returned ∧
    (MapManipulationTask traceCollaborators mapThenPdb
        ⟨[], [], [], Machine.start⟩).2.2.originalBounds.length = 0 + 2 :=
  ⟨(MapManipulationTask_appends traceCollaborators mapThenPdb ⟨[], [], [], Machine.start⟩
      (by decide)).1,
    (MapManipulationTask_appends traceCollaborators mapThenPdb ⟨[], [], [], Machine.start⟩
      (by decide)).2.2.2.2.1⟩

/-- Claim C15. For settings that pass `checkSymmetrySettings` with `findSymCentre`
off and n input files, `SymmetryDetectionTask` returns and appends to
`mapCOMShift` exactly 3n values: for each structure in input order its
`mapCOMProcessChangeX`, `mapCOMProcessChangeY` and `mapCOMProcessChangeZ`, in
that order, read after the results of that structure were reported. -/
theorem SymmetryDetectionTask_mapCOMShift {D : Type} (c : Collaborators D)
    (settings : ProSHADE_settings) (st : SymmetryState)
    (hpass : (checkSymmetrySettings settings st.machine).outcome = .returned)
    (hoff : settings.findSymCentre = false) :
    (SymmetryDetectionTask c settings st).1 = .returned ∧
    (SymmetryDetectionTask c settings st).2.2.mapCOMShift =
      st.mapCOMShift ++
        (detections c settings st.axes st.allCs 0 settings.inputFiles).flatMap
          (fun r => comShift c r.reported) ∧
    ((detections c settings st.axes st.allCs 0 settings.inputFiles).flatMap
        (fun r => comShift c r.reported)).length = 3 * settings.inputFiles.length := by
  obtain ⟨hs, hm⟩ := checkSymmetrySettings_frame settings st.machine
  obtain ⟨axes, allCs, hl⟩ := symmetry_loop_outputs c settings hoff settings.inputFiles 0
    { st with machine := st.machine } (by simp)
  unfold SymmetryDetectionTask
  simp only [hpass, hs, hm]
  rw [hl]
  refine ⟨rfl, rfl, ?_⟩
  rw [flatMap_comShift_length, detections_length]

/-- Claim C15 at two map files: six values are appended. -/
theorem SymmetryDetectionTask_mapCOMShift_witness :
    (SymmetryDetectionTask traceCollaborators twoMaps
        ⟨[], [], [], Machine.start⟩).2.2.mapCOMShift.length = 3 * 2 := by
  have h := SymmetryDetectionTask_mapCOMShift traceCollaborators twoMaps
    ⟨[], [], [], Machine.start⟩ (by decide) (by decide)
  rw [h.2.1, List.nil_append]
  exact h.2.2

/-- Claim C16. When input `strIndex` exists, the centre position has its three
components and the phase-less search finds no reliable symmetry,
`SymmetryCentreDetectionTask` returns with the three components set to
`+infinity`; its last event is the warning WS00071 and no event of the run
belongs to the Fourier-transform part. -/
theorem SymmetryCentreDetectionTask_no_symmetry_found {D : Type} (c : Collaborators D)
    (settings : ProSHADE_settings) (allCs axes : AxisList) (strIndex : Nat) (fName : String)
    (m : Machine) (hfile : settings.inputFiles[strIndex]? = some fName)
    (hcentre : settings.centrePosition.length = 3)
    (hnone : reliableSymmetries c settings allCs axes strIndex fName = []) :
    (SymmetryCentreDetectionTask c settings allCs axes strIndex m).outcome = .returned ∧
    (SymmetryCentreDetectionTask c settings allCs axes strIndex m).settings =
      { settings with
        moveToCOM := false
        centrePosition :=
          [proshade_double.infinity, proshade_double.infinity, proshade_double.infinity] } ∧
    (SymmetryCentreDetectionTask c settings allCs axes strIndex m).machine.log =
      m.log ++ noSymmetryEvents c settings m.nextId strIndex fName ∧
    (noSymmetryEvents c settings m.nextId strIndex fName).getLast? =
      some (Event.warning settings.verbose "WS00071") ∧
    (noSymmetryEvents c settings m.nextId strIndex fName).all
      (fun ev => !ev.isFourierStep) = true := by
  rw [SymmetryCentreDetectionTask_no_symmetry c settings allCs axes strIndex fName m hfile hnone,
    setCentreToInfinity_three _ (by simpa using hcentre)]
  refine ⟨rfl, rfl, rfl, ?_, ?_⟩
  · simp [noSymmetryEvents, enforcedSettings]
  · simp [noSymmetryEvents, Event.isFourierStep]

/-- Claim C16 at the first of two map files, with collaborators that find no
reliable symmetry: the task returns. -/
theorem SymmetryCentreDetectionTask_no_symmetry_found_witness :
    (SymmetryCentreDetectionTask traceCollaborators twoMaps [] [] 0 Machine.start).outcome =
      .returned ∧
    (SymmetryCentreDetectionTask traceCollaborators twoMaps [] [] 0
        Machine.start).settings.centrePosition =
      [proshade_double.infinity, proshade_double.infinity, proshade_double.infinity] := by
  have h := SymmetryCentreDetectionTask_no_symmetry_found traceCollaborators twoMaps [] [] 0
    "first.map" Machine.start (by decide) (by decide) (by decide)
  exact ⟨h.1, by rw [h.2.1]⟩

/-- Claim C17, the code at the failing inputs: when `SymmetryCentreDetectionTask`
returns early, the settings copy (object 0) and the structure object (object
1) are still alive; when it returns at its normal end, the settings copy and
the re-read structure object (object 2) are still alive.  Nothing was alive on
entry. -/
theorem SymmetryCentreDetectionTask_leaves_objects_alive :
    (SymmetryCentreDetectionTask traceCollaborators twoMaps [] [] 0 Machine.start).outcome =
      .returned ∧
    liveObjects []
        (SymmetryCentreDetectionTask traceCollaborators twoMaps [] [] 0 Machine.start).machine.log =
      [(.settings, 0), (.data, 1)] ∧
    (SymmetryCentreDetectionTask oneAxisCollaborators twoMaps [axisC4z] [] 0
      Machine.start).outcome = .returned ∧
    liveObjects []
        (SymmetryCentreDetectionTask oneAxisCollaborators twoMaps [axisC4z] [] 0
          Machine.start).machine.log =
      [(.settings, 0), (.data, 2)] := by
  decide

/-- Claim C18. In `MapManipulationTask`, `DistancesComputationTask` and
`SymmetryDetectionTask` (with `findSymCentre` off), when the settings check
passes the task returns and its log is the log of its iterations, one after the
other (in the distances task between the creation and the deletion of the
reference structure).  Every iteration deletes the data objects it created
before it ends, so at no point more than two data objects are alive, and none
is alive when the task returns. -/
theorem structure_objects_do_not_leak {D : Type} (c : Collaborators D)
    (settings : ProSHADE_settings) :
    (∀ st : MapManipulationState,
      (checkMapManipulationSettings c.isFilePDB settings st.machine).outcome = .returned →
      ∃ w, (w = [] ∨ w = [Event.warning settings.verbose "WB00004"]) ∧
        (MapManipulationTask c settings st).1 = .returned ∧
        (MapManipulationTask c settings st).2.2.machine.log = st.machine.log ++
          (w ++ mapManipulationLog settings 0 st.machine.nextId settings.inputFiles) ∧
        liveData [] (w ++ mapManipulationLog settings 0 st.machine.nextId settings.inputFiles)
          = [] ∧
        peakData [] (w ++ mapManipulationLog settings 0 st.machine.nextId settings.inputFiles)
          ≤ 2) ∧
    (∀ (obj iter : Nat) (fName : String),
      liveData [] (mapManipulationEvents settings obj iter fName) = []) ∧
    (∀ st : DistancesState,
      (checkDistancesSettings c.almostEquals settings st.machine).outcome = .returned →
      ∃ first rest, settings.inputFiles = first :: rest ∧
        (DistancesComputationTask c settings st).1 = .returned ∧
        (DistancesComputationTask c settings st).2.2.machine.log = st.machine.log ++
          (referenceEvents settings st.machine.nextId first ++
            distancesLog c settings st.machine.nextId first
              (preparedStructure c settings 0 first) 1 (st.machine.nextId + 1) rest ++
            [.release st.machine.nextId]) ∧
        liveData []
          (referenceEvents settings st.machine.nextId first ++
            distancesLog c settings st.machine.nextId first
              (preparedStructure c settings 0 first) 1 (st.machine.nextId + 1) rest ++
            [.release st.machine.nextId]) = [] ∧
        peakData []
          (referenceEvents settings st.machine.nextId first ++
            distancesLog c settings st.machine.nextId first
              (preparedStructure c settings 0 first) 1 (st.machine.nextId + 1) rest ++
            [.release st.machine.nextId]) ≤ 2) ∧
    (∀ (ref obj iter : Nat) (first fName : String) (r : Comparison D), obj ≠ ref →
      liveData [ref] (distancesEvents c settings ref obj iter first fName r) = [ref]) ∧
    (∀ st : SymmetryState,
      (checkSymmetrySettings settings st.machine).outcome = .returned →
      settings.findSymCentre = false →
      (SymmetryDetectionTask c settings st).1 = .returned ∧
        (SymmetryDetectionTask c settings st).2.2.machine.log = st.machine.log ++
          symmetryLog settings 0 st.machine.nextId settings.inputFiles ∧
        liveData [] (symmetryLog settings 0 st.machine.nextId settings.inputFiles) = [] ∧
        peakData [] (symmetryLog settings 0 st.machine.nextId settings.inputFiles) ≤ 2) ∧
    (∀ (obj iter : Nat) (fName : String),
      liveData [] (symmetryEvents settings obj iter fName) = []) := by
  refine ⟨?_, fun obj iter f => (mapManipulationEvents_data settings obj iter f).1, ?_,
    fun ref obj iter first f r h => (distancesEvents_data c settings ref obj iter first f r h).1,
    ?_, fun obj iter f => (symmetryEvents_data settings obj iter f).1⟩
  · intro st hpass
    obtain ⟨w, hw, h⟩ := MapManipulationTask_run c settings st hpass
    have hd := mapManipulationLog_data settings settings.inputFiles 0 st.machine.nextId
    refine ⟨w, hw, by rw [h], by rw [h], ?_, ?_⟩
    · rw [liveData_append]
      rcases hw with hw | hw
      · rw [hw]; exact hd.1
      · rw [hw]; exact hd.1
    · rw [peakData_append]
      rcases hw with hw | hw
      · rw [hw]
        exact max_le (by simp [peakData]) hd.2
      · rw [hw]
        exact max_le (by simp [peakData, stepData]) hd.2
  · intro st hpass
    obtain ⟨first, rest, hfiles, h⟩ := DistancesComputationTask_run c settings st hpass
    have hd := distancesLog_data c settings st.machine.nextId first rest
      (preparedStructure c settings 0 first) 1 (st.machine.nextId + 1) (by omega)
    have hr : liveData [] (referenceEvents settings st.machine.nextId first) =
        [st.machine.nextId] := by
      simp [referenceEvents, liveData, stepData]
    have hp : peakData [] (referenceEvents settings st.machine.nextId first) = 1 := by
      simp [referenceEvents, peakData, stepData]
    refine ⟨first, rest, hfiles, by rw [h], by rw [h], ?_, ?_⟩
    · rw [liveData_append, liveData_append, hr, hd.1]
      simp [liveData, stepData]
    · rw [peakData_append, peakData_append, liveData_append, hr, hp, hd.1]
      have := hd.2
      simp [peakData, stepData]
      omega
  · intro st hpass hoff
    have h := symmetry_loop c settings hoff settings.inputFiles 0
      { st with machine := st.machine } (by simp)
    obtain ⟨hs, hm⟩ := checkSymmetrySettings_frame settings st.machine
    have hd := symmetryLog_data settings settings.inputFiles 0 st.machine.nextId
    refine ⟨?_, ?_, hd.1, le_trans hd.2 (by decide)⟩
    · unfold SymmetryDetectionTask
      simp only [hpass, hs, hm]
      exact h.1
    · unfold SymmetryDetectionTask
      simp only [hpass, hs, hm]
      rw [h.2]

/-- Claim C18 at two map files in the distances task: the task returns and no
data object is alive in its log at the end. -/
theorem structure_objects_do_not_leak_witness :
    ∃ first rest, twoMaps.inputFiles = first :: rest ∧
      (DistancesComputationTask traceCollaborators twoMaps ⟨[], [], [], Machine.start⟩).1 =
        .returned ∧
      liveData []
        (referenceEvents twoMaps 0 first ++
          distancesLog traceCollaborators twoMaps 0 first
            (preparedStructure traceCollaborators twoMaps 0 first) 1 (0 + 1) rest ++
          [.release 0]) = [] := by
  obtain ⟨first, rest, h1, h2, _, h4, _⟩ :=
    (structure_objects_do_not_leak traceCollaborators twoMaps).2.2.1
      ⟨[], [], [], Machine.start⟩ (by decide)
  exact ⟨first, rest, h1, h2, h4⟩

/-- Claim C19. The eight failure conditions of the four settings checks of
0.7.6.1 carry pairwise different error codes; a check raises nothing but a
`ProSHADE_exception` with the code of one of its own conditions, and that
condition holds of the settings; so two raises with the same code come from
the same check and the same condition. -/
theorem configuration_failures_have_distinct_codes (isFilePDB : String → Bool)
    (almostEquals : proshade_single → proshade_single → Bool) :
    (∀ f g : ConfigurationFailure, f.errc = g.errc → f = g) ∧
    (∀ (check : SettingsCheck) (settings : ProSHADE_settings) (m : Machine) (e : CppException),
      (check.run isFilePDB almostEquals settings m).outcome = .raised e →
      ∃ f : ConfigurationFailure, f.check = check ∧
        (∃ message, e = .ProSHADE_exception message f.errc) ∧
        f.holds isFilePDB almostEquals settings) ∧
    (∀ (check1 check2 : SettingsCheck) (s1 s2 : ProSHADE_settings) (m1 m2 : Machine)
      (code : String),
      (check1.run isFilePDB almostEquals s1 m1).outcome.errc = some code →
      (check2.run isFilePDB almostEquals s2 m2).outcome.errc = some code →
      check1 = check2 ∧
      ∃ f : ConfigurationFailure, f.errc = code ∧ f.check = check1 ∧
        f.holds isFilePDB almostEquals s1 ∧ f.holds isFilePDB almostEquals s2) := by
  have hinj : ∀ f g : ConfigurationFailure, f.errc = g.errc → f = g := by
    intro f g h
    cases f <;> cases g <;> first | rfl | (exact absurd h (by decide))
  have hcode : ∀ (check : SettingsCheck) (s : ProSHADE_settings) (m : Machine) (code : String),
      (check.run isFilePDB almostEquals s m).outcome.errc = some code →
      ∃ f : ConfigurationFailure, f.check = check ∧ f.errc = code ∧
        f.holds isFilePDB almostEquals s := by
    intro check s m code h
    cases ho : (check.run isFilePDB almostEquals s m).outcome with
    | returned => rw [ho] at h; simp [Outcome.errc] at h
    | exited st => rw [ho] at h; simp [Outcome.errc] at h
    | raised e =>
      obtain ⟨f, hf1, ⟨msg, hf2⟩, hf3⟩ :=
        check_raises_failure isFilePDB almostEquals check s m e ho
      rw [ho, hf2] at h
      simp only [Outcome.errc, Option.some.injEq] at h
      exact ⟨f, hf1, h, hf3⟩
  refine ⟨hinj, check_raises_failure isFilePDB almostEquals, ?_⟩
  intro check1 check2 s1 s2 m1 m2 code h1 h2
  obtain ⟨f, hf1, hf2, hf3⟩ := hcode check1 s1 m1 code h1
  obtain ⟨g, hg1, hg2, hg3⟩ := hcode check2 s2 m2 code h2
  have hfg : f = g := hinj f g (hf2.trans hg2.symm)
  subst hfg
  exact ⟨hf1.symm.trans hg1, f, hf2, hf1, hf3, hg3⟩

/-- Claim C19 at the symmetry check on one map file with tolerance `-1.0`: the
exception raised carries the code of a condition of the symmetry check. -/
theorem configuration_failures_have_distinct_codes_witness :
    ∃ f : ConfigurationFailure, f.check = .symmetry ∧
      (∃ message, CppException.ProSHADE_exception
        "Symmetry axis detection tolerance set to negative value." "ES00053" =
          .ProSHADE_exception message f.errc) ∧
      f.holds traceCollaborators.isFilePDB proshade_single.almostEqualsUlp negativeTolerance :=
  (configuration_failures_have_distinct_codes traceCollaborators.isFilePDB
    proshade_single.almostEqualsUlp).2.1 .symmetry negativeTolerance Machine.start _ (by decide)

theorem MapManipulationTask_v072_body_eq {D : Type} (c : Collaborators D)
    (settings : ProSHADE_settings) :
    MapManipulationTask_v072.body c settings = MapManipulationTask.body (c.v072 settings) settings :=
  rfl

theorem MapManipulationTask_v072_eq {D : Type} (c : Collaborators D)
    (settings : ProSHADE_settings) (st : MapManipulationState) :
    MapManipulationTask_v072 c settings st = MapManipulationTask (c.v072 settings) settings st := by
  obtain ⟨hs, _⟩ := checkMapManipulationSettings_frame c.isFilePDB settings st.machine
  have hp : (c.v072 settings).isFilePDB = c.isFilePDB := rfl
  unfold MapManipulationTask_v072 MapManipulationTask
  simp only [hp, hs, MapManipulationTask_v072_body_eq]

theorem reBoxTarget_of_unset {D : Type} (c : Collaborators D) (settings : ProSHADE_settings)
    (h : settings.reBoxMap = false) (iter : Nat) (fName : String) :
    reBoxTarget c settings iter fName = c.construct := by
  simp [reBoxTarget, h]

theorem map_enum_const {α β : Type} (b : β) (xs : List α) :
    xs.enum.map (fun _ => b) = List.replicate xs.length b := by
  rw [List.eq_replicate_iff]
  constructor
  · simp
  · intro x hx
    simp only [List.mem_map] at hx
    obtain ⟨_, _, h⟩ := hx
    exact h.symm

/-- The closure only adds elements at the end, and adds no repetition. -/
theorem closeUnderComposition_eq_append {G : Type} [Mul G] [DecidableEq G] :
    ∀ (cap : Nat) (elements : List G), ∃ extra,
      closeUnderComposition cap elements = elements ++ extra ∧
      (elements.Nodup → (elements ++ extra).Nodup) := by
  intro cap
  induction cap with
  | zero => intro elements; exact ⟨[], by simp [closeUnderComposition], by simp⟩
  | succ cap ih =>
    intro elements
    unfold closeUnderComposition
    split
    · exact ⟨[], by simp, by simp⟩
    · obtain ⟨e1, h1, _, n1⟩ := addNew_eq_append (products elements) elements
      obtain ⟨e2, h2, n2⟩ := ih (addNew elements (products elements))
      refine ⟨e1 ++ e2, ?_, ?_⟩
      · rw [h2, h1, List.append_assoc]
      · intro hn
        rw [← List.append_assoc, ← h1]
        exact n2 (h1 ▸ n1 hn)

theorem toList_injective {R : Type} (a b : Mat3 R) (h : a.toList = b.toList) : a = b := by
  simp only [Mat3.toList, List.cons.injEq, and_true] at h
  obtain ⟨h0, h1, h2, h3, h4, h5, h6, h7, h8⟩ := h
  exact Mat3.ext h0 h1 h2 h3 h4 h5 h6 h7 h8

/-- The element list before the 9 values are taken: the identity, then the
generators that are new, then what the closure adds, without repetition. -/
theorem groupElements_shape {R : Type} [CommRing R] [DecidableEq R]
    (generators : List (Mat3 R)) (cap : Nat) :
    ∃ fromGenerators fromClosure,
      addNew [1] generators = 1 :: fromGenerators ∧
      closeUnderComposition cap (addNew [1] generators) =
        1 :: (fromGenerators ++ fromClosure) ∧
      (1 :: (fromGenerators ++ fromClosure)).Nodup := by
  obtain ⟨e1, h1, _, n1⟩ := addNew_eq_append generators [(1 : Mat3 R)]
  obtain ⟨e2, h2, n2⟩ := closeUnderComposition_eq_append cap (addNew [1] generators)
  refine ⟨e1, e2, by simpa using h1, ?_, ?_⟩
  · rw [h2, h1]; simp
  · have := n2 (h1 ▸ n1 (by simp))
    rw [h1] at this
    simpa using this

/-- A passing `MapOverlayTask` (0.7.6.1) in full. -/
theorem MapOverlayTask_run {D : Type} (c : Collaborators D) (oc : OverlayCollaborators D)
    (settings : ProSHADE_settings) (st : OverlayState)
    (h : settings.inputFiles.length = 2) :
    (MapOverlayTask c oc settings st).1 = .returned ∧
    (MapOverlayTask c oc settings st).2.1 =
      { settings with moveToCOM := false, usePhase := true, changeMapResolution := true } ∧
    (MapOverlayTask c oc settings st).2.2.machine.log =
      (checkOverlaySettings settings st.machine).machine.log ++
        overlayEvents { settings with moveToCOM := false } st.machine.nextId := by
  cases hm : settings.moveToCOM <;>
    simp [MapOverlayTask, checkOverlaySettings, h, hm, Machine.new, Machine.func, Machine.call,
      Machine.delete, Machine.emit, overlayEvents]

/-- A passing `MapOverlayTask` (0.7.2) in full. -/
theorem MapOverlayTask_v072_run {D : Type} (c : Collaborators D) (oc : OverlayCollaborators D)
    (settings : ProSHADE_settings) (st : OverlayState_v072)
    (h : settings.inputFiles.length = 2) :
    (MapOverlayTask_v072 c oc settings st).1 = .returned ∧
    (MapOverlayTask_v072 c oc settings st).2.1 =
      { settings with usePhase := true, changeMapResolution := true } ∧
    (MapOverlayTask_v072 c oc settings st).2.2.machine.log =
      st.machine.log ++ overlayEvents_v072 settings st.machine.nextId := by
  simp [MapOverlayTask_v072, checkOverlaySettings_v072, h, Machine.new, Machine.func,
    Machine.delete, Machine.emit, overlayEvents_v072]

theorem forLoop_preserves {S α : Type} (f : S → α) (body : Nat → S → Outcome × S)
    (h : ∀ i s, f (body i s).2 = f s) : ∀ (n i : Nat) (s : S), f (forLoop body i n s).2 = f s := by
  intro n
  induction n with
  | zero => intro i s; rfl
  | succ n ih =>
    intro i s
    unfold forLoop
    split
    · next s1 heq =>
      rw [ih]
      have := h i s
      rw [heq] at this
      exact this
    · next o s1 _ heq =>
      have := h i s
      rw [heq] at this
      exact this

theorem newMany_eq (kind : Resource) : ∀ (n : Nat) (m : Machine),
    Machine.newMany m kind n =
      ((List.range n).map (fun i => m.nextId + i),
        ⟨m.log ++ (List.range n).map (fun i => Event.alloc kind (m.nextId + i)),
          m.nextId + n⟩) := by
  intro n
  induction n with
  | zero => intro m; simp [Machine.newMany]
  | succ n ih =>
    intro m
    simp only [Machine.newMany, Machine.new, ih, List.range_succ_eq_map, List.map_cons,
      List.map_map]
    simp [Function.comp_def, Nat.add_assoc, Nat.add_comm 1]

theorem deleteMany_eq : ∀ (ids : List Nat) (m : Machine),
    Machine.deleteMany m ids = ⟨m.log ++ ids.map Event.release, m.nextId⟩ := by
  intro ids
  induction ids with
  | nil => intro m; simp [Machine.deleteMany]
  | cons id ids ih =>
    intro m
    have := ih (m.delete id)
    simp only [Machine.deleteMany, List.foldl_cons] at this ⊢
    rw [this]
    simp [Machine.delete, Machine.emit]

theorem pairBody_calls {D : Type} (c : Collaborators D) (settings : ProSHADE_settings)
    (symStr : Nat) (symElems : AxisList) (gEl1 gEl2 : Nat) (st : LinesState D) :
    ((SymmetryCentreDetectionTask.pairBody c settings symStr symElems gEl1 gEl2 st).2.machine.log.filter
      Event.isCall) = st.machine.log.filter Event.isCall := by
  unfold SymmetryCentreDetectionTask.pairBody
  repeat' split
  all_goals simp [Machine.func, Machine.emit, Event.isCall]

theorem elementBody_calls {D : Type} (c : Collaborators D) (settings : ProSHADE_settings)
    (symStr : Nat) (symElems : AxisList) (gEl1 : Nat) (st : LinesState D) :
    ((SymmetryCentreDetectionTask.elementBody c settings symStr symElems gEl1 st).2.machine.log.filter
      Event.isCall) = st.machine.log.filter Event.isCall := by
  unfold SymmetryCentreDetectionTask.elementBody
  repeat' split
  all_goals first
    | rfl
    | exact forLoop_preserves (fun s : LinesState D => s.machine.log.filter Event.isCall) _
        (pairBody_calls c settings symStr symElems gEl1) _ _ _

theorem slopeBody_calls {D : Type} (lIt1 lIt2 : Nat) (st : LinesState D) :
    ((SymmetryCentreDetectionTask.slopeBody lIt1 lIt2 st).2.machine.log.filter Event.isCall) =
      st.machine.log.filter Event.isCall := by
  simp only [SymmetryCentreDetectionTask.slopeBody, Machine.new]
  repeat' split
  all_goals simp [Machine.delete, Machine.emit, Event.isCall]

theorem lineBody_calls {D : Type} (lIt1 : Nat) (st : LinesState D) :
    ((SymmetryCentreDetectionTask.lineBody lIt1 st).2.machine.log.filter Event.isCall) =
      st.machine.log.filter Event.isCall :=
  forLoop_preserves (fun s : LinesState D => s.machine.log.filter Event.isCall) _
    (slopeBody_calls lIt1) _ _ _

theorem filter_isCall_release (ids : List Nat) :
    (ids.map Event.release).filter Event.isCall = [] := by
  induction ids with
  | nil => rfl
  | cons id ids ih => simp [Event.isCall]

theorem filter_isCall_alloc (kind : Resource) (f : Nat → Nat) (ids : List Nat) :
    (ids.map (fun i => Event.alloc kind (f i))).filter Event.isCall = [] := by
  induction ids with
  | nil => rfl
  | cons id ids ih => simp [Event.isCall]

theorem phased_calls {D : Type} (c : Collaborators D) (settings : ProSHADE_settings)
    (allCs axes : AxisList) (strIndex : Nat) (fName : String) (symElems : AxisList)
    (m : Machine) (hfile : settings.inputFiles[strIndex]? = some fName) :
    (SymmetryCentreDetectionTask.phased c settings allCs axes strIndex symElems m).settings =
      settings ∧
    (SymmetryCentreDetectionTask.phased c settings allCs axes strIndex symElems
        m).machine.log.filter Event.isCall =
      m.log.filter Event.isCall ++
        [ .call m.nextId (.readInStructure fName strIndex) (some settings),
          .call m.nextId .processInternalMap (some settings),
          .call m.nextId .prepareFSCFourierMemory none ] := by
  have hloop1 := fun (symStr : Nat) (n : Nat) (st : LinesState D) =>
    forLoop_preserves (fun s : LinesState D => s.machine.log.filter Event.isCall)
      (SymmetryCentreDetectionTask.elementBody c settings symStr symElems)
      (elementBody_calls c settings symStr symElems) n 0 st
  have hloop2 := fun (n : Nat) (st : LinesState D) =>
    forLoop_preserves (fun s : LinesState D => s.machine.log.filter Event.isCall)
      SymmetryCentreDetectionTask.lineBody lineBody_calls n 0 st
  simp only [SymmetryCentreDetectionTask.phased, List.get?_eq_getElem?, hfile, Machine.new,
    newMany_eq, deleteMany_eq, Machine.func, Machine.call, Machine.delete, Machine.emit]
  repeat' split
  all_goals
    refine ⟨rfl, ?_⟩
    simp only [hloop1, hloop2, List.filter_append, filter_isCall_release, filter_isCall_alloc]
    simp [Event.isCall]

/-- The member-function calls of a run of `SymmetryCentreDetectionTask`. -/
theorem SymmetryCentreDetectionTask_calls {D : Type} (c : Collaborators D)
    (settings : ProSHADE_settings) (allCs axes : AxisList) (strIndex : Nat) (m : Machine) :
    (SymmetryCentreDetectionTask c settings allCs axes strIndex m).machine.log.filter
        Event.isCall =
      m.log.filter Event.isCall ++ centreDetectionCalls c settings allCs axes m.nextId strIndex := by
  cases hfile : settings.inputFiles[strIndex]? with
  | none =>
    simp [SymmetryCentreDetectionTask, centreDetectionCalls, hfile, Machine.new, Event.isCall]
  | some fName =>
    have hfile1 : ({ settings with moveToCOM := false } : ProSHADE_settings).inputFiles[strIndex]?
        = some fName := hfile
    have hp := fun (allCs1 axes1 symElems : AxisList) (m1 : Machine) =>
      (phased_calls c { settings with moveToCOM := false } allCs1 axes1 strIndex fName symElems m1
        hfile1).2
    simp only [SymmetryCentreDetectionTask, centreDetectionCalls, reachesPhased,
      reliableSymmetries, phaselessDetection, preparedStructure, enforcedSettings,
      List.get?_eq_getElem?, hfile, Machine.new, Machine.func, Machine.call, Machine.delete,
      Machine.emit]
    repeat' split
    all_goals
      simp_all [Event.isCall, phaselessCalls, phasedCalls, enforcedSettings, List.getElem?_eq_none]

theorem centreDetectionCalls_objects {D : Type} (c : Collaborators D)
    (settings : ProSHADE_settings) (allCs axes : AxisList) (obj strIndex : Nat) :
    ∀ e ∈ centreDetectionCalls c settings allCs axes obj strIndex,
      (∀ o meth s, e = Event.call o meth s → o = obj + 1 ∨ o = obj + 2) ∧
      (∀ o f i s, e = Event.call o (.readInStructure f i) s → i = strIndex) ∧
      (∀ o s, e ≠ Event.call o .reportSymmetryResults s) := by
  unfold centreDetectionCalls
  split
  · simp
  · simp only [phaselessCalls, phasedCalls]
    split
    · split <;> (simp; refine ⟨?_, ?_⟩ <;> (intros; subst_vars; rfl))
    · simp
      intros; subst_vars; rfl

theorem forLoop_succ_of_not_returned {S : Type} (body : Nat → S → Outcome × S) (iter n : Nat)
    (s : S) (h : (body iter s).1 ≠ .returned) :
    forLoop body iter (n + 1) s = body iter s := by
  unfold forLoop
  split
  · next s1 heq => rw [heq] at h; exact absurd rfl h
  · next o s1 _ heq => exact heq.symm

theorem centreDetection_outcome {D : Type} (c : Collaborators D)
    (settings : ProSHADE_settings) (allCs axes : AxisList) (strIndex : Nat) (m : Machine) :
    (if (SymmetryCentreDetectionTask c settings allCs axes strIndex m).outcome = .returned then
        Outcome.exited 0
      else (SymmetryCentreDetectionTask c settings allCs axes strIndex m).outcome) ≠ .returned := by
  split
  · simp
  · assumption

/-- The first iteration of `SymmetryDetectionTask` with `findSymCentre` set. -/
theorem symmetry_body_findSymCentre {D : Type} (c : Collaborators D)
    (settings : ProSHADE_settings) (st : SymmetryState) (first : String)
    (hget : settings.inputFiles[0]? = some first) (hon : settings.findSymCentre = true) :
    SymmetryDetectionTask.body c settings 0 st =
      (if (SymmetryCentreDetectionTask c settings st.allCs st.axes 0
            ⟨st.machine.log ++ centreSearchPrelude settings st.machine.nextId first,
              st.machine.nextId + 2⟩).outcome = .returned then Outcome.exited 0
        else (SymmetryCentreDetectionTask c settings st.allCs st.axes 0
            ⟨st.machine.log ++ centreSearchPrelude settings st.machine.nextId first,
              st.machine.nextId + 2⟩).outcome,
        ⟨(SymmetryCentreDetectionTask c settings st.allCs st.axes 0
            ⟨st.machine.log ++ centreSearchPrelude settings st.machine.nextId first,
              st.machine.nextId + 2⟩).axes,
          (SymmetryCentreDetectionTask c settings st.allCs st.axes 0
            ⟨st.machine.log ++ centreSearchPrelude settings st.machine.nextId first,
              st.machine.nextId + 2⟩).allCs,
          st.mapCOMShift,
          (SymmetryCentreDetectionTask c settings st.allCs st.axes 0
            ⟨st.machine.log ++ centreSearchPrelude settings st.machine.nextId first,
              st.machine.nextId + 2⟩).machine⟩) := by
  have hm : (⟨st.machine.log ++ [Event.alloc .data st.machine.nextId] ++
        [Event.call st.machine.nextId (.readInStructure first 0) (some settings)] ++
        [Event.stdout "@@@ Attempting to find the symmetry centre using phase-less detection."] ++
        [Event.alloc .settings (st.machine.nextId + 1)], st.machine.nextId + 1 + 1⟩ : Machine) =
      ⟨st.machine.log ++ centreSearchPrelude settings st.machine.nextId first,
        st.machine.nextId + 2⟩ := by
    simp [centreSearchPrelude]
  simp only [SymmetryDetectionTask.body, List.get?_eq_getElem?, hget, hon, Machine.new,
    Machine.call, Machine.emit, if_true, hm]
  split
  · next heq => simp [heq]
  · next o hne => rw [if_neg hne]

/-! ## Claims, concluded -/

/-- Claim C21. The list returned by `getAllGroupElements` starts with the
identity matrix, for every list of generators and every iteration cap; no
later element is the identity, so the element at index 1, when there is one,
is not the identity; and when the first generator is not the identity it is
the element at index 1. -/
theorem getAllGroupElements_identity_first {R : Type} [CommRing R] [DecidableEq R]
    (generators : List (Mat3 R)) (cap : Nat) :
    (getAllGroupElements generators cap)[0]? = some [1, 0, 0, 0, 1, 0, 0, 0, 1] ∧
    (∀ i, 0 < i → (getAllGroupElements generators cap)[i]? ≠ some [1, 0, 0, 0, 1, 0, 0, 0, 1]) ∧
    (∀ g rest, generators = g :: rest → g ≠ 1 →
      (getAllGroupElements generators cap)[1]? = some g.toList) := by
  have hid : Mat3.toList (1 : Mat3 R) = [1, 0, 0, 0, 1, 0, 0, 0, 1] := rfl
  obtain ⟨e1, e2, h1, h2, hn⟩ := groupElements_shape generators cap
  unfold getAllGroupElements
  rw [h2, ← hid]
  refine ⟨by simp, ?_, ?_⟩
  · intro i hi hget
    obtain ⟨j, rfl⟩ : ∃ j, i = j + 1 := ⟨i - 1, by omega⟩
    simp only [List.map_cons, List.getElem?_cons_succ, List.getElem?_map,
      Option.map_eq_some'] at hget
    obtain ⟨x, hx, hx1⟩ := hget
    have : x = 1 := toList_injective _ _ hx1
    subst this
    have hmem : (1 : Mat3 R) ∈ e1 ++ e2 := List.getElem?_mem hx
    exact (List.nodup_cons.mp hn).1 hmem
  · intro g rest hg hne
    subst hg
    have : addNew [(1 : Mat3 R)] (g :: rest) = addNew [1, g] rest := by
      simp [addNew, Ne.symm hne, hne]
    obtain ⟨e3, h3, _, _⟩ := addNew_eq_append rest [(1 : Mat3 R), g]
    rw [this, h3] at h1
    have he1 : e1 = g :: e3 := by simpa using h1.symm
    subst he1
    simp

/-- Claim C21 at the generators of D4, the quarter turn about z and the half
turn about x: the element at index 1 is the quarter turn about z. -/
theorem getAllGroupElements_identity_first_witness :
    (getAllGroupElements [quarterTurnZ, halfTurnX] 8)[1]? = some [0, -1, 0, 1, 0, 0, 0, 0, 1] :=
  (getAllGroupElements_identity_first [quarterTurnZ, halfTurnX] 8).2.2 quarterTurnZ [halfTurnX]
    rfl (by decide)

/-- Claim C23. When the settings pass `checkSymmetrySettings` and `findSymCentre`
is set, `SymmetryDetectionTask` does not return: its first iteration creates
and reads the structure of input 0, prints the message, copies the settings,
runs `SymmetryCentreDetectionTask` for input 0 and, when that returns, ends the
process with `exit(0)`; should the centre detection raise, the exception leaves
the task.  The settings of the caller and `mapCOMShift` are as on entry.  The
only member function called on the structure of the task is `readInStructure`;
every other call is one of the centre detection, on its own two structures;
every `readInStructure` of the run is for input 0 and `reportSymmetryResults`
is never called. -/
theorem SymmetryDetectionTask_findSymCentre_exits {D : Type} (c : Collaborators D)
    (settings : ProSHADE_settings) (st : SymmetryState)
    (hpass : (checkSymmetrySettings settings st.machine).outcome = .returned)
    (hon : settings.findSymCentre = true) :
    ∃ first centre calls,
      settings.inputFiles[0]? = some first ∧
      centre = SymmetryCentreDetectionTask c settings st.allCs st.axes 0
        ⟨st.machine.log ++ centreSearchPrelude settings st.machine.nextId first,
          st.machine.nextId + 2⟩ ∧
      SymmetryDetectionTask c settings st =
        (if centre.outcome = .returned then .exited 0 else centre.outcome, settings,
          ⟨centre.axes, centre.allCs, st.mapCOMShift, centre.machine⟩) ∧
      (SymmetryDetectionTask c settings st).1 ≠ .returned ∧
      (SymmetryDetectionTask c settings st).2.2.mapCOMShift = st.mapCOMShift ∧
      (SymmetryDetectionTask c settings st).2.2.machine.log.filter Event.isCall =
        st.machine.log.filter Event.isCall ++ calls ∧
      calls = Event.call st.machine.nextId (.readInStructure first 0) (some settings) ::
        centreDetectionCalls c settings st.allCs st.axes (st.machine.nextId + 2) 0 ∧
      (∀ meth s, Event.call st.machine.nextId meth s ∈ calls →
        meth = .readInStructure first 0) ∧
      (∀ obj f i s, Event.call obj (.readInStructure f i) s ∈ calls → i = 0) ∧
      (∀ obj s, Event.call obj .reportSymmetryResults s ∉ calls) := by
  obtain ⟨hs, hm⟩ := checkSymmetrySettings_frame settings st.machine
  have hlen : 0 < settings.inputFiles.length := by
    by_contra hcon
    have h0 : settings.inputFiles.length < 1 := by omega
    simp [checkSymmetrySettings, h0] at hpass
  obtain ⟨first, hfirst⟩ : ∃ first, settings.inputFiles[0]? = some first :=
    ⟨settings.inputFiles[0], List.getElem?_eq_getElem hlen⟩
  obtain ⟨n, hn⟩ : ∃ n, settings.inputFiles.length = n + 1 :=
    ⟨settings.inputFiles.length - 1, by omega⟩
  have hbody := symmetry_body_findSymCentre c settings { st with machine := st.machine } first
    hfirst hon
  have hne := centreDetection_outcome c settings st.allCs st.axes 0
    ⟨st.machine.log ++ centreSearchPrelude settings st.machine.nextId first,
      st.machine.nextId + 2⟩
  have htask : SymmetryDetectionTask c settings st =
      (if (SymmetryCentreDetectionTask c settings st.allCs st.axes 0
            ⟨st.machine.log ++ centreSearchPrelude settings st.machine.nextId first,
              st.machine.nextId + 2⟩).outcome = .returned then Outcome.exited 0
        else (SymmetryCentreDetectionTask c settings st.allCs st.axes 0
            ⟨st.machine.log ++ centreSearchPrelude settings st.machine.nextId first,
              st.machine.nextId + 2⟩).outcome, settings,
        ⟨(SymmetryCentreDetectionTask c settings st.allCs st.axes 0
            ⟨st.machine.log ++ centreSearchPrelude settings st.machine.nextId first,
              st.machine.nextId + 2⟩).axes,
          (SymmetryCentreDetectionTask c settings st.allCs st.axes 0
            ⟨st.machine.log ++ centreSearchPrelude settings st.machine.nextId first,
              st.machine.nextId + 2⟩).allCs,
          st.mapCOMShift,
          (SymmetryCentreDetectionTask c settings st.allCs st.axes 0
            ⟨st.machine.log ++ centreSearchPrelude settings st.machine.nextId first,
              st.machine.nextId + 2⟩).machine⟩) := by
    unfold SymmetryDetectionTask
    simp only [hpass, hs, hm, hn]
    rw [forLoop_succ_of_not_returned _ _ _ _ (by rw [hbody]; exact hne), hbody]
  have hobj := centreDetectionCalls_objects c settings st.allCs st.axes (st.machine.nextId + 2) 0
  refine ⟨first, _, _, hfirst, rfl, htask, ?_, ?_, ?_, rfl, ?_, ?_, ?_⟩
  · rw [htask]; exact hne
  · rw [htask]
  · rw [htask]
    simp only [SymmetryCentreDetectionTask_calls, List.filter_append]
    simp [centreSearchPrelude, Event.isCall]
  · intro meth s hmem
    rcases List.mem_cons.mp hmem with h | h
    · injection h with _ h2 _
    · have := (hobj _ h).1 _ _ _ rfl
      omega
  · intro obj f i s hmem
    rcases List.mem_cons.mp hmem with h | h
    · injection h with _ h2 _
      injection h2 with _ h3
    · exact (hobj _ h).2.1 _ _ _ _ rfl
  · intro obj s hmem
    rcases List.mem_cons.mp hmem with h | h
    · injection h with _ h2 _
      cases h2
    · exact (hobj _ h).2.2 _ _ rfl

/-- Claim C23 at two map files with `findSymCentre` set and collaborators that
find no reliable symmetry: the task ends the process with `exit(0)` and
`mapCOMShift` stays empty. -/
theorem SymmetryDetectionTask_findSymCentre_exits_witness :
    (SymmetryDetectionTask traceCollaborators twoMapsFindCentre ⟨[], [], [], Machine.start⟩).1 =
      .exited 0 ∧
    (SymmetryDetectionTask traceCollaborators twoMapsFindCentre
      ⟨[], [], [], Machine.start⟩).2.2.mapCOMShift = [] := by
  obtain ⟨first, centre, calls, _, _, _, _, h, _⟩ :=
    SymmetryDetectionTask_findSymCentre_exits traceCollaborators twoMapsFindCentre
      ⟨[], [], [], Machine.start⟩ (by decide) (by decide)
  exact ⟨by decide, h⟩

/-- Claim C24. On a settings object with exactly two input files
`checkOverlaySettings` (0.7.6.1) returns with `moveToCOM` off and every other
field as it was; it changes neither the settings nor the log when `moveToCOM`
was off already; and applied to its own result it changes nothing. -/
theorem checkOverlaySettings_turns_centring_off (settings : ProSHADE_settings) (m : Machine)
    (h : settings.inputFiles.length = 2) :
    (checkOverlaySettings settings m).outcome = .returned ∧
    (checkOverlaySettings settings m).settings = { settings with moveToCOM := false } ∧
    (settings.moveToCOM = false → checkOverlaySettings settings m = ⟨.returned, settings, m⟩) ∧
    (∀ m1 : Machine,
      checkOverlaySettings (checkOverlaySettings settings m).settings m1 =
        ⟨.returned, (checkOverlaySettings settings m).settings, m1⟩) := by
  cases hm : settings.moveToCOM <;> simp [checkOverlaySettings, h, hm]
  all_goals
    cases settings
    simp_all

/-- Claim C24 at two map files with centring requested: the check returns and
centring is off afterwards. -/
theorem checkOverlaySettings_turns_centring_off_witness :
    (checkOverlaySettings twoMapsCentred Machine.start).outcome = .returned ∧
    (checkOverlaySettings twoMapsCentred Machine.start).settings =
      { twoMapsCentred with moveToCOM := false } :=
  ⟨(checkOverlaySettings_turns_centring_off twoMapsCentred Machine.start (by decide)).1,
    (checkOverlaySettings_turns_centring_off twoMapsCentred Machine.start (by decide)).2.1⟩

/-- Claim C25. For every settings object with exactly two inputs, whatever
`usePhase` and `changeMapResolution` are on entry, `MapOverlayTask` (0.7.6.1 and
0.7.2) returns; the rotation search is its only call of `getOptimalRotation`
and is given settings with `usePhase` off; the translation search is its only
call of `getOptimalTranslation` and is given settings with `usePhase` and
`changeMapResolution` on; and the settings object of the caller has `usePhase`
and `changeMapResolution` on when the task returns. -/
theorem MapOverlayTask_leaves_phase_on {D : Type} (c : Collaborators D)
    (oc : OverlayCollaborators D) (settings : ProSHADE_settings) (st : OverlayState)
    (st072 : OverlayState_v072) (h : settings.inputFiles.length = 2) :
    ((MapOverlayTask c oc settings st).1 = .returned ∧
      (MapOverlayTask c oc settings st).2.1.usePhase = true ∧
      (MapOverlayTask c oc settings st).2.1.changeMapResolution = true ∧
      ∃ added, (MapOverlayTask c oc settings st).2.2.machine.log = st.machine.log ++ added ∧
        added.filterMap Event.rotationSearchSettings =
          [{ settings with moveToCOM := false, usePhase := false }] ∧
        added.filterMap Event.translationSearchSettings =
          [{ settings with moveToCOM := false, usePhase := true, changeMapResolution := true }]) ∧
    ((MapOverlayTask_v072 c oc settings st072).1 = .returned ∧
      (MapOverlayTask_v072 c oc settings st072).2.1.usePhase = true ∧
      (MapOverlayTask_v072 c oc settings st072).2.1.changeMapResolution = true ∧
      ∃ added, (MapOverlayTask_v072 c oc settings st072).2.2.machine.log =
          st072.machine.log ++ added ∧
        added.filterMap Event.rotationSearchSettings = [{ settings with usePhase := false }] ∧
        added.filterMap Event.translationSearchSettings =
          [{ settings with usePhase := true, changeMapResolution := true }]) := by
  obtain ⟨h1, h2, h3⟩ := MapOverlayTask_run c oc settings st h
  obtain ⟨g1, g2, g3⟩ := MapOverlayTask_v072_run c oc settings st072 h
  refine ⟨⟨h1, by rw [h2], by rw [h2], ?_⟩, ⟨g1, by rw [g2], by rw [g2], ?_⟩⟩
  · cases hm : settings.moveToCOM
    · refine ⟨overlayEvents { settings with moveToCOM := false } st.machine.nextId, ?_, ?_, ?_⟩
      · rw [h3]; simp [checkOverlaySettings, h, hm]
      · simp [overlayEvents, List.filterMap, Event.rotationSearchSettings]
      · simp [overlayEvents, List.filterMap, Event.translationSearchSettings]
    · refine ⟨Event.warning settings.verbose "WO00066" ::
        overlayEvents { settings with moveToCOM := false } st.machine.nextId, ?_, ?_, ?_⟩
      · rw [h3]; simp [checkOverlaySettings, h, hm, Machine.emit]
      · simp [overlayEvents, List.filterMap, Event.rotationSearchSettings]
      · simp [overlayEvents, List.filterMap, Event.translationSearchSettings]
  · refine ⟨overlayEvents_v072 settings st072.machine.nextId, g3, ?_, ?_⟩
    · simp [overlayEvents_v072, List.filterMap, Event.rotationSearchSettings]
    · simp [overlayEvents_v072, List.filterMap, Event.translationSearchSettings]

/-- Claim C25 at two map files with the phase off on entry: the phase is on
when the task returns. -/
theorem MapOverlayTask_leaves_phase_on_witness :
    twoMapsNoPhase.usePhase = false ∧
    (MapOverlayTask traceCollaborators traceOverlayCollaborators twoMapsNoPhase
      ⟨[], [], [], Machine.start⟩).2.1.usePhase = true :=
  ⟨rfl, (MapOverlayTask_leaves_phase_on traceCollaborators traceOverlayCollaborators
    twoMapsNoPhase ⟨[], [], [], Machine.start⟩ ⟨[], [], Machine.start⟩ (by decide)).1.2.1⟩

/-- Claim C26. When the settings check passes, `MapManipulationTask` (0.7.6.1
and 0.7.2) returns and the entries it appends to `reboxedBounds` and
`manipulatedMaps` are the bounds and the map of the re-box target object of
each input, whatever `reBoxMap` is; `deepCopyMap` is called on that object.
With `reBoxMap` set, `writeMap` is called on the target.  With `reBoxMap` unset
the member functions called in an iteration are `readInStructure`,
`processInternalMap` and `writeMap` on the input structure and `deepCopyMap`
on the target, and the appended entries are, for every input, the bounds and
the map of an object as it is constructed. -/
theorem MapManipulationTask_saves_target {D : Type} (c : Collaborators D)
    (settings : ProSHADE_settings) (st : MapManipulationState)
    (hpass : (checkMapManipulationSettings c.isFilePDB settings st.machine).outcome = .returned) :
    SavesReBoxTarget c settings st (MapManipulationTask c settings st) ∧
    SavesReBoxTarget (c.v072 settings) settings st (MapManipulationTask_v072 c settings st) ∧
    (∀ obj iter fName,
      Event.call (obj + 1) .deepCopyMap none ∈ mapManipulationEvents settings obj iter fName ∧
      (settings.reBoxMap = true →
        Event.call (obj + 1) (.writeMap (reBoxedFileName settings iter)) none ∈
          mapManipulationEvents settings obj iter fName) ∧
      (settings.reBoxMap = false →
        (mapManipulationEvents settings obj iter fName).filter Event.isCall =
          [ .call obj (.readInStructure fName iter) (some settings),
            .call obj .processInternalMap (some settings),
            .call obj (.writeMap (reBoxedFileName settings iter)) none,
            .call (obj + 1) .deepCopyMap none ])) := by
  have key : ∀ k : Collaborators D,
      (checkMapManipulationSettings k.isFilePDB settings st.machine).outcome = .returned →
      SavesReBoxTarget k settings st (MapManipulationTask k settings st) := by
    intro k hk
    obtain ⟨w, _, hrun⟩ := MapManipulationTask_run k settings st hk
    unfold SavesReBoxTarget
    rw [hrun]
    refine ⟨rfl, rfl, rfl, ⟨w, rfl⟩, ?_⟩
    intro h
    have ht : ∀ i f, reBoxTarget k settings i f = k.construct :=
      fun i f => reBoxTarget_of_unset k settings h i f
    exact ⟨by simp only [ht, map_enum_const], by simp only [ht, map_enum_const]⟩
  refine ⟨key c hpass, ?_, ?_⟩
  · rw [MapManipulationTask_v072_eq]
    exact key (c.v072 settings) hpass
  · intro obj iter fName
    cases h : settings.reBoxMap <;> simp [mapManipulationEvents, h, Event.isCall]

/-- Claim C26 at a map file and a PDB file with `reBoxMap` unset: both entries
appended to `reboxedBounds` are the bounds of a newly constructed object. -/
theorem MapManipulationTask_saves_target_witness :
    mapThenPdb.reBoxMap = false ∧
    (MapManipulationTask traceCollaborators mapThenPdb
        ⟨[], [], [], Machine.start⟩).2.2.reboxedBounds =
      [] ++ List.replicate 2 (traceCollaborators.bounds traceCollaborators.construct) :=
  ⟨rfl, ((MapManipulationTask_saves_target traceCollaborators mapThenPdb
    ⟨[], [], [], Machine.start⟩ (by decide)).1.2.2.2.2 rfl).1⟩

end ProSHADE
